import Mathlib

/-!
# chio-go: a verification development

Shallow embedding of the multi-version Bancho wire codec (`chio.go`, `clients/b*.go`,
`internal/*.go`) and theorems about it.

Conventions of the embedding
* Go `int` build numbers are `Int`; unsigned machine integers are `Nat` with explicit
  reduction modulo `2^w` wherever the Go code can wrap; signed 32-bit integers are `Int`.
* A byte is `Fin 256`; a Go `string` / `[]byte` is a `List Byte`.
* A Go `map` is an association list that holds every key at most once.
* A nil interface / nil pointer result is `none`.
-/

namespace Chio

/-! ## The version registry (`chio.go`) -/

/-- Go `m[k] = v` on a map held as an association list: the old binding of `k`, if any,
is dropped and the new one is added. -/
def mapSet {κ α : Type} [DecidableEq κ] (m : List (κ × α)) (k : κ) (v : α) : List (κ × α) :=
  (k, v) :: m.filter (fun p => !(p.1 == k))

/-- Go `m[k]` with the comma-ok result folded into an `Option`. -/
def mapGet {κ α : Type} [DecidableEq κ] (m : List (κ × α)) (k : κ) : Option α :=
  m.lookup k

/-- The two package-level variables `clients` and `sortedVersions` of `chio.go`. -/
structure Registry (α : Type) where
  clients : List (Int × α)
  sortedVersions : List Int

/-- State at program start: `make(map[int]BanchoIO)` and a nil slice. -/
def Registry.init {α : Type} : Registry α := ⟨[], []⟩

/-- Function `RegisterClient`: store the client, then rebuild `sortedVersions` from the keys of the
map and sort it (`sort.Ints`). -/
def RegisterClient {α : Type} (st : Registry α) (version : Int) (client : α) : Registry α :=
  let clients := mapSet st.clients version client
  { clients := clients
    sortedVersions := (clients.map Prod.fst).insertionSort (fun a b => a ≤ b) }

/-- The loop at the end of `GetClientInterface`: walk the sorted versions, remember the
last one that is `<= clientVersion`, stop at the first one that is larger. -/
def scanBest (clientVersion : Int) : List Int → Int → Int
  | [], best => best
  | version :: rest, best =>
    if version ≤ clientVersion then scanBest clientVersion rest version else best

/-- Function `GetClientInterface`. -/
def GetClientInterface {α : Type} (st : Registry α) (clientVersion : Int) : Option α :=
  match st.sortedVersions with
  | [] => none
  | lowestVersion :: rest =>
    let highestVersion := (lowestVersion :: rest).getLast (List.cons_ne_nil _ _)
    if clientVersion < lowestVersion then mapGet st.clients lowestVersion
    else if clientVersion > highestVersion then mapGet st.clients highestVersion
    else
      match mapGet st.clients clientVersion with
      | some client => some client
      | none => mapGet st.clients (scanBest clientVersion (lowestVersion :: rest) lowestVersion)

/-- The registry reached from the initial state by a sequence of `RegisterClient` calls,
given as the list of their arguments in call order. -/
def registryOf {α : Type} (calls : List (Int × α)) : Registry α :=
  calls.foldl (fun st c => RegisterClient st c.1 c.2) Registry.init

/-- The codec registered at build `k` by a sequence of calls: the argument of the last
call for `k`. -/
def registeredAt {α : Type} (calls : List (Int × α)) (k : Int) : Option α :=
  calls.reverse.lookup k

/-! ## Bytes, errors and byte sources -/

/-- One octet. -/
abbrev Byte := Fin 256

/-- A Go `[]byte` or `string`. -/
abbrev Bytes := List Byte

/-- Conversion `uint8(n)`. -/
def Byte.ofNat (n : Nat) : Byte := ⟨n % 256, Nat.mod_lt _ (by decide)⟩

/-- The error values the embedded code can return, and the run-time panic.
`panic` is not a Go `error`: it stands for the goroutine aborting. -/
inductive Err where
  /-- Value `io.EOF`. -/
  | EOF
  /-- Value `io.ErrUnexpectedEOF`. -/
  | UnexpectedEOF
  /-- Message "invalid string type". -/
  | invalidStringType
  /-- Message "packet '%d' not implemented". -/
  | notImplemented (packetId : Nat)
  /-- Message "expected %d bytes, got %d". -/
  | expectedBytes (length : Int) (n : Nat)
  /-- Message "client does not implement %s". -/
  | doesNotImplement (name : String)
  /-- Message "bool list must have at least 8 elements". -/
  | boolListTooShort
  /-- Message "expected direct message, got channel message". -/
  | expectedDirectMessage
  /-- An error of `gzip.NewReader`. -/
  | gzipHeader
  /-- A run-time panic (negative `make` length, index out of range, nil dereference). -/
  | panic
  deriving DecidableEq

/-- Equality of results is decidable, so that closed statements about the embedded
functions can be evaluated. -/
instance instDecidableEqExcept {ε α : Type} [DecidableEq ε] [DecidableEq α] :
    DecidableEq (Except ε α) := fun x y =>
  match x, y with
  | .ok a, .ok b =>
    if h : a = b then isTrue (by rw [h]) else isFalse (fun h' => h (Except.ok.inj h'))
  | .error a, .error b =>
    if h : a = b then isTrue (by rw [h]) else isFalse (fun h' => h (Except.error.inj h'))
  | .ok _, .error _ => isFalse (fun h => Except.noConfusion h)
  | .error _, .ok _ => isFalse (fun h => Except.noConfusion h)

/-- The in-memory `io.Reader` implementations of the standard library. Both hand out the
bytes they hold in order; they differ only in what `Read` answers once they are exhausted. -/
inductive Source where
  /-- A `*bytes.Reader` (what `ReadPacket` builds over the decompressed payload). -/
  | reader
  /-- A `*bytes.Buffer`. -/
  | buffer
  deriving DecidableEq

/-- One call `r.Read(buf)` with `len(buf) = n` on a source holding `s`: the bytes copied
into `buf` (so the returned count is their number) and the bytes left in the source.
`bytes.Reader` answers `io.EOF` whenever it is exhausted; `bytes.Buffer` answers `io.EOF`
when it is exhausted and `n > 0`. -/
def Source.Read (k : Source) (n : Nat) (s : Bytes) : Except Err Bytes × Bytes :=
  match s, k with
  | [], .reader => (.error .EOF, [])
  | [], .buffer => if n = 0 then (.ok [], []) else (.error .EOF, [])
  | b :: bs, _ => (.ok ((b :: bs).take n), (b :: bs).drop n)

/-- Function `io.ReadFull(r, buf)` with `len(buf) = n ≥ 1`, the read that `binary.Read` performs:
all `n` bytes, or `io.EOF` when the source holds nothing, or `io.ErrUnexpectedEOF` after
draining a source that holds fewer than `n` bytes. -/
def readFull (n : Nat) (s : Bytes) : Except Err Bytes × Bytes :=
  if n ≤ s.length then (.ok (s.take n), s.drop n)
  else if s.length = 0 then (.error .EOF, [])
  else (.error .UnexpectedEOF, [])

/-- Little-endian bytes of `v mod 2^(8n)`: `binary.Write(w, binary.LittleEndian, v)` for an
unsigned `v` of `n` bytes. -/
def leBytes : Nat → Nat → Bytes
  | 0, _ => []
  | n + 1, v => Byte.ofNat v :: leBytes n (v / 256)

/-- The unsigned value of little-endian bytes. -/
def leValue : Bytes → Nat
  | [] => 0
  | b :: bs => b.val + 256 * leValue bs

/-- Conversion `uint32(v)` of an `int32`/`int`. -/
def toUint32 (v : Int) : Nat := (v % 4294967296).toNat

/-- Conversion `int32(v)` of a `uint32`. -/
def toInt32 (v : Nat) : Int :=
  if v % 4294967296 < 2147483648 then ((v % 4294967296 : Nat) : Int)
  else ((v % 4294967296 : Nat) : Int) - 4294967296

/-! ## Primitive writers (`internal/write.go`); each returns the bytes it writes -/

def WriteUint64 (v : Nat) : Bytes := leBytes 8 v
def WriteUint32 (v : Nat) : Bytes := leBytes 4 v
def WriteInt32 (v : Int) : Bytes := WriteUint32 (toUint32 v)
def WriteUint16 (v : Nat) : Bytes := leBytes 2 v
def WriteUint8 (v : Nat) : Bytes := leBytes 1 v
def WriteBoolean (v : Bool) : Bytes := [if v then 1 else 0]

/-- One round of the loop of `WriteBoolList`, for index `i`, on the `uint8` accumulator. -/
def boolListStep (bools : List Bool) (result : Nat) (i : Nat) : Nat :=
  let r := if bools.getD i false then result ||| 1 else result
  if i > 0 then (r <<< 1) % 256 else r

/-- Function `WriteBoolList(w, bools)`: the error, or the single byte written. -/
def WriteBoolList (bools : List Bool) : Except Err Bytes :=
  if bools.length < 8 then .error .boolListTooShort
  else .ok (WriteUint8 ([7, 6, 5, 4, 3, 2, 1, 0].foldl (boolListStep bools) 0))

/-- Function `uleb128.Marshal` of the library `github.com/bnch/uleb128` (a dependency, not part of
this repository): the unsigned LEB128 encoding, seven bits per byte, low group first, the
high bit set on every byte but the last. -/
def uleb128MarshalLoop : Nat → Nat → Bytes
  | 0, i => [Byte.ofNat i]
  | fuel + 1, i =>
    if i < 128 then [Byte.ofNat i]
    else Byte.ofNat (i % 128 + 128) :: uleb128MarshalLoop fuel (i / 128)

/-- The encoder proper. The loop divides `i` by 128 in every round, so `i` rounds are
always enough (`uleb128MarshalLoop_fuel`). -/
def uleb128Marshal (i : Nat) : Bytes := uleb128MarshalLoop i i

/-- Function `WriteString(w, v)`. -/
def WriteString (v : Bytes) : Bytes :=
  if v.length = 0 then [0x00]
  else [0x0b] ++ uleb128Marshal v.length ++ v

/-! ## Primitive readers (`internal/io_read.go`): result and bytes left in the source -/

/-- Reader of an `n`-byte unsigned little-endian integer through `binary.Read`. -/
def readUint (n : Nat) (s : Bytes) : Except Err Nat × Bytes :=
  match readFull n s with
  | (.ok bs, rest) => (.ok (leValue bs), rest)
  | (.error e, rest) => (.error e, rest)

def ReadUint64 (s : Bytes) : Except Err Nat × Bytes := readUint 8 s
def ReadUint32 (s : Bytes) : Except Err Nat × Bytes := readUint 4 s
def ReadUint16 (s : Bytes) : Except Err Nat × Bytes := readUint 2 s
def ReadUint8 (s : Bytes) : Except Err Nat × Bytes := readUint 1 s

def ReadInt32 (s : Bytes) : Except Err Int × Bytes :=
  match ReadUint32 s with
  | (.ok uv, rest) => (.ok (toInt32 uv), rest)
  | (.error e, rest) => (.error e, rest)

/-- Function `ReadBoolean`: `binary.Read` decodes a bool as "byte is not zero". -/
def ReadBoolean (s : Bytes) : Except Err Bool × Bytes :=
  match readFull 1 s with
  | (.ok bs, rest) => (.ok (decide (leValue bs ≠ 0)), rest)
  | (.error e, rest) => (.error e, rest)

/-- Function `ReadBoolList(r, size)` of `internal/io_read.go`. -/
def ReadBoolList (s : Bytes) (size : Int) : Except Err (List Bool) × Bytes :=
  match ReadUint8 s with
  | (.error e, rest) => (.error e, rest)
  | (.ok input, rest) =>
    if size < 0 then (.error .panic, rest)
    else (.ok ((List.range size.toNat).map (fun i => decide (((input >>> i) &&& 1) > 0))), rest)

/-- Function `uleb128.UnmarshalReader` of `github.com/bnch/uleb128` (a dependency, not part of this
repository): the value of an unsigned LEB128 varint and the bytes after it; `none` when
the input ends inside the varint. -/
def uleb128UnmarshalReader : Bytes → Option (Nat × Bytes)
  | [] => none
  | b :: rest =>
    if b.val < 128 then some (b.val, rest)
    else
      match uleb128UnmarshalReader rest with
      | some (v, rest') => some (b.val - 128 + 128 * v, rest')
      | none => none

/-- The `int` that `uleb128.UnmarshalReader` returns when the input ends inside the varint.
The function has no error result: it is modelled as ending the varint where the source
ends, with the value of the groups read up to there. -/
def uleb128Groups : Bytes → Nat
  | [] => 0
  | b :: rest => if b.val < 128 then b.val else b.val - 128 + 128 * uleb128Groups rest

/-- Function `ReadString(r)`. The final `r.Read(buf)` is a single `Read`: when it copies fewer than
`len(buf)` bytes without an error, the rest of `buf` keeps its zero bytes. A varint cut
short is no error of its own: `l` is the `int` the library returns and the `Read` that
follows finds the source exhausted. -/
def ReadString (k : Source) (s : Bytes) : Except Err Bytes × Bytes :=
  match readFull 1 s with
  | (.error e, rest) => (.error e, rest)
  | (.ok bs, rest) =>
    if leValue bs = 0x00 then (.ok [], rest)
    else if leValue bs ≠ 0x0b then (.error .invalidStringType, rest)
    else
      match uleb128UnmarshalReader rest with
      | none =>
        let l := uleb128Groups rest
        match k.Read l [] with
        | (.error e, rest'') => (.error e, rest'')
        | (.ok got, rest'') => (.ok (got ++ List.replicate (l - got.length) 0), rest'')
      | some (l, rest') =>
        match k.Read l rest' with
        | (.error e, rest'') => (.error e, rest'')
        | (.ok got, rest'') => (.ok (got ++ List.replicate (l - got.length) 0), rest'')

/-! ## Constants of package `chio`

The file that declares the logical packet IDs and the status codes is not among the
sources. The codecs are therefore embedded over an arbitrary assignment `K` of those
constants; what a theorem needs of the assignment is stated as a hypothesis on `K`. -/

/-- The `uint16` packet-ID constants and the `uint8` status codes named in the sources. -/
structure Constants where
  OsuSendUserStatus : Nat
  OsuSendIrcMessage : Nat
  OsuExit : Nat
  OsuRequestStatusUpdate : Nat
  OsuPong : Nat
  BanchoLoginReply : Nat
  BanchoCommandError : Nat
  BanchoSendMessage : Nat
  BanchoPing : Nat
  BanchoHandleIrcChangeUsername : Nat
  BanchoHandleIrcQuit : Nat
  BanchoHandleOsuUpdate : Nat
  BanchoHandleOsuQuit : Nat
  BanchoSpectatorJoined : Nat
  BanchoSpectatorLeft : Nat
  BanchoSpectateFrames : Nat
  OsuStartSpectating : Nat
  OsuStopSpectating : Nat
  OsuSpectateFrames : Nat
  BanchoVersionUpdate : Nat
  OsuErrorReport : Nat
  OsuCantSpectate : Nat
  BanchoSpectatorCantSpectate : Nat
  BanchoGetAttention : Nat
  BanchoAnnounce : Nat
  OsuSendIrcMessagePrivate : Nat
  BanchoMatchUpdate : Nat
  BanchoMatchNew : Nat
  BanchoMatchDisband : Nat
  OsuLobbyPart : Nat
  OsuLobbyJoin : Nat
  OsuMatchCreate : Nat
  OsuMatchJoin : Nat
  OsuMatchPart : Nat
  BanchoLobbyJoin : Nat
  BanchoLobbyPart : Nat
  BanchoMatchJoinSuccess : Nat
  BanchoMatchJoinFail : Nat
  OsuMatchChangeSlot : Nat
  OsuMatchReady : Nat
  OsuMatchLock : Nat
  OsuMatchChangeSettings : Nat
  BanchoFellowSpectatorJoined : Nat
  BanchoFellowSpectatorLeft : Nat
  OsuMatchStart : Nat
  BanchoMatchStart : Nat
  OsuMatchScoreUpdate : Nat
  BanchoMatchScoreUpdate : Nat
  OsuMatchComplete : Nat
  OsuMatchChangeBeatmap : Nat
  BanchoHandleIrcJoin : Nat
  StatusUnknown : Nat
  StatusStatsUpdate : Nat

/-- Modelled from the spec: the values of the constants of package `chio` (their
declarations are not under src/). The spec fixes no numbers beyond the raw IDs 11 and 50 of
the two legacy packets; this is the enumeration of the Bancho protocol that the
translation tables of the codecs are written against: logical IDs 0 to 49 with 45 unused,
and the two legacy packets `OsuMatchChangeBeatmap` and `BanchoHandleIrcJoin` placed at the
top of the `uint16` range. It instantiates `K` wherever a concrete assignment is needed. -/
def osuConstants : Constants where
  OsuSendUserStatus := 0
  OsuSendIrcMessage := 1
  OsuExit := 2
  OsuRequestStatusUpdate := 3
  OsuPong := 4
  BanchoLoginReply := 5
  BanchoCommandError := 6
  BanchoSendMessage := 7
  BanchoPing := 8
  BanchoHandleIrcChangeUsername := 9
  BanchoHandleIrcQuit := 10
  BanchoHandleOsuUpdate := 11
  BanchoHandleOsuQuit := 12
  BanchoSpectatorJoined := 13
  BanchoSpectatorLeft := 14
  BanchoSpectateFrames := 15
  OsuStartSpectating := 16
  OsuStopSpectating := 17
  OsuSpectateFrames := 18
  BanchoVersionUpdate := 19
  OsuErrorReport := 20
  OsuCantSpectate := 21
  BanchoSpectatorCantSpectate := 22
  BanchoGetAttention := 23
  BanchoAnnounce := 24
  OsuSendIrcMessagePrivate := 25
  BanchoMatchUpdate := 26
  BanchoMatchNew := 27
  BanchoMatchDisband := 28
  OsuLobbyPart := 29
  OsuLobbyJoin := 30
  OsuMatchCreate := 31
  OsuMatchJoin := 32
  OsuMatchPart := 33
  BanchoLobbyJoin := 34
  BanchoLobbyPart := 35
  BanchoMatchJoinSuccess := 36
  BanchoMatchJoinFail := 37
  OsuMatchChangeSlot := 38
  OsuMatchReady := 39
  OsuMatchLock := 40
  OsuMatchChangeSettings := 41
  BanchoFellowSpectatorJoined := 42
  BanchoFellowSpectatorLeft := 43
  OsuMatchStart := 44
  BanchoMatchStart := 46
  OsuMatchScoreUpdate := 47
  BanchoMatchScoreUpdate := 48
  OsuMatchComplete := 49
  OsuMatchChangeBeatmap := 0xFFFE
  BanchoHandleIrcJoin := 0xFFFF
  StatusUnknown := 7
  StatusStatsUpdate := 10

/-! ## The codec family (`clients/b282.go` … `clients/b323.go`) -/

/-- The concrete codec types, in embedding order: each embeds a pointer to the one before. -/
inductive Build where
  | b282 | b291 | b294 | b296 | b298 | b312 | b320 | b323
  deriving DecidableEq

/-- Depth of a codec type in the embedding chain. -/
def Build.rank : Build → Nat
  | .b282 => 0 | .b291 => 1 | .b294 => 2 | .b296 => 3
  | .b298 => 4 | .b312 => 5 | .b320 => 6 | .b323 => 7

/-- The packet readers of `internal/reader_dispatch.go`, by constructor function. -/
inductive PacketReader where
  | ReaderReadStatus
  | ReaderReadMessage
  | ReaderReadFrameBundle
  | ReaderReadPrivateMessage
  | ReaderReadMatch
  | ReaderReadMatchJoin
  | ReaderReadMatchChangeSlot
  | ReaderReadMatchLock
  | ReaderReadScoreFrame
  | ReaderReadEmpty
  | ReaderReadBanchoInt
  | ReaderReadBanchoString
  deriving DecidableEq

/-- The struct `B282`. Every later codec holds, through its chain of embedded pointers,
exactly one such struct: it is the whole mutable state of a codec. `Instance` is the field
the constructors from `NewB294` on assign (`base.Instance = client`) and `B312` reads; it
holds the outermost codec, recorded here by its type, and is nil until assigned. -/
structure B282 where
  SupportedPacketIds : List Nat
  ProtocolVer : Int
  SlotSize : Int
  Readers : List (Nat × PacketReader)
  Instance : Option Build

def NewB282 (K : Constants) : B282 :=
  let readers : List (Nat × PacketReader) := []
  let readers := mapSet readers K.OsuSendUserStatus .ReaderReadStatus
  let readers := mapSet readers K.OsuSendIrcMessage .ReaderReadMessage
  let readers := mapSet readers K.OsuStartSpectating .ReaderReadBanchoInt
  let readers := mapSet readers K.OsuSpectateFrames .ReaderReadFrameBundle
  let readers := mapSet readers K.OsuErrorReport .ReaderReadBanchoString
  { SlotSize := 8
    ProtocolVer := 0
    Readers := readers
    Instance := none
    SupportedPacketIds := [
      K.OsuSendUserStatus,
      K.OsuSendIrcMessage,
      K.OsuExit,
      K.OsuRequestStatusUpdate,
      K.OsuPong,
      K.BanchoLoginReply,
      K.BanchoCommandError,
      K.BanchoSendMessage,
      K.BanchoPing,
      K.BanchoHandleIrcChangeUsername,
      K.BanchoHandleIrcQuit,
      K.BanchoHandleOsuUpdate,
      K.BanchoHandleOsuQuit,
      K.BanchoSpectatorJoined,
      K.BanchoSpectatorLeft,
      K.BanchoSpectateFrames,
      K.OsuStartSpectating,
      K.OsuStopSpectating,
      K.OsuSpectateFrames,
      K.BanchoVersionUpdate,
      K.OsuErrorReport,
      K.OsuCantSpectate,
      K.BanchoSpectatorCantSpectate] }

def NewB291 (K : Constants) : B282 :=
  let base := NewB282 K
  { base with
    SupportedPacketIds := base.SupportedPacketIds ++ [K.BanchoGetAttention, K.BanchoAnnounce] }

def NewB294 (K : Constants) : B282 :=
  let base := NewB291 K
  let base := { base with
    SupportedPacketIds := base.SupportedPacketIds ++ [K.OsuSendIrcMessagePrivate] }
  let base := { base with Instance := some .b294 }
  let base := { base with
    Readers := mapSet base.Readers K.OsuSendIrcMessagePrivate .ReaderReadPrivateMessage }
  { base with Readers := mapSet base.Readers K.OsuSpectateFrames .ReaderReadFrameBundle }

def NewB296 (K : Constants) : B282 :=
  let base := NewB294 K
  { base with Readers := mapSet base.Readers K.OsuSpectateFrames .ReaderReadFrameBundle }

def NewB298 (K : Constants) : B282 :=
  let base := NewB296 K
  let base := { base with
    SupportedPacketIds := base.SupportedPacketIds ++ [
      K.BanchoMatchUpdate,
      K.BanchoMatchNew,
      K.BanchoMatchDisband,
      K.OsuLobbyPart,
      K.OsuLobbyJoin,
      K.OsuMatchCreate,
      K.OsuMatchJoin,
      K.OsuMatchPart,
      K.BanchoLobbyJoin,
      K.BanchoLobbyPart,
      K.BanchoMatchJoinSuccess,
      K.BanchoMatchJoinFail,
      K.OsuMatchChangeSlot,
      K.OsuMatchReady,
      K.OsuMatchLock,
      K.OsuMatchChangeSettings,
      K.BanchoFellowSpectatorJoined,
      K.BanchoFellowSpectatorLeft] }
  let base := { base with Instance := some .b298 }
  let readers := base.Readers
  let readers := mapSet readers K.OsuLobbyJoin .ReaderReadEmpty
  let readers := mapSet readers K.OsuLobbyPart .ReaderReadEmpty
  let readers := mapSet readers K.OsuMatchCreate .ReaderReadMatch
  let readers := mapSet readers K.OsuMatchJoin .ReaderReadMatchJoin
  let readers := mapSet readers K.OsuMatchPart .ReaderReadEmpty
  let readers := mapSet readers K.OsuMatchChangeSlot .ReaderReadMatchChangeSlot
  let readers := mapSet readers K.OsuMatchReady .ReaderReadEmpty
  let readers := mapSet readers K.OsuMatchLock .ReaderReadMatchLock
  let readers := mapSet readers K.OsuMatchChangeSettings .ReaderReadMatch
  { base with Readers := readers }

def NewB312 (K : Constants) : B282 :=
  let base := NewB298 K
  let base := { base with
    SupportedPacketIds := base.SupportedPacketIds ++ [
      K.OsuMatchStart,
      K.BanchoMatchStart,
      K.OsuMatchScoreUpdate,
      K.BanchoMatchScoreUpdate,
      K.OsuMatchComplete] }
  let base := { base with Instance := some .b312 }
  let readers := base.Readers
  let readers := mapSet readers K.OsuMatchStart .ReaderReadEmpty
  let readers := mapSet readers K.OsuMatchScoreUpdate .ReaderReadScoreFrame
  let readers := mapSet readers K.OsuMatchComplete .ReaderReadEmpty
  { base with Readers := readers }

def NewB320 (K : Constants) : B282 :=
  let base := NewB312 K
  { base with Instance := some .b320 }

def NewB323 (K : Constants) : B282 :=
  let base := NewB320 K
  let base := { base with
    SupportedPacketIds := base.SupportedPacketIds ++ [K.OsuMatchChangeBeatmap] }
  let base := { base with Instance := some .b323 }
  { base with Readers := mapSet base.Readers K.OsuMatchChangeBeatmap .ReaderReadMatch }

/-- The `B282` struct of the codec that the constructor of each build returns. -/
def newClient (K : Constants) : Build → B282
  | .b282 => NewB282 K
  | .b291 => NewB291 K
  | .b294 => NewB294 K
  | .b296 => NewB296 K
  | .b298 => NewB298 K
  | .b312 => NewB312 K
  | .b320 => NewB320 K
  | .b323 => NewB323 K

/-- Method `B282.SupportedPackets`; no later codec declares the method, so it is theirs too. -/
def B282.SupportedPackets (client : B282) : List Nat := client.SupportedPacketIds

/-- Method `B282.ImplementsPacket`, promoted unchanged to every later codec. -/
def B282.ImplementsPacket (client : B282) (packetId : Nat) : Bool :=
  client.SupportedPackets.any (fun id => id == packetId)

/-- Method `B282.MatchSlotSize`, promoted unchanged to every later codec. -/
def B282.MatchSlotSize (client : B282) : Int := client.SlotSize

/-- Method `B282.OverrideMatchSlotSize`. -/
def B282.OverrideMatchSlotSize (client : B282) (amount : Int) : B282 :=
  { client with SlotSize := amount }

/-- Method `B282.ConvertInputPacketId`, on `uint16`. -/
def B282.ConvertInputPacketId (K : Constants) (packetId : Nat) : Nat :=
  if packetId = 11 then K.BanchoHandleIrcJoin
  else
    let packetId := if packetId > 11 ∧ packetId ≤ 45 then packetId - 1 else packetId
    let packetId := if packetId > 50 then packetId - 1 else packetId
    packetId

/-- Method `B282.ConvertOutputPacketId`, on `uint16`. -/
def B282.ConvertOutputPacketId (K : Constants) (packetId : Nat) : Nat :=
  if packetId = K.BanchoHandleIrcJoin then 11
  else if packetId ≥ 11 ∧ packetId < 45 then (packetId + 1) % 65536
  else
    let packetId := if packetId > 50 then (packetId + 1) % 65536 else packetId
    packetId

/-- Method `B323.ConvertInputPacketId`, on `uint16`. -/
def B323.ConvertInputPacketId (K : Constants) (packetId : Nat) : Nat :=
  if packetId = 11 then K.BanchoHandleIrcJoin
  else if packetId = 50 then K.OsuMatchChangeBeatmap
  else
    let packetId := if packetId > 11 ∧ packetId ≤ 45 then packetId - 1 else packetId
    packetId

/-- Method `B323.ConvertOutputPacketId`, on `uint16`. -/
def B323.ConvertOutputPacketId (K : Constants) (packetId : Nat) : Nat :=
  if packetId = K.BanchoHandleIrcJoin then 11
  else if packetId = K.OsuMatchChangeBeatmap then 50
  else if packetId ≥ 11 ∧ packetId < 45 then (packetId + 1) % 65536
  else packetId

/-- The method `ConvertInputPacketId` of a codec value of the given type: `B323` declares
its own, every other type has the one promoted from `B282`. -/
def ConvertInputPacketId (K : Constants) : Build → Nat → Nat
  | .b323 => B323.ConvertInputPacketId K
  | _ => B282.ConvertInputPacketId K

/-- The method `ConvertOutputPacketId` of a codec value of the given type. -/
def ConvertOutputPacketId (K : Constants) : Build → Nat → Nat
  | .b323 => B323.ConvertOutputPacketId K
  | _ => B282.ConvertOutputPacketId K

/-- The method `SupportedPackets` of the codec that `NewBxxx` builds. -/
def SupportedPackets (K : Constants) (b : Build) : List Nat :=
  (newClient K b).SupportedPackets

/-- What the theorems assume of the constants: the IDs that the constructors up to
`NewB312` list as supported lie below 50 and none of them is 45; the two legacy IDs are
distinct 16-bit values above 50, and `OsuMatchChangeBeatmap` is not `0xFFFF`. -/
structure Constants.WellFormed (K : Constants) : Prop where
  ordinary : ∀ l ∈ (NewB312 K).SupportedPacketIds, l < 50 ∧ l ≠ 45
  changeBeatmap : 50 < K.OsuMatchChangeBeatmap ∧ K.OsuMatchChangeBeatmap < 65535
  ircJoin : 50 < K.BanchoHandleIrcJoin ∧ K.BanchoHandleIrcJoin < 65536
  distinct : K.OsuMatchChangeBeatmap ≠ K.BanchoHandleIrcJoin

/-! ## Compression (`internal/compression.go`)

The gzip stream itself is a standard-library algorithm and is not embedded: the codecs are
parameterised by what `gzip.NewWriter`/`Write`/`Close` produce for a non-empty input and
by what `gzip.NewReader` followed by `io.Copy` yields for a non-empty input. -/

/-- The two directions of the gzip library, on non-empty inputs. -/
structure Gzip where
  compress : Bytes → Bytes
  decompress : Bytes → Except Err Bytes

/-- Function `CompressData`. -/
def CompressData (G : Gzip) (data : Bytes) : Bytes :=
  if data.length = 0 then [] else G.compress data

/-- Function `DecompressData`. -/
def DecompressData (G : Gzip) (data : Bytes) : Except Err Bytes :=
  if data.length = 0 then .ok [] else G.decompress data

/-- Decompressing after compressing is the identity. -/
def Gzip.Lawful (G : Gzip) : Prop :=
  ∀ data : Bytes, DecompressData G (CompressData G data) = .ok data

/-- A stand-in for gzip with which the parameter can be instantiated: the two magic bytes
`1f 8b` in front of the stored data. -/
def storedGzip : Gzip where
  compress := fun data => [0x1f, 0x8b] ++ data
  decompress := fun data =>
    match data with
    | a :: b :: rest => if a = 0x1f ∧ b = 0x8b then .ok rest else .error .gzipHeader
    | _ => .error .gzipHeader

/-! ## The frame codec (`clients/b282.go`) -/

/-- Method `B282.WritePacket`: the bytes it hands to `stream.Write` in its single call. The
receiver is the `*B282` at the bottom of the embedding chain whatever the outer codec is,
so the ID is translated by `B282.ConvertOutputPacketId`. -/
def B282.WritePacket (K : Constants) (G : Gzip) (_client : B282) (packetId : Nat)
    (data : Bytes) : Bytes :=
  let packetId := B282.ConvertOutputPacketId K packetId
  let compressed := CompressData G data
  WriteUint16 packetId ++ WriteUint32 (compressed.length % 4294967296) ++ compressed

/-- The method `WritePacket` of the codec of build `b`: no codec but `B282` declares one,
so the call is `B282.WritePacket` on the embedded struct. -/
def WritePacket (K : Constants) (G : Gzip) (b : Build) (packetId : Nat) (data : Bytes) :
    Bytes :=
  B282.WritePacket K G (newClient K b) packetId data

/-- Method `B282.WritePing`, promoted unchanged to every later codec. -/
def WritePing (K : Constants) (G : Gzip) (b : Build) : Bytes :=
  B282.WritePacket K G (newClient K b) K.BanchoPing []

/-! ## Logical values

The record types of package `chio` are declared outside the sources at hand. They are
embedded with the fields the codecs read and write, each at the type that the conversions
and read/write calls of the code fix: `uint8`/`uint16`/`uint32` are `Nat`, `int32` is `Int`,
a `float32` is the `Nat` of its 32 bits, a pointer to a record is the record. -/

/-- Modelled from the spec: the button-state bitmask, "Left1=1, Right1=2, Left2=4,
Right2=8" (the constants are declared outside src/). -/
def ButtonStateLeft1 : Nat := 1
/-- Modelled from the spec: see `ButtonStateLeft1`. -/
def ButtonStateRight1 : Nat := 2
/-- Modelled from the spec: see `ButtonStateLeft1`. -/
def ButtonStateLeft2 : Nat := 4
/-- Modelled from the spec: see `ButtonStateLeft1`. -/
def ButtonStateRight2 : Nat := 8

/-- Modelled from the spec: the slot status enumeration "Open, Locked, NotReady, Ready,
NoMap, Playing, Complete, …" (declared outside src/); `Quit` stands for the statuses the
spec leaves unnamed. -/
inductive SlotStatus where
  | Open | Locked | NotReady | Ready | NoMap | Playing | Complete | Quit
  deriving DecidableEq

structure UserStatus where
  Action : Nat
  Text : Bytes
  BeatmapChecksum : Bytes
  Mods : Nat
  UpdateStats : Bool
  deriving DecidableEq

structure Message where
  Sender : Bytes
  Content : Bytes
  Target : Bytes
  SenderId : Int
  deriving DecidableEq

structure ReplayFrame where
  ButtonState : Nat
  MouseX : Nat
  MouseY : Nat
  Time : Int
  deriving DecidableEq

structure ScoreFrame where
  Time : Int
  Id : Nat
  Total300 : Nat
  Total100 : Nat
  Total50 : Nat
  TotalGeki : Nat
  TotalKatu : Nat
  TotalMiss : Nat
  TotalScore : Nat
  MaxCombo : Nat
  CurrentCombo : Nat
  Perfect : Bool
  Hp : Nat
  TagByte : Nat
  deriving DecidableEq

structure ReplayFrameBundle where
  Frames : List ReplayFrame
  Action : Nat
  Frame : Option ScoreFrame
  deriving DecidableEq

structure MatchSlot where
  Status : SlotStatus
  UserId : Int
  deriving DecidableEq

/-- Modelled from the spec: `MatchSlot.HasPlayer` (declared outside src/), "true for all
statuses implying occupancy". -/
def MatchSlot.HasPlayer (slot : MatchSlot) : Bool :=
  match slot.Status with
  | .NotReady | .Ready | .NoMap | .Playing | .Complete => true
  | .Open | .Locked | .Quit => false

structure Match where
  Id : Int
  InProgress : Bool
  /-- The field `Type` of the Go struct. -/
  MatchType : Nat
  Name : Bytes
  BeatmapText : Bytes
  BeatmapId : Int
  BeatmapChecksum : Bytes
  Slots : List MatchSlot
  deriving DecidableEq

structure MatchJoin where
  MatchId : Int
  deriving DecidableEq

/-- The dynamic values a packet reader returns as `any`. -/
inductive PacketData where
  | nil
  | status (v : UserStatus)
  | message (v : Message)
  | frameBundle (v : ReplayFrameBundle)
  | scoreFrame (v : ScoreFrame)
  | matchData (v : Match)
  | matchJoin (v : MatchJoin)
  | int32 (v : Int)
  | string (v : Bytes)
  deriving DecidableEq

/-- The struct `BanchoPacket`. -/
structure BanchoPacket where
  Id : Nat
  Data : PacketData
  deriving DecidableEq

/-- The channel name "#osu". -/
def osuChannel : Bytes := [35, 111, 115, 117]

/-! ## Sequencing of reads

A read step maps the bytes in the source to a result and the bytes left. The decoders chain
such steps in two ways. -/

/-- A read step. -/
abbrev Rd (α : Type) := Bytes → Except Err α × Bytes

/-- Early return: a read whose error, if any, is returned at once (`x, err := Read…(r)`
followed by `if err != nil`, `return nil, err`), then the rest of the body. -/
def andThen {α β : Type} (rd : Rd α) (s : Bytes) (body : α → Bytes → Except Err β × Bytes) :
    Except Err β × Bytes :=
  match rd s with
  | (.ok a, rest) => body a rest
  | (.error e, rest) => (.error e, rest)

/-- Modelled from the spec: the error collector of package `internal`
(`NewErrorCollection`, `Add`, `HasErrors`, `Next`; declared outside src/): "decoders that
read many consecutive fields accumulate errors and surface the first one at the end".
`collect` is one `x, err := Read…(r); errors.Add(err)` followed by the rest of the body: a
failed read leaves `x` at its zero value and decoding goes on; a panic ends it. -/
def collect {α β : Type} (rd : Rd α) (zero : α) (errors : List Err) (s : Bytes)
    (body : α → List Err → Bytes → Except Err β × Bytes) : Except Err β × Bytes :=
  match rd s with
  | (.ok a, rest) => body a errors rest
  | (.error .panic, rest) => (.error .panic, rest)
  | (.error e, rest) => body zero (errors ++ [e]) rest

/-- Modelled from the spec: `return v, errors.Next()` where `Next` is the first collected
error or nil. When the error is non-nil the partially filled value is dropped: every
caller in the repository discards it. -/
def finish {α : Type} (v : α) (errors : List Err) : Except Err α :=
  match errors with
  | [] => .ok v
  | e :: _ => .error e

/-- Function `ReadFloat32`: the 32 bits of the value. -/
def ReadFloat32 (s : Bytes) : Except Err Nat × Bytes := readUint 4 s

/-- Function `WriteFloat32`, on the 32 bits of the value. -/
def WriteFloat32 (bits : Nat) : Bytes := leBytes 4 bits

/-- Function `ReadBoolList(r)` of `common.go`: the one-argument form, always 8 entries. -/
def ReadBoolListFixed (s : Bytes) : Except Err (List Bool) × Bytes :=
  match ReadUint8 s with
  | (.error e, rest) => (.error e, rest)
  | (.ok input, rest) =>
    (.ok ((List.range 8).map (fun i => decide (((input >>> i) &&& 1) > 0))), rest)

/-! ## Decoders of build 282 -/

def B282.ReadStatus (K : Constants) (k : Source) (s : Bytes) : Except Err UserStatus × Bytes :=
  collect ReadUint8 0 [] s fun action errors s =>
  if action ≠ K.StatusUnknown then
    collect (ReadString k) [] errors s fun text errors s =>
    collect (ReadString k) [] errors s fun beatmapChecksum errors s =>
    collect ReadUint16 0 errors s fun mods errors s =>
    (finish { Action := action, Text := text, BeatmapChecksum := beatmapChecksum,
              Mods := mods, UpdateStats := false } errors, s)
  else
    (finish { Action := action, Text := [], BeatmapChecksum := [], Mods := 0,
              UpdateStats := false } errors, s)

def B282.ReadMessage (k : Source) (s : Bytes) : Except Err Message × Bytes :=
  andThen (ReadString k) s fun content s =>
  (.ok { Content := content, Target := osuChannel, Sender := [], SenderId := 0 }, s)

def B282.ReadReplayFrame (s : Bytes) : Except Err ReplayFrame × Bytes :=
  collect ReadBoolean false [] s fun mouseLeft errors s =>
  collect ReadBoolean false errors s fun mouseRight errors s =>
  collect ReadFloat32 0 errors s fun mouseX errors s =>
  collect ReadFloat32 0 errors s fun mouseY errors s =>
  collect ReadInt32 0 errors s fun time errors s =>
  let buttonState := 0
  let buttonState := if mouseLeft then buttonState ||| ButtonStateLeft1 else buttonState
  let buttonState := if mouseRight then buttonState ||| ButtonStateRight1 else buttonState
  (finish { ButtonState := buttonState, MouseX := mouseX, MouseY := mouseY, Time := time }
    errors, s)

/-- The frame loop shared by the three `ReadFrameBundle` methods: `count` calls of
`ReadReplayFrame`, the first error ending the decoding. -/
def readFrames : Nat → Bytes → Except Err (List ReplayFrame) × Bytes
  | 0, s => (.ok [], s)
  | count + 1, s =>
    andThen B282.ReadReplayFrame s fun frame s =>
    andThen (readFrames count) s fun frames s =>
    (.ok (frame :: frames), s)

def B282.ReadFrameBundle (s : Bytes) : Except Err ReplayFrameBundle × Bytes :=
  andThen ReadUint16 s fun count s =>
  andThen (readFrames count) s fun frames s =>
  andThen ReadUint8 s fun action s =>
  (.ok { Frames := frames, Action := action, Frame := none }, s)

/-! ## Decoders of the later builds -/

def B294.ReadPrivateMessage (k : Source) (s : Bytes) : Except Err Message × Bytes :=
  andThen (ReadString k) s fun target s =>
  andThen (ReadString k) s fun content s =>
  andThen ReadBoolean s fun isDirectMessage s =>
  if !isDirectMessage then (.error .expectedDirectMessage, s)
  else (.ok { Sender := [], Content := content, Target := target, SenderId := 0 }, s)

def B294.ReadScoreFrame (k : Source) (s : Bytes) : Except Err ScoreFrame × Bytes :=
  andThen (ReadString k) s fun _ s =>
  andThen ReadUint8 s fun id s =>
  andThen ReadUint16 s fun p300 s =>
  andThen ReadUint16 s fun p100 s =>
  andThen ReadUint16 s fun p50 s =>
  andThen ReadUint16 s fun geki s =>
  andThen ReadUint16 s fun katu s =>
  andThen ReadUint16 s fun miss s =>
  andThen ReadUint32 s fun score s =>
  andThen ReadUint16 s fun maxCombo s =>
  andThen ReadUint16 s fun currentCombo s =>
  andThen ReadBoolean s fun perfect s =>
  andThen ReadUint8 s fun hp s =>
  (.ok { Time := 0, Id := id, Total300 := p300, Total100 := p100, Total50 := p50,
         TotalGeki := geki, TotalKatu := katu, TotalMiss := miss, TotalScore := score,
         MaxCombo := maxCombo, CurrentCombo := currentCombo, Perfect := perfect, Hp := hp,
         TagByte := 0 }, s)

/-- The tail of `B294.ReadFrameBundle` and `B296.ReadFrameBundle`: try the score frame and
take a failure as "no score frame". -/
def optionalScoreFrame (readScoreFrame : Rd ScoreFrame) (s : Bytes) :
    Option ScoreFrame × Bytes :=
  match readScoreFrame s with
  | (.ok scoreFrame, rest) => (some scoreFrame, rest)
  | (.error _, rest) => (none, rest)

def B294.ReadFrameBundle (k : Source) (s : Bytes) : Except Err ReplayFrameBundle × Bytes :=
  andThen ReadUint16 s fun count s =>
  andThen (readFrames count) s fun frames s =>
  andThen ReadUint8 s fun action s =>
  ((.ok { Frames := frames, Action := action,
          Frame := (optionalScoreFrame (B294.ReadScoreFrame k) s).1 }),
    (optionalScoreFrame (B294.ReadScoreFrame k) s).2)

def B296.ReadScoreFrame (k : Source) (s : Bytes) : Except Err ScoreFrame × Bytes :=
  collect (ReadString k) [] [] s fun _ errors s =>
  collect ReadInt32 0 errors s fun time errors s =>
  collect ReadUint8 0 errors s fun id errors s =>
  collect ReadUint16 0 errors s fun p300 errors s =>
  collect ReadUint16 0 errors s fun p100 errors s =>
  collect ReadUint16 0 errors s fun p50 errors s =>
  collect ReadUint16 0 errors s fun geki errors s =>
  collect ReadUint16 0 errors s fun katu errors s =>
  collect ReadUint16 0 errors s fun miss errors s =>
  collect ReadUint32 0 errors s fun score errors s =>
  collect ReadUint16 0 errors s fun maxCombo errors s =>
  collect ReadUint16 0 errors s fun currentCombo errors s =>
  collect ReadBoolean false errors s fun perfect errors s =>
  collect ReadUint8 0 errors s fun hp errors s =>
  (finish { Time := time, Id := id, Total300 := p300, Total100 := p100, Total50 := p50,
            TotalGeki := geki, TotalKatu := katu, TotalMiss := miss, TotalScore := score,
            MaxCombo := maxCombo, CurrentCombo := currentCombo, Perfect := perfect,
            Hp := hp, TagByte := 0 } errors, s)

def B296.ReadFrameBundle (k : Source) (s : Bytes) : Except Err ReplayFrameBundle × Bytes :=
  andThen ReadUint16 s fun count s =>
  andThen (readFrames count) s fun frames s =>
  andThen ReadUint8 s fun action s =>
  ((.ok { Frames := frames, Action := action,
          Frame := (optionalScoreFrame (B296.ReadScoreFrame k) s).1 }),
    (optionalScoreFrame (B296.ReadScoreFrame k) s).2)

/-- The body of the slot loop of `ReadMatch` for index `i`: `slotsOpen[i]`, `slotsUsed[i]`
and `slotsReady[i]` panic when `i` is out of range. -/
def readSlot (slotsOpen slotsUsed slotsReady : List Bool) (i : Nat) (s : Bytes) :
    Except Err MatchSlot × Bytes :=
  match slotsOpen[i]?, slotsUsed[i]?, slotsReady[i]? with
  | some isOpen, some isUsed, some isReady =>
    let status := if isOpen then SlotStatus.Open else SlotStatus.Locked
    let status := if isUsed then SlotStatus.NotReady else status
    let status := if isReady then SlotStatus.Ready else status
    if MatchSlot.HasPlayer { Status := status, UserId := 0 } then
      andThen ReadInt32 s fun userId s => (.ok { Status := status, UserId := userId }, s)
    else (.ok { Status := status, UserId := 0 }, s)
  | _, _, _ => (.error .panic, s)

/-- The slot loop of `ReadMatch`: indices `i`, `i+1`, … for `n` rounds. -/
def readSlots (slotsOpen slotsUsed slotsReady : List Bool) :
    Nat → Nat → Bytes → Except Err (List MatchSlot) × Bytes
  | _, 0, s => (.ok [], s)
  | i, n + 1, s =>
    andThen (readSlot slotsOpen slotsUsed slotsReady i) s fun slot s =>
    andThen (readSlots slotsOpen slotsUsed slotsReady (i + 1) n) s fun slots s =>
    (.ok (slot :: slots), s)

def B298.ReadMatch (client : B282) (k : Source) (s : Bytes) : Except Err Match × Bytes :=
  let slotSize := client.MatchSlotSize
  collect ReadUint8 0 [] s fun matchId errors s =>
  collect ReadUint8 0 errors s fun matchType errors s =>
  collect (ReadString k) [] errors s fun name errors s =>
  collect (ReadString k) [] errors s fun beatmapText errors s =>
  collect ReadInt32 0 errors s fun beatmapId errors s =>
  collect (ReadString k) [] errors s fun beatmapChecksum errors s =>
  collect ReadBoolListFixed [] errors s fun slotsOpen errors s =>
  collect ReadBoolListFixed [] errors s fun slotsUsed errors s =>
  collect ReadBoolListFixed [] errors s fun slotsReady errors s =>
  match errors with
  | e :: _ => (.error e, s)
  | [] =>
    if slotSize < 0 then (.error .panic, s)
    else
      andThen (readSlots slotsOpen slotsUsed slotsReady 0 slotSize.toNat) s fun slots s =>
      (.ok { Id := Int.ofNat matchId, InProgress := false, MatchType := matchType,
             Name := name, BeatmapText := beatmapText, BeatmapId := beatmapId,
             BeatmapChecksum := beatmapChecksum, Slots := slots }, s)

/-- Expression `client.Instance.MatchSlotSize()`: a nil `Instance` panics; any other `Instance` is
the outermost codec over this same struct, and `MatchSlotSize` is `B282`'s. -/
def B282.instanceSlotSize (client : B282) : Except Err Int :=
  match client.Instance with
  | none => .error .panic
  | some _ => .ok client.MatchSlotSize

def B312.ReadMatch (client : B282) (k : Source) (s : Bytes) : Except Err Match × Bytes :=
  let slotSize := client.MatchSlotSize
  collect ReadUint8 0 [] s fun matchId errors s =>
  collect ReadBoolean false errors s fun inProgress errors s =>
  collect ReadUint8 0 errors s fun matchType errors s =>
  collect (ReadString k) [] errors s fun name errors s =>
  collect (ReadString k) [] errors s fun beatmapText errors s =>
  collect ReadInt32 0 errors s fun beatmapId errors s =>
  collect (ReadString k) [] errors s fun beatmapChecksum errors s =>
  match client.instanceSlotSize with
  | .error e => (.error e, s)
  | .ok size =>
    collect (fun s => ReadBoolList s size) [] errors s fun slotsOpen errors s =>
    collect (fun s => ReadBoolList s size) [] errors s fun slotsUsed errors s =>
    collect (fun s => ReadBoolList s size) [] errors s fun slotsReady errors s =>
    match errors with
    | e :: _ => (.error e, s)
    | [] =>
      if slotSize < 0 then (.error .panic, s)
      else
        andThen (readSlots slotsOpen slotsUsed slotsReady 0 slotSize.toNat) s fun slots s =>
        (.ok { Id := Int.ofNat matchId, InProgress := inProgress, MatchType := matchType,
               Name := name, BeatmapText := beatmapText, BeatmapId := beatmapId,
               BeatmapChecksum := beatmapChecksum, Slots := slots }, s)

def B298.ReadMatchJoin (s : Bytes) : Except Err MatchJoin × Bytes :=
  andThen ReadInt32 s fun matchId s => (.ok { MatchId := matchId }, s)

def B298.ReadMatchChangeSlot (s : Bytes) : Except Err Int × Bytes := ReadInt32 s

def B298.ReadMatchLock (s : Bytes) : Except Err Int × Bytes := ReadInt32 s

def B320.ReadMessage (k : Source) (s : Bytes) : Except Err Message × Bytes :=
  collect (ReadString k) [] [] s fun sender errors s =>
  collect (ReadString k) [] errors s fun content errors s =>
  collect (ReadString k) [] errors s fun target errors s =>
  match errors with
  | e :: _ => (.error e, s)
  | [] => (.ok { Sender := sender, Content := content, Target := target, SenderId := 0 }, s)

def B320.ReadPrivateMessage (k : Source) (s : Bytes) : Except Err Message × Bytes :=
  B320.ReadMessage k s

/-! ## Reader dispatch (`internal/reader_dispatch.go`) and `ReadPacket`

A packet reader receives the codec as a `chio.BanchoIO` interface value and asserts it to
one of the reader interfaces; which method it then calls is decided by the dynamic type of
that value. The dynamic type is recorded as a `Build`: a type has the read methods declared
on it and on the types it embeds, the outermost declaration winning. -/

/-- The methods a value of dynamic type `dyn` offers to a packet reader, applied to the
payload held by a `*bytes.Reader`; the bytes left in that reader are dropped with it. -/
def dispatchReader (K : Constants) (reader : PacketReader) (dyn : Build) (client : B282)
    (data : Bytes) : Except Err PacketData :=
  match reader with
  | .ReaderReadStatus =>
    (B282.ReadStatus K .reader data).1.map .status
  | .ReaderReadMessage =>
    if dyn.rank < Build.b320.rank then (B282.ReadMessage .reader data).1.map .message
    else (B320.ReadMessage .reader data).1.map .message
  | .ReaderReadFrameBundle =>
    if dyn.rank < Build.b294.rank then (B282.ReadFrameBundle data).1.map .frameBundle
    else if dyn.rank < Build.b296.rank then
      (B294.ReadFrameBundle .reader data).1.map .frameBundle
    else (B296.ReadFrameBundle .reader data).1.map .frameBundle
  | .ReaderReadPrivateMessage =>
    if dyn.rank < Build.b294.rank then .error (.doesNotImplement "ReadPrivateMessage")
    else if dyn.rank < Build.b320.rank then
      (B294.ReadPrivateMessage .reader data).1.map .message
    else (B320.ReadPrivateMessage .reader data).1.map .message
  | .ReaderReadMatch =>
    if dyn.rank < Build.b298.rank then .error (.doesNotImplement "ReadMatch")
    else if dyn.rank < Build.b312.rank then
      (B298.ReadMatch client .reader data).1.map .matchData
    else (B312.ReadMatch client .reader data).1.map .matchData
  | .ReaderReadMatchJoin =>
    if dyn.rank < Build.b298.rank then .error (.doesNotImplement "ReadMatchJoin")
    else (B298.ReadMatchJoin data).1.map .matchJoin
  | .ReaderReadMatchChangeSlot =>
    if dyn.rank < Build.b298.rank then .error (.doesNotImplement "ReadMatchChangeSlot")
    else (B298.ReadMatchChangeSlot data).1.map .int32
  | .ReaderReadMatchLock =>
    if dyn.rank < Build.b298.rank then .error (.doesNotImplement "ReadMatchLock")
    else (B298.ReadMatchLock data).1.map .int32
  | .ReaderReadScoreFrame =>
    if dyn.rank < Build.b294.rank then .error (.doesNotImplement "ReadScoreFrame")
    else if dyn.rank < Build.b296.rank then
      (B294.ReadScoreFrame .reader data).1.map .scoreFrame
    else (B296.ReadScoreFrame .reader data).1.map .scoreFrame
  | .ReaderReadEmpty => .ok .nil
  | .ReaderReadBanchoInt => (ReadInt32 data).1.map .int32
  | .ReaderReadBanchoString => (ReadString .reader data).1.map .string

/-- Method `B282.ReadPacket` on a stream of kind `k`: the packet or the error, and the bytes left
in the stream. The receiver `client` is the `*B282` at the bottom of the embedding chain:
the calls `client.ConvertInputPacketId`, `client.ImplementsPacket` are `B282`'s, and the
reader is handed `client` itself, a value of dynamic type `*B282`. -/
def B282.ReadPacket (K : Constants) (G : Gzip) (client : B282) (k : Source)
    (stream : Bytes) : Except Err BanchoPacket × Bytes :=
  andThen ReadUint16 stream fun raw stream =>
  let packetId := B282.ConvertInputPacketId K raw
  if !client.ImplementsPacket packetId then (.error (.notImplemented packetId), stream)
  else
    andThen ReadInt32 stream fun length stream =>
    if length < 0 then (.error .panic, stream)
    else
      andThen (k.Read length.toNat) stream fun compressedData stream =>
      if compressedData.length ≠ length.toNat then
        (.error (.expectedBytes length compressedData.length), stream)
      else
        match DecompressData G compressedData with
        | .error e => (.error e, stream)
        | .ok data =>
          match mapGet client.Readers packetId with
          | none => (.ok { Id := packetId, Data := .nil }, stream)
          | some reader =>
            match dispatchReader K reader .b282 client data with
            | .error e => (.error e, stream)
            | .ok v => (.ok { Id := packetId, Data := v }, stream)

/-- The method `ReadPacket` of the codec of build `b`: no codec but `B282` declares one,
so the call is `B282.ReadPacket` on the embedded struct. -/
def ReadPacket (K : Constants) (G : Gzip) (b : Build) (k : Source) (stream : Bytes) :
    Except Err BanchoPacket × Bytes :=
  B282.ReadPacket K G (newClient K b) k stream

/-! ## The match descriptor of build 312 (`clients/b312.go`) -/

/-- Conversion `uint8(v)` of an `int32`. -/
def toUint8 (v : Int) : Nat := (v % 256).toNat

/-- Modelled from the spec: the three-argument `WriteBoolList(w, bools, size)` that
`B312.WriteMatch` calls (`internal/write.go` holds the two-argument form only): "exactly
one byte; bit `i` is the `i`th boolean (LSB-first)", and "on write, the codec pads to 8
bits when fewer are supplied". -/
def WriteBoolListSized (bools : List Bool) (_size : Int) : Except Err Bytes :=
  WriteBoolList (bools ++ List.replicate (8 - bools.length) false)

/-- What a write whose error result is discarded leaves in the buffer. -/
def written (r : Except Err Bytes) : Bytes :=
  match r with
  | .ok bs => bs
  | .error _ => []

/-- Method `B312.WriteMatch`: the bytes returned, or a panic (`make` with a negative length,
`match.Slots[i]` out of range, a nil `Instance`). -/
def B312.WriteMatch (client : B282) (m : Match) : Except Err Bytes :=
  let slotSize := client.MatchSlotSize
  if slotSize < 0 then .error .panic
  else if m.Slots.length < slotSize.toNat then .error .panic
  else
    let slots := m.Slots.take slotSize.toNat
    let slotsOpen := slots.map (fun slot => decide (slot.Status = SlotStatus.Open))
    let slotsUsed := slots.map (fun slot => slot.HasPlayer)
    let slotsReady := slots.map (fun slot => decide (slot.Status = SlotStatus.Ready))
    match client.instanceSlotSize with
    | .error e => .error e
    | .ok size =>
      .ok (WriteUint8 (toUint8 m.Id) ++
        WriteBoolean m.InProgress ++
        WriteUint8 m.MatchType ++
        WriteString m.Name ++
        WriteString m.BeatmapText ++
        WriteInt32 m.BeatmapId ++
        WriteString m.BeatmapChecksum ++
        written (WriteBoolListSized slotsOpen size) ++
        written (WriteBoolListSized slotsUsed size) ++
        written (WriteBoolListSized slotsReady size) ++
        (slots.filter (fun slot => slot.HasPlayer)).flatMap (fun slot => WriteInt32 slot.UserId))

/-- An `int32` value. -/
def IsInt32 (v : Int) : Prop := -2147483648 ≤ v ∧ v < 2147483648

instance (v : Int) : Decidable (IsInt32 v) := by unfold IsInt32; infer_instance

/-- The values a match of build 312 can carry on the wire: the `uint8` and `int32` fields
are in range, and every slot is Open, Locked, NotReady or Ready, with `UserId = 0` when it
holds no player. -/
structure Match.Wire312 (m : Match) : Prop where
  matchType : m.MatchType < 256
  beatmapId : IsInt32 m.BeatmapId
  slots : ∀ slot ∈ m.Slots,
    (slot.Status = .Open ∨ slot.Status = .Locked ∨ slot.Status = .NotReady ∨
      slot.Status = .Ready) ∧
    IsInt32 slot.UserId ∧ (slot.HasPlayer = false → slot.UserId = 0)

/-- A match in progress with id 7 and players in slots 0, 1 and 3 (scenario S5). -/
def scenarioMatch : Match where
  Id := 7
  InProgress := true
  MatchType := 0
  Name := [109]
  BeatmapText := []
  BeatmapId := -1
  BeatmapChecksum := [97, 98]
  Slots := [
    { Status := .NotReady, UserId := 10 },
    { Status := .Ready, UserId := 11 },
    { Status := .Open, UserId := 0 },
    { Status := .NotReady, UserId := 12 },
    { Status := .Open, UserId := 0 },
    { Status := .Open, UserId := 0 },
    { Status := .Locked, UserId := 0 },
    { Status := .Locked, UserId := 0 }]

/-! ## Match packets of build 298 (`clients/b298.go`) -/

/-- Method `B298.WriteMatch`: the bytes returned, or a panic (`make` with a negative
length, `match.Slots[i]` out of range). The result of each `WriteBoolList` is discarded, so
a list of fewer than 8 entries leaves no byte. -/
def B298.WriteMatch (client : B282) (m : Match) : Except Err Bytes :=
  let slotSize := client.MatchSlotSize
  if slotSize < 0 then .error .panic
  else if m.Slots.length < slotSize.toNat then .error .panic
  else
    let slots := m.Slots.take slotSize.toNat
    let slotsOpen := slots.map (fun slot => decide (slot.Status = SlotStatus.Open))
    let slotsUsed := slots.map (fun slot => slot.HasPlayer)
    let slotsReady := slots.map (fun slot => decide (slot.Status = SlotStatus.Ready))
    .ok (WriteUint8 (toUint8 m.Id) ++
      WriteUint8 m.MatchType ++
      WriteString m.Name ++
      WriteString m.BeatmapText ++
      WriteInt32 m.BeatmapId ++
      WriteString m.BeatmapChecksum ++
      written (WriteBoolList slotsOpen) ++
      written (WriteBoolList slotsUsed) ++
      written (WriteBoolList slotsReady) ++
      (slots.filter (fun slot => slot.HasPlayer)).flatMap (fun slot => WriteInt32 slot.UserId))

/-- Method `B298.WriteMatchUpdate`: the bytes appended to the stream (none when the method
returns nil without writing), or a panic. The receiver is a `*B298`, so `client.WriteMatch`
is `B298.WriteMatch`. -/
def B298.WriteMatchUpdate (K : Constants) (G : Gzip) (client : B282) (m : Match) :
    Except Err Bytes :=
  if m.Id > 0xFF then .ok []
  else
    match B298.WriteMatch client m with
    | .error e => .error e
    | .ok payload => .ok (B282.WritePacket K G client K.BanchoMatchUpdate payload)

/-- Method `B298.WriteMatchNew`. -/
def B298.WriteMatchNew (K : Constants) (G : Gzip) (client : B282) (m : Match) :
    Except Err Bytes :=
  if m.Id > 0xFF then .ok []
  else
    match B298.WriteMatch client m with
    | .error e => .error e
    | .ok payload => .ok (B282.WritePacket K G client K.BanchoMatchNew payload)

/-- Method `B298.WriteMatchJoinSuccess`. -/
def B298.WriteMatchJoinSuccess (K : Constants) (G : Gzip) (client : B282) (m : Match) :
    Except Err Bytes :=
  match B298.WriteMatch client m with
  | .error e => .error e
  | .ok payload => .ok (B282.WritePacket K G client K.BanchoMatchJoinSuccess payload)

/-- The method `WriteMatchUpdate` of the codec of build `b`: the stub of `B282` (which
writes nothing) below build 298, and `B298.WriteMatchUpdate` from build 298 on, where no
later codec declares the method. -/
def WriteMatchUpdate (K : Constants) (G : Gzip) (b : Build) (m : Match) : Except Err Bytes :=
  if b.rank < Build.b298.rank then .ok []
  else B298.WriteMatchUpdate K G (newClient K b) m

/-- The method `WriteMatchNew` of the codec of build `b`. -/
def WriteMatchNew (K : Constants) (G : Gzip) (b : Build) (m : Match) : Except Err Bytes :=
  if b.rank < Build.b298.rank then .ok []
  else B298.WriteMatchNew K G (newClient K b) m

/-- The method `WriteMatchJoinSuccess` of the codec of build `b`. -/
def WriteMatchJoinSuccess (K : Constants) (G : Gzip) (b : Build) (m : Match) :
    Except Err Bytes :=
  if b.rank < Build.b298.rank then .ok []
  else B298.WriteMatchJoinSuccess K G (newClient K b) m

/-! ## Chat messages (`clients/b282.go`, `clients/b294.go`) -/

/-- The contents of `writer` when `B282.WriteMessage` calls `WritePacket`. -/
def B282.messagePayload (message : Message) : Bytes :=
  WriteString message.Sender ++ WriteString message.Content

/-- Method `B282.WriteMessage`: the bytes appended to the stream. -/
def B282.WriteMessage (K : Constants) (G : Gzip) (client : B282) (message : Message) :
    Bytes :=
  if message.Target ≠ osuChannel then []
  else B282.WritePacket K G client K.BanchoSendMessage (B282.messagePayload message)

/-- The contents of `writer` when `B294.WriteMessage` calls `WritePacket`. -/
def B294.messagePayload (message : Message) : Bytes :=
  let isDirectMessage := decide (message.Target ≠ osuChannel)
  WriteString message.Sender ++ WriteString message.Content ++ WriteBoolean isDirectMessage

/-- Method `B294.WriteMessage`: the bytes appended to the stream. -/
def B294.WriteMessage (K : Constants) (G : Gzip) (client : B282) (message : Message) :
    Bytes :=
  B282.WritePacket K G client K.BanchoSendMessage (B294.messagePayload message)

/-! ## Spectating and score frames (`clients/b282.go`, `clients/b294.go`, `clients/b296.go`)

`ScoreFrame.Checksum` is declared outside the sources at hand; the writers take it as the
parameter `checksum`. -/

/-- The body of the frame loop of `WriteSpectateFrames` (the same in `B282`, `B294` and
`B296`): the bytes written for one replay frame. -/
def replayFrameBytes (frame : ReplayFrame) : Bytes :=
  let leftMouse := decide (ButtonStateLeft1 &&& frame.ButtonState > 0) ||
    decide (ButtonStateLeft2 &&& frame.ButtonState > 0)
  let rightMouse := decide (ButtonStateRight1 &&& frame.ButtonState > 0) ||
    decide (ButtonStateRight2 &&& frame.ButtonState > 0)
  WriteBoolean leftMouse ++
    WriteBoolean rightMouse ++
    WriteFloat32 frame.MouseX ++
    WriteFloat32 frame.MouseY ++
    WriteInt32 frame.Time

/-- The contents of `writer` when `B282.WriteSpectateFrames` calls `WritePacket`. -/
def B282.spectateFramesPayload (bundle : ReplayFrameBundle) : Bytes :=
  WriteUint16 (bundle.Frames.length % 65536) ++
    bundle.Frames.flatMap replayFrameBytes ++
    WriteUint8 bundle.Action

/-- Method `B282.WriteSpectateFrames`: the bytes appended to the stream. -/
def B282.WriteSpectateFrames (K : Constants) (G : Gzip) (client : B282)
    (bundle : ReplayFrameBundle) : Bytes :=
  B282.WritePacket K G client K.BanchoSpectateFrames (B282.spectateFramesPayload bundle)

/-- Method `B294.WriteScoreFrame`: the bytes written to `writer`. -/
def B294.WriteScoreFrame (checksum : ScoreFrame → Bytes) (frame : ScoreFrame) : Bytes :=
  WriteString (checksum frame) ++
    WriteUint8 frame.Id ++
    WriteUint16 frame.Total300 ++
    WriteUint16 frame.Total100 ++
    WriteUint16 frame.Total50 ++
    WriteUint16 frame.TotalGeki ++
    WriteUint16 frame.TotalKatu ++
    WriteUint16 frame.TotalMiss ++
    WriteUint32 frame.TotalScore ++
    WriteUint16 frame.MaxCombo ++
    WriteUint16 frame.CurrentCombo ++
    WriteBoolean frame.Perfect ++
    WriteUint8 frame.Hp

/-- The contents of `writer` when `B294.WriteSpectateFrames` calls `WritePacket`; the
receiver is a `*B294`, so `client.WriteScoreFrame` is `B294.WriteScoreFrame`. -/
def B294.spectateFramesPayload (checksum : ScoreFrame → Bytes)
    (bundle : ReplayFrameBundle) : Bytes :=
  WriteUint16 (bundle.Frames.length % 65536) ++
    bundle.Frames.flatMap replayFrameBytes ++
    WriteUint8 bundle.Action ++
    (match bundle.Frame with
      | some frame => B294.WriteScoreFrame checksum frame
      | none => [])

/-- Method `B294.WriteSpectateFrames`: the bytes appended to the stream. -/
def B294.WriteSpectateFrames (K : Constants) (G : Gzip) (client : B282)
    (checksum : ScoreFrame → Bytes) (bundle : ReplayFrameBundle) : Bytes :=
  B282.WritePacket K G client K.BanchoSpectateFrames
    (B294.spectateFramesPayload checksum bundle)

/-- Method `B296.WriteScoreFrame`: the bytes written to `writer`. -/
def B296.WriteScoreFrame (checksum : ScoreFrame → Bytes) (frame : ScoreFrame) : Bytes :=
  WriteString (checksum frame) ++
    WriteInt32 frame.Time ++
    WriteUint8 frame.Id ++
    WriteUint16 frame.Total300 ++
    WriteUint16 frame.Total100 ++
    WriteUint16 frame.Total50 ++
    WriteUint16 frame.TotalGeki ++
    WriteUint16 frame.TotalKatu ++
    WriteUint16 frame.TotalMiss ++
    WriteUint32 frame.TotalScore ++
    WriteUint16 frame.MaxCombo ++
    WriteUint16 frame.CurrentCombo ++
    WriteBoolean frame.Perfect ++
    WriteUint8 frame.Hp

/-- The button state that the two booleans of the build-282 wire keep of a button state:
`Left1` if it had `Left1` or `Left2`, or-ed with `Right1` if it had `Right1` or `Right2`. -/
def wireButtonState (state : Nat) : Nat :=
  (if ButtonStateLeft1 &&& state > 0 ∨ ButtonStateLeft2 &&& state > 0
    then ButtonStateLeft1 else 0) |||
  (if ButtonStateRight1 &&& state > 0 ∨ ButtonStateRight2 &&& state > 0
    then ButtonStateRight1 else 0)

/-- A replay frame as the build-282 wire returns it. -/
def ReplayFrame.onWire (frame : ReplayFrame) : ReplayFrame :=
  { frame with ButtonState := wireButtonState frame.ButtonState }

/-- The field ranges of a replay frame: two `float32` and an `int32`. -/
def ReplayFrame.Typed (frame : ReplayFrame) : Prop :=
  frame.MouseX < 4294967296 ∧ frame.MouseY < 4294967296 ∧ IsInt32 frame.Time

/-- The field ranges of a score frame (`int32`, `uint8`, `uint16`, `uint32`). -/
structure ScoreFrame.Typed (frame : ScoreFrame) : Prop where
  time : IsInt32 frame.Time
  id : frame.Id < 256
  total300 : frame.Total300 < 65536
  total100 : frame.Total100 < 65536
  total50 : frame.Total50 < 65536
  totalGeki : frame.TotalGeki < 65536
  totalKatu : frame.TotalKatu < 65536
  totalMiss : frame.TotalMiss < 65536
  totalScore : frame.TotalScore < 4294967296
  maxCombo : frame.MaxCombo < 65536
  currentCombo : frame.CurrentCombo < 65536
  hp : frame.Hp < 256

/-- The field ranges of a bundle: a `uint8` action, typed frames, a typed score frame. -/
structure ReplayFrameBundle.Typed (bundle : ReplayFrameBundle) : Prop where
  action : bundle.Action < 256
  frames : ∀ frame ∈ bundle.Frames, frame.Typed
  frame : ∀ frame, bundle.Frame = some frame → frame.Typed

/-- A replay frame with every field zero. -/
def zeroReplayFrame : ReplayFrame where
  ButtonState := 0
  MouseX := 0
  MouseY := 0
  Time := 0

/-- A bundle of 65536 replay frames and no score frame. -/
def oversizedBundle : ReplayFrameBundle where
  Frames := List.replicate 65536 zeroReplayFrame
  Action := 0
  Frame := none

/-! ## The status block of build 282 (`clients/b282.go`) -/

/-- Method `B282.WriteStatus`: the bytes written to `writer`. -/
def B282.WriteStatus (K : Constants) (status : UserStatus) : Bytes :=
  let action := status.Action
  let action := if status.UpdateStats then K.StatusStatsUpdate else action
  WriteUint8 action ++
    (if action ≠ K.StatusUnknown then
      WriteString status.Text ++
        WriteString status.BeatmapChecksum ++
        WriteUint16 (status.Mods % 65536)
    else [])

/-- A score frame with every field set. -/
def scenarioScoreFrame : ScoreFrame where
  Time := 77
  Id := 1
  Total300 := 2
  Total100 := 3
  Total50 := 4
  TotalGeki := 5
  TotalKatu := 6
  TotalMiss := 7
  TotalScore := 8
  MaxCombo := 9
  CurrentCombo := 10
  Perfect := true
  Hp := 200
  TagByte := 0

/-- A bundle of two replay frames, the first with `Left2` and `Right1` pressed, and a score
frame. -/
def scenarioBundle : ReplayFrameBundle where
  Frames := [
    { ButtonState := 6, MouseX := 0x42C80000, MouseY := 0x43480000, Time := -5 },
    { ButtonState := 1, MouseX := 0, MouseY := 0x3F800000, Time := 1000 }]
  Action := 3
  Frame := some scenarioScoreFrame

/-- A score frame with every field zero. -/
def zeroScoreFrame : ScoreFrame where
  Time := 0
  Id := 0
  Total300 := 0
  Total100 := 0
  Total50 := 0
  TotalGeki := 0
  TotalKatu := 0
  TotalMiss := 0
  TotalScore := 0
  MaxCombo := 0
  CurrentCombo := 0
  Perfect := false
  Hp := 0
  TagByte := 0

/-- A status with an action other than Unknown. -/
def scenarioStatus : UserStatus where
  Action := 2
  Text := [97]
  BeatmapChecksum := [98, 99]
  Mods := 64
  UpdateStats := false

/-- The status of the Unknown sentinel of the Bancho numbering. -/
def unknownStatus : UserStatus where
  Action := osuConstants.StatusUnknown
  Text := []
  BeatmapChecksum := []
  Mods := 0
  UpdateStats := false

/-! ## User records and the stats packets (`clients/b282.go`, `clients/b323.go`)

The types `chio.UserInfo`, `chio.UserStats` and `chio.UserPresence` are declared outside
the sources at hand; the records below hold the fields the writers access. The methods
`UserInfo.AvatarFilename` and `UserPresence.Location`, and the conversion `float32(x)` of
a `float64`, are taken as parameters. -/

/-- The fields of `chio.UserStats` the writers use; `Accuracy` is the 64 bits of the
`float64`. -/
structure UserStats where
  Rscore : Nat
  Accuracy : Nat
  Playcount : Int
  Tscore : Nat
  Rank : Int
  deriving DecidableEq

/-- The fields of `chio.UserPresence` the writers use. -/
structure UserPresence where
  IsIrc : Bool
  Timezone : Int
  deriving DecidableEq

/-- The fields of `chio.UserInfo` the writers use. In Go `Status` is a `*UserStatus`; the
field here is the value it points to. -/
structure UserInfo where
  Id : Int
  Name : Bytes
  Stats : UserStats
  Presence : UserPresence
  Status : UserStatus
  deriving DecidableEq

/-- What the stats writers call outside the sources: the methods `info.AvatarFilename()`
and `presence.Location()`, and the conversion `float32(x)` from the bits of a `float64`
to the bits of a `float32`. -/
structure UserMethods where
  AvatarFilename : UserInfo → Bytes
  Location : UserPresence → Bytes
  float32 : Nat → Nat

/-- Function `WriteFloat64`, on the 64 bits of the value. -/
def WriteFloat64 (bits : Nat) : Bytes := leBytes 8 bits

/-- Method `B282.WriteStats`: the bytes appended to `writer`. The call `client.WriteStatus`
has a `*B282` receiver. -/
def B282.WriteStats (K : Constants) (M : UserMethods) (info : UserInfo) : Bytes :=
  WriteInt32 info.Id ++
    WriteString info.Name ++
    WriteUint64 info.Stats.Rscore ++
    WriteFloat64 info.Stats.Accuracy ++
    WriteInt32 info.Stats.Playcount ++
    WriteUint64 info.Stats.Tscore ++
    WriteInt32 info.Stats.Rank ++
    WriteString (M.AvatarFilename info) ++
    B282.WriteStatus K info.Status ++
    WriteUint8 (toUint8 (info.Presence.Timezone + 24)) ++
    WriteString (M.Location info.Presence)

/-- Method `B282.WriteUserStats`: the bytes appended to the stream. -/
def B282.WriteUserStats (K : Constants) (G : Gzip) (M : UserMethods) (client : B282)
    (info : UserInfo) : Bytes :=
  if info.Presence.IsIrc then
    B282.WritePacket K G client K.BanchoHandleIrcJoin (WriteString info.Name)
  else
    B282.WritePacket K G client K.BanchoHandleOsuUpdate (B282.WriteStats K M info)

/-- The contents of `writer` in `B323.WriteUserStats` on its path for a user that is not on
IRC. The call `client.WriteStatus` is promoted from `*B282`. -/
def B323.userStatsPayload (K : Constants) (M : UserMethods) (info : UserInfo) : Bytes :=
  let writeStats := info.Status.UpdateStats
  WriteUint32 (toUint32 info.Id) ++
    WriteBoolean writeStats ++
    (if writeStats then
      WriteString info.Name ++
        WriteUint64 info.Stats.Rscore ++
        WriteFloat32 (M.float32 info.Stats.Accuracy) ++
        WriteUint32 (toUint32 info.Stats.Playcount) ++
        WriteUint64 info.Stats.Tscore ++
        WriteInt32 info.Stats.Rank ++
        WriteString (M.AvatarFilename info) ++
        WriteUint8 (toUint8 (info.Presence.Timezone + 24)) ++
        WriteString (M.Location info.Presence)
    else []) ++
    B282.WriteStatus K info.Status

/-- Method `B323.WriteUserStats`: the bytes appended to the stream. `WritePacket` is promoted
from `*B282`. -/
def B323.WriteUserStats (K : Constants) (G : Gzip) (M : UserMethods) (client : B282)
    (info : UserInfo) : Bytes :=
  if info.Presence.IsIrc then
    B282.WritePacket K G client K.BanchoHandleIrcJoin (WriteString info.Name)
  else
    B282.WritePacket K G client K.BanchoHandleOsuUpdate (B323.userStatsPayload K M info)

/-- Method `B323.WriteUserPresence`: the bytes appended to the stream, and the `UserStatus`
that `info.Status` points to as the call leaves it (the two assignments to
`info.Status.UpdateStats` go through the pointer). -/
def B323.WriteUserPresence (K : Constants) (G : Gzip) (M : UserMethods) (client : B282)
    (info : UserInfo) : Bytes × UserStatus :=
  if info.Presence.IsIrc then
    (B282.WritePacket K G client K.BanchoHandleIrcJoin (WriteString info.Name), info.Status)
  else
    let info := { info with Status := { info.Status with UpdateStats := true } }
    let first := B323.WriteUserStats K G M client info
    let info := { info with Status := { info.Status with UpdateStats := false } }
    (first ++ B323.WriteUserStats K G M client info, info.Status)

/-- Stand-ins for the methods declared outside the sources: the avatar filename is the
user's name, the location is empty, the narrowing of a float keeps the low 32 bits. -/
def scenarioMethods : UserMethods where
  AvatarFilename := fun info => info.Name
  Location := fun _ => []
  float32 := fun bits => bits % 4294967296

/-- A user that is not on IRC. -/
def scenarioUser : UserInfo where
  Id := 5
  Name := [97]
  Stats := { Rscore := 1000, Accuracy := 0, Playcount := 3, Tscore := 2000, Rank := 1 }
  Presence := { IsIrc := false, Timezone := 1 }
  Status := scenarioStatus

/-- The same user connected through IRC. -/
def scenarioIrcUser : UserInfo :=
  { scenarioUser with Presence := { IsIrc := true, Timezone := 1 } }

/-- The first four slots of `scenarioMatch`, for a codec whose slot count is overridden
to 4. -/
def fourSlotMatch : Match :=
  { scenarioMatch with Slots := scenarioMatch.Slots.take 4 }

/-- A status whose action is the Unknown sentinel of the Bancho numbering and that asks
for a stats refresh. -/
def unknownUpdatingStatus : UserStatus :=
  { unknownStatus with UpdateStats := true }

/-! ## Quit packets and presence packets (`clients/b282.go`, `clients/b323.go`)

The type `chio.UserQuit` and the constants `QuitStateOsuRemaining` and
`QuitStateIrcRemaining` are declared outside the sources at hand: the record holds the
two fields `WriteUserQuit` accesses and the constants are a parameter. -/

/-- The two `QuitState` constants named in `B282.WriteUserQuit`. -/
structure QuitStates where
  OsuRemaining : Nat
  IrcRemaining : Nat

/-- The fields of `chio.UserQuit` the writer uses. In Go `Info` is a `*UserInfo`; the field
here is the value it points to. -/
structure UserQuit where
  Info : UserInfo
  QuitState : Nat
  deriving DecidableEq

/-- Method `B282.WriteUserQuit`: the bytes appended to the stream (none on the path that
returns nil without a write). -/
def B282.WriteUserQuit (K : Constants) (Q : QuitStates) (G : Gzip) (M : UserMethods)
    (client : B282) (quit : UserQuit) : Bytes :=
  if quit.Info.Presence.IsIrc ∧ quit.QuitState ≠ Q.IrcRemaining then
    B282.WritePacket K G client K.BanchoHandleIrcQuit (WriteString quit.Info.Name)
  else if quit.QuitState = Q.OsuRemaining then []
  else B282.WritePacket K G client K.BanchoHandleOsuQuit (B282.WriteStats K M quit.Info)

/-- Method `B282.WriteUserPresence`: "Redirect UserPresence packets to UserStats". The
receiver is a `*B282`, so the call is `B282.WriteUserStats`. -/
def B282.WriteUserPresence (K : Constants) (G : Gzip) (M : UserMethods) (client : B282)
    (info : UserInfo) : Bytes :=
  B282.WriteUserStats K G M client info

/-- Method `B282.WriteUserPresenceSingle`. The receiver is a `*B282`, so
`client.WriteUserPresence` is `B282.WriteUserPresence`. -/
def B282.WriteUserPresenceSingle (K : Constants) (G : Gzip) (M : UserMethods) (client : B282)
    (info : UserInfo) : Bytes :=
  B282.WriteUserPresence K G M client info

/-- Method `B282.WriteUserPresenceBundle`: one `B282.WriteUserPresence` per entry, in order
(no write to an in-memory stream fails, so the loop runs to its end). -/
def B282.WriteUserPresenceBundle (K : Constants) (G : Gzip) (M : UserMethods) (client : B282)
    (infos : List UserInfo) : Bytes :=
  infos.flatMap (fun info => B282.WriteUserPresence K G M client info)

/-- The method `WriteUserStats` of the codec of build `b`: `B323` declares its own, every
other codec has the one promoted from `B282`. -/
def WriteUserStats (K : Constants) (G : Gzip) (M : UserMethods) (b : Build)
    (info : UserInfo) : Bytes :=
  match b with
  | .b323 => B323.WriteUserStats K G M (newClient K b) info
  | _ => B282.WriteUserStats K G M (newClient K b) info

/-- The method `WriteUserPresence` of the codec of build `b`, by the bytes it writes: `B323`
declares its own, every other codec has the one promoted from `B282`. -/
def WriteUserPresence (K : Constants) (G : Gzip) (M : UserMethods) (b : Build)
    (info : UserInfo) : Bytes :=
  match b with
  | .b323 => (B323.WriteUserPresence K G M (newClient K b) info).1
  | _ => B282.WriteUserPresence K G M (newClient K b) info

/-- The method `WriteUserPresenceSingle` of the codec of build `b`: no codec but `B282`
declares one. -/
def WriteUserPresenceSingle (K : Constants) (G : Gzip) (M : UserMethods) (b : Build)
    (info : UserInfo) : Bytes :=
  B282.WriteUserPresenceSingle K G M (newClient K b) info

/-- The method `WriteUserPresenceBundle` of the codec of build `b`: no codec but `B282`
declares one. -/
def WriteUserPresenceBundle (K : Constants) (G : Gzip) (M : UserMethods) (b : Build)
    (infos : List UserInfo) : Bytes :=
  B282.WriteUserPresenceBundle K G M (newClient K b) infos

/-- The quit states in the order `Gone`, `OsuRemaining`, `IrcRemaining`. -/
def osuQuitStates : QuitStates where
  OsuRemaining := 1
  IrcRemaining := 2

/-- The user of `scenarioUser` with the stats refresh requested. -/
def updatingUser : UserInfo :=
  { scenarioUser with Status := { scenarioStatus with UpdateStats := true } }

/-- The match of `scenarioMatch` under an id that does not fit one byte. -/
def wideIdMatch : Match := { scenarioMatch with Id := 256 }

/-- The match of `scenarioMatch` under a negative id. -/
def negativeIdMatch : Match := { scenarioMatch with Id := -1 }

/-- A match descriptor of build 298 with no player: id 7, type 0, three empty strings
around the beatmap id 0, and three zero list bytes. -/
def emptyMatchBytes : Bytes := [7, 0, 0, 0, 0, 0, 0, 0, 0, 0, 0, 0]

/-- The logical IDs that the writer methods declared on `*B282` pass to `WritePacket`, in
source order (`WriteLoginReply`, `WriteMessage`, `WritePing`, `WriteIrcChangeUsername`,
`WriteUserStats` twice, `WriteUserQuit` twice, `WriteSpectatorJoined`,
`WriteSpectatorLeft`, `WriteSpectateFrames`, `WriteVersionUpdate`,
`WriteSpectatorCantSpectate`). -/
def B282.writtenPacketIds (K : Constants) : List Nat :=
  [K.BanchoLoginReply,
   K.BanchoSendMessage,
   K.BanchoPing,
   K.BanchoHandleIrcChangeUsername,
   K.BanchoHandleIrcJoin,
   K.BanchoHandleOsuUpdate,
   K.BanchoHandleIrcQuit,
   K.BanchoHandleOsuQuit,
   K.BanchoSpectatorJoined,
   K.BanchoSpectatorLeft,
   K.BanchoSpectateFrames,
   K.BanchoVersionUpdate,
   K.BanchoSpectatorCantSpectate]

/-- The bytes that follow the id byte in the build-298 descriptor of `scenarioMatch`. -/
def scenarioMatchTail : Bytes :=
  [0, 0x0b, 1, 109, 0, 0xff, 0xff, 0xff, 0xff, 0x0b, 2, 97, 98,
   0b00110100, 0b00001011, 0b00000010,
   10, 0, 0, 0, 11, 0, 0, 0, 12, 0, 0, 0]

/-- A build-294 `OsuSpectateFrames` payload: no replay frame, action 3, then a score frame
(empty checksum string, id 1, hit counts 2 to 7, score 8, combos 9 and 10, perfect,
hp 200). -/
def framesWithScorePayload : Bytes :=
  [0, 0, 3, 0, 1, 2, 0, 3, 0, 4, 0, 5, 0, 6, 0, 7, 0, 8, 0, 0, 0, 9, 0, 10, 0, 1, 200]

/-- The score frame that `framesWithScorePayload` carries. -/
def payloadScoreFrame : ScoreFrame where
  Time := 0
  Id := 1
  Total300 := 2
  Total100 := 3
  Total50 := 4
  TotalGeki := 5
  TotalKatu := 6
  TotalMiss := 7
  TotalScore := 8
  MaxCombo := 9
  CurrentCombo := 10
  Perfect := true
  Hp := 200
  TagByte := 0

end Chio

/-! # Theorems -/

namespace Chio

/-! ## Registry selection -/

theorem lookup_filter_ne {κ α : Type} [DecidableEq κ] (m : List (κ × α)) (k k' : κ)
    (h : k' ≠ k) :
    (m.filter (fun p => !(p.1 == k))).lookup k' = m.lookup k' := by
  induction m with
  | nil => rfl
  | cons p m ih =>
    obtain ⟨a, b⟩ := p
    by_cases hak : a = k
    · subst hak
      have h1 : (k' == a) = false := by simpa using h
      simp [List.filter, List.lookup, h1, ih]
    · have h2 : (!(a == k)) = true := by simpa using hak
      simp only [List.filter, h2, List.lookup]
      rw [ih]

theorem mapGet_mapSet {κ α : Type} [DecidableEq κ] (m : List (κ × α)) (k k' : κ) (v : α) :
    mapGet (mapSet m k v) k' = if k' = k then some v else mapGet m k' := by
  unfold mapGet mapSet
  by_cases h : k' = k
  · subst h; simp [List.lookup]
  · have h1 : (k' == k) = false := by simpa using h
    simp only [List.lookup, h1, h, if_false]
    exact lookup_filter_ne m k k' h

theorem mem_keys_mapSet {κ α : Type} [DecidableEq κ] (m : List (κ × α)) (k k' : κ) (v : α) :
    k' ∈ (mapSet m k v).map Prod.fst ↔ k' = k ∨ k' ∈ m.map Prod.fst := by
  unfold mapSet
  simp only [List.map_cons, List.mem_cons, List.mem_map, List.mem_filter]
  constructor
  · rintro (h | ⟨p, ⟨hp, _⟩, rfl⟩)
    · exact Or.inl h
    · exact Or.inr ⟨p, hp, rfl⟩
  · rintro (h | ⟨p, hp, rfl⟩)
    · exact Or.inl h
    · by_cases hk : p.1 = k
      · exact Or.inl hk
      · exact Or.inr ⟨p, ⟨hp, by simpa using hk⟩, rfl⟩

theorem registryOf_snoc {α : Type} (calls : List (Int × α)) (c : Int × α) :
    registryOf (calls ++ [c]) = RegisterClient (registryOf calls) c.1 c.2 := by
  simp [registryOf, List.foldl_append]

theorem registeredAt_snoc {α : Type} (calls : List (Int × α)) (c : Int × α) (k : Int) :
    registeredAt (calls ++ [c]) k = if k = c.1 then some c.2 else registeredAt calls k := by
  unfold registeredAt
  rw [List.reverse_append]
  by_cases h : k = c.1
  · subst h; simp [List.lookup]
  · have h1 : (k == c.1) = false := by simpa using h
    simp [List.lookup, h1, h]

/-- The map of the registry holds, for every build, the codec of the last call for it. -/
theorem registryOf_clients {α : Type} (calls : List (Int × α)) (k : Int) :
    mapGet (registryOf calls).clients k = registeredAt calls k := by
  induction calls using List.reverseRecOn with
  | nil => rfl
  | append_singleton calls c ih =>
    rw [registryOf_snoc, registeredAt_snoc]
    simp only [RegisterClient]
    rw [mapGet_mapSet, ih]

theorem registryOf_keys {α : Type} (calls : List (Int × α)) (k : Int) :
    k ∈ (registryOf calls).clients.map Prod.fst ↔ k ∈ calls.map Prod.fst := by
  induction calls using List.reverseRecOn with
  | nil => simp [registryOf, Registry.init]
  | append_singleton calls c ih =>
    rw [registryOf_snoc]
    simp only [RegisterClient]
    rw [mem_keys_mapSet, ih]
    simp only [List.map_append, List.map_cons, List.map_nil, List.mem_append, List.mem_singleton]
    tauto

theorem registryOf_sorted_eq {α : Type} (calls : List (Int × α)) :
    (registryOf calls).sortedVersions =
      ((registryOf calls).clients.map Prod.fst).insertionSort (fun a b => a ≤ b) := by
  induction calls using List.reverseRecOn with
  | nil => rfl
  | append_singleton calls c _ =>
    rw [registryOf_snoc]
    rfl

theorem registryOf_mem_sorted {α : Type} (calls : List (Int × α)) (k : Int) :
    k ∈ (registryOf calls).sortedVersions ↔ k ∈ calls.map Prod.fst := by
  rw [registryOf_sorted_eq, (List.perm_insertionSort _ _).mem_iff, registryOf_keys]

theorem registryOf_sorted {α : Type} (calls : List (Int × α)) :
    ((registryOf calls).sortedVersions).Sorted (fun a b => a ≤ b) := by
  rw [registryOf_sorted_eq]
  exact List.sorted_insertionSort _ _

theorem registeredAt_isSome {α : Type} (calls : List (Int × α)) (k : Int)
    (h : k ∈ calls.map Prod.fst) : ∃ c, registeredAt calls k = some c := by
  induction calls using List.reverseRecOn with
  | nil => simp at h
  | append_singleton calls c ih =>
    rw [registeredAt_snoc]
    by_cases hk : k = c.1
    · exact ⟨c.2, by simp [hk]⟩
    · simp only [hk, if_false]
      apply ih
      simp only [List.map_append, List.map_cons, List.map_nil, List.mem_append,
        List.mem_singleton] at h
      tauto

theorem scanBest_spec (q : Int) (L : List Int) :
    ∀ best : Int, L.Sorted (fun a b => a ≤ b) → best ≤ q →
      scanBest q L best ≤ q ∧ (scanBest q L best = best ∨ scanBest q L best ∈ L) ∧
        ∀ v ∈ L, v ≤ q → v ≤ scanBest q L best := by
  induction L with
  | nil => intro best _ hb; simp [scanBest, hb]
  | cons v rest ih =>
    intro best hs hb
    have hs' := List.sorted_cons.mp hs
    by_cases hv : v ≤ q
    · obtain ⟨h1, h2, h3⟩ := ih v hs'.2 hv
      simp only [scanBest, hv, if_true]
      refine ⟨h1, Or.inr ?_, ?_⟩
      · rcases h2 with h2 | h2
        · rw [h2]; exact List.mem_cons_self _ _
        · exact List.mem_cons_of_mem _ h2
      · intro w hw hwq
        rcases List.mem_cons.mp hw with rfl | hw
        · rcases h2 with h2 | h2
          · rw [h2]
          · exact hs'.1 _ h2
        · exact h3 w hw hwq
    · simp only [scanBest, hv, if_false]
      refine ⟨hb, Or.inl trivial, ?_⟩
      intro w hw hwq
      rcases List.mem_cons.mp hw with rfl | hw
      · exact absurd hwq hv
      · exact absurd (le_trans (hs'.1 _ hw) hwq) hv

theorem sorted_getLast_max (L : List Int) (hne : L ≠ []) (hs : L.Sorted (fun a b => a ≤ b)) :
    ∀ v ∈ L, v ≤ L.getLast hne := by
  induction L with
  | nil => exact absurd rfl hne
  | cons a rest ih =>
    intro v hv
    have hs' := List.sorted_cons.mp hs
    cases rest with
    | nil => simp at hv; simp [hv]
    | cons b rest' =>
      rw [List.getLast_cons (List.cons_ne_nil _ _)]
      rcases List.mem_cons.mp hv with rfl | hv
      · exact le_trans (hs'.1 b (List.mem_cons_self _ _))
          (ih (List.cons_ne_nil _ _) hs'.2 b (List.mem_cons_self _ _))
      · exact ih (List.cons_ne_nil _ _) hs'.2 v hv

theorem sorted_head_min (a : Int) (rest : List Int)
    (hs : (a :: rest).Sorted (fun a b => a ≤ b)) : ∀ v ∈ a :: rest, a ≤ v := by
  intro v hv
  rcases List.mem_cons.mp hv with rfl | hv
  · exact le_refl _
  · exact (List.sorted_cons.mp hs).1 v hv

/-- C1. For every registry state reached by `RegisterClient` calls and every build `q`:
`GetClientInterface q` is nil when nothing is registered; otherwise it is the codec
registered at some registered build `k`, where `k` is the largest registered build
`<= q` when there is one, and the smallest registered build when every registered build
is above `q`. -/
theorem GetClientInterface_selects {α : Type} (calls : List (Int × α)) (q : Int) :
    (calls = [] → GetClientInterface (registryOf calls) q = none) ∧
    (calls ≠ [] → ∃ k c, k ∈ calls.map Prod.fst ∧ registeredAt calls k = some c ∧
        GetClientInterface (registryOf calls) q = some c ∧
        ((k ≤ q ∧ ∀ k' ∈ calls.map Prod.fst, k' ≤ q → k' ≤ k) ∨
         ((∀ k' ∈ calls.map Prod.fst, q < k') ∧ ∀ k' ∈ calls.map Prod.fst, k ≤ k'))) := by
  constructor
  · intro h; subst h; rfl
  · intro hne
    have hmem := registryOf_mem_sorted calls
    have hsorted := registryOf_sorted calls
    have hget := registryOf_clients calls
    cases hL : (registryOf calls).sortedVersions with
    | nil =>
      exfalso
      obtain ⟨c, cs, rfl⟩ := List.exists_cons_of_ne_nil hne
      have := (hmem c.1).mpr (by simp)
      rw [hL] at this
      simp at this
    | cons lowest rest =>
      rw [hL] at hsorted
      have hmin := sorted_head_min lowest rest hsorted
      have hmax := sorted_getLast_max (lowest :: rest) (List.cons_ne_nil _ _) hsorted
      have hlastmem : (lowest :: rest).getLast (List.cons_ne_nil _ _) ∈ lowest :: rest :=
        List.getLast_mem _
      have hiff : ∀ k, k ∈ lowest :: rest ↔ k ∈ calls.map Prod.fst := by
        intro k; rw [← hL]; exact hmem k
      unfold GetClientInterface
      rw [hL]
      simp only []
      by_cases h1 : q < lowest
      · obtain ⟨c, hc⟩ := registeredAt_isSome calls lowest ((hiff _).mp (List.mem_cons_self _ _))
        refine ⟨lowest, c, (hiff _).mp (List.mem_cons_self _ _), hc, ?_, Or.inr ⟨?_, ?_⟩⟩
        · rw [if_pos h1, hget, hc]
        · intro k' hk'; exact lt_of_lt_of_le h1 (hmin k' ((hiff _).mpr hk'))
        · intro k' hk'; exact hmin k' ((hiff _).mpr hk')
      · rw [if_neg h1]
        by_cases h2 : q > (lowest :: rest).getLast (List.cons_ne_nil _ _)
        · obtain ⟨c, hc⟩ := registeredAt_isSome calls _ ((hiff _).mp hlastmem)
          refine ⟨_, c, (hiff _).mp hlastmem, hc, ?_, Or.inl ⟨le_of_lt h2, ?_⟩⟩
          · rw [if_pos h2, hget, hc]
          · intro k' hk' _; exact hmax k' ((hiff _).mpr hk')
        · rw [if_neg h2]
          cases hq : mapGet (registryOf calls).clients q with
          | some client =>
            simp only []
            have hq' : registeredAt calls q = some client := by rw [← hget, hq]
            have hqmem : q ∈ calls.map Prod.fst := by
              by_contra hcon
              have : registeredAt calls q = none := by
                unfold registeredAt
                rw [List.lookup_eq_none_iff]
                intro p hp
                have hp' : p ∈ calls := List.mem_reverse.mp hp
                have hne' : q ≠ p.1 := fun hpq => hcon (List.mem_map.mpr ⟨p, hp', hpq.symm⟩)
                simpa using hne'
              rw [this] at hq'
              exact Option.noConfusion hq'
            exact ⟨q, client, hqmem, hq', rfl, Or.inl ⟨le_refl _, fun k' _ h => h⟩⟩
          | none =>
            simp only []
            obtain ⟨hb1, hb2, hb3⟩ :=
              scanBest_spec q (lowest :: rest) lowest hsorted (not_lt.mp h1)
            have hbmem : scanBest q (lowest :: rest) lowest ∈ lowest :: rest := by
              rcases hb2 with hb2 | hb2
              · rw [hb2]; exact List.mem_cons_self _ _
              · exact hb2
            obtain ⟨c, hc⟩ := registeredAt_isSome calls _ ((hiff _).mp hbmem)
            refine ⟨_, c, (hiff _).mp hbmem, hc, ?_, Or.inl ⟨hb1, ?_⟩⟩
            · rw [hget, hc]
            · intro k' hk' hle; exact hb3 k' ((hiff _).mpr hk') hle

/-- The eight production builds, each registered with a codec labelled by its build. -/
theorem GetClientInterface_selects_witness :
    (∃ k c, k ∈ [(282 : Int), 291, 294, 296, 298, 312, 320, 323] ∧
        registeredAt [((282 : Int), 282), (291, 291), (294, 294), (296, 296), (298, 298),
          (312, 312), (320, 320), (323, 323)] k = some c ∧
        GetClientInterface (registryOf [((282 : Int), (282 : Nat)), (291, 291), (294, 294),
          (296, 296), (298, 298), (312, 312), (320, 320), (323, 323)]) 300 = some c ∧
        ((k ≤ 300 ∧ ∀ k' ∈ [(282 : Int), 291, 294, 296, 298, 312, 320, 323], k' ≤ 300 → k' ≤ k) ∨
         ((∀ k' ∈ [(282 : Int), 291, 294, 296, 298, 312, 320, 323], (300 : Int) < k') ∧
           ∀ k' ∈ [(282 : Int), 291, 294, 296, 298, 312, 320, 323], k ≤ k'))) ∧
    GetClientInterface (registryOf [((282 : Int), (282 : Nat)), (291, 291), (294, 294),
      (296, 296), (298, 298), (312, 312), (320, 320), (323, 323)]) 300 = some 298 ∧
    GetClientInterface (registryOf [((282 : Int), (282 : Nat)), (291, 291), (294, 294),
      (296, 296), (298, 298), (312, 312), (320, 320), (323, 323)]) 1 = some 282 ∧
    GetClientInterface (registryOf [((282 : Int), (282 : Nat)), (291, 291), (294, 294),
      (296, 296), (298, 298), (312, 312), (320, 320), (323, 323)]) 99999 = some 323 :=
  ⟨(GetClientInterface_selects [((282 : Int), (282 : Nat)), (291, 291), (294, 294),
      (296, 296), (298, 298), (312, 312), (320, 320), (323, 323)] 300).2 (by decide),
    by decide, by decide, by decide⟩

/-! ## String codec -/

theorem uleb128_loop_roundtrip (fuel : Nat) : ∀ (n : Nat) (tail : Bytes), n ≤ fuel →
    uleb128UnmarshalReader (uleb128MarshalLoop fuel n ++ tail) = some (n, tail) := by
  induction fuel with
  | zero =>
    intro n tail hn
    have h0 : n = 0 := by omega
    subst h0
    simp [uleb128MarshalLoop, uleb128UnmarshalReader, Byte.ofNat]
  | succ fuel ih =>
    intro n tail hn
    by_cases h : n < 128
    · have hv : (Byte.ofNat n).val = n := by
        simp only [Byte.ofNat]; omega
      simp only [uleb128MarshalLoop, h, if_true, List.singleton_append,
        uleb128UnmarshalReader, hv]
    · have hv : (Byte.ofNat (n % 128 + 128)).val = n % 128 + 128 := by
        simp only [Byte.ofNat]; omega
      have hlt : ¬ (n % 128 + 128 < 128) := by omega
      simp only [uleb128MarshalLoop, h, if_false, List.cons_append, uleb128UnmarshalReader,
        hv, hlt]
      rw [ih (n / 128) tail (by omega)]
      simp only [Option.some.injEq, Prod.mk.injEq, and_true]
      omega

theorem uleb128_roundtrip (n : Nat) (tail : Bytes) :
    uleb128UnmarshalReader (uleb128Marshal n ++ tail) = some (n, tail) :=
  uleb128_loop_roundtrip n n tail (le_refl _)

theorem Source_Read_append (k : Source) (s tail : Bytes) (hs : s ≠ []) :
    k.Read s.length (s ++ tail) = (.ok s, tail) := by
  cases s with
  | nil => exact absurd rfl hs
  | cons b bs =>
    cases k <;>
      simp only [List.cons_append, Source.Read] <;>
      rw [← List.cons_append, List.take_left, List.drop_left]

theorem ReadString_WriteString (k : Source) (s tail : Bytes) :
    ReadString k (WriteString s ++ tail) = (.ok s, tail) := by
  cases s with
  | nil => simp [WriteString, ReadString, readFull, leValue]
  | cons b bs =>
    have h1 : WriteString (b :: bs) ++ tail
        = (0x0b : Byte) :: (uleb128Marshal (b :: bs).length ++ ((b :: bs) ++ tail)) := by
      simp [WriteString]
    rw [h1]
    have h2 : readFull 1 ((0x0b : Byte) :: (uleb128Marshal (b :: bs).length ++ ((b :: bs) ++ tail)))
        = (.ok [0x0b], uleb128Marshal (b :: bs).length ++ ((b :: bs) ++ tail)) := by
      simp [readFull]
    unfold ReadString
    rw [h2]
    have h3 : leValue [(0x0b : Byte)] = 0x0b := by decide
    simp only [h3]
    rw [uleb128_roundtrip]
    simp only []
    rw [Source_Read_append k (b :: bs) tail (List.cons_ne_nil _ _)]
    simp

/-- C7. String codec round trip: for every string `s` of byte length below `2^32`,
`WriteString` writes the single byte `0x00` when `s` is empty and otherwise `0x0B`, the
ULEB128 encoding of `len(s)` and the bytes of `s`; and `ReadString`, on any in-memory source
that holds those bytes followed by anything, returns `s` without an error and leaves
exactly what followed. -/
theorem WriteString_ReadString_roundtrip (k : Source) (s tail : Bytes)
    (_hlen : s.length < 4294967296) :
    WriteString s = (if s = [] then [0x00] else [0x0b] ++ uleb128Marshal s.length ++ s) ∧
    ReadString k (WriteString s ++ tail) = (.ok s, tail) := by
  refine ⟨?_, ReadString_WriteString k s tail⟩
  cases s with
  | nil => rfl
  | cons b bs => simp [WriteString]

theorem WriteString_ReadString_roundtrip_witness :
    ([104, 105] : Bytes).length < 4294967296 ∧
    WriteString [104, 105] = [0x0b, 2, 104, 105] ∧
    ReadString .reader (WriteString [104, 105] ++ [7]) = (.ok [104, 105], [7]) :=
  ⟨by decide,
   (WriteString_ReadString_roundtrip .reader [104, 105] [7] (by decide)).1.trans (by decide),
   (WriteString_ReadString_roundtrip .reader [104, 105] [7] (by decide)).2⟩

theorem uleb128MarshalLoop_fuel (f1 : Nat) : ∀ (f2 n : Nat), n ≤ f1 → n ≤ f2 →
    uleb128MarshalLoop f1 n = uleb128MarshalLoop f2 n := by
  induction f1 with
  | zero =>
    intro f2 n h1 _
    have h0 : n = 0 := by omega
    subst h0
    cases f2 <;> simp [uleb128MarshalLoop]
  | succ f1 ih =>
    intro f2 n h1 h2
    cases f2 with
    | zero =>
      have h0 : n = 0 := by omega
      subst h0
      simp [uleb128MarshalLoop]
    | succ f2 =>
      simp only [uleb128MarshalLoop]
      by_cases h : n < 128
      · simp [h]
      · simp only [h, if_false]
        rw [ih f2 (n / 128) (by omega) (by omega)]

/-- The loop of `uleb128.Marshal`, as an equation. -/
theorem uleb128Marshal_eq (i : Nat) :
    uleb128Marshal i =
      if i < 128 then [Byte.ofNat i]
      else Byte.ofNat (i % 128 + 128) :: uleb128Marshal (i / 128) := by
  unfold uleb128Marshal
  cases i with
  | zero => rfl
  | succ i =>
    simp only [uleb128MarshalLoop]
    by_cases h : i + 1 < 128
    · simp [h]
    · simp only [h, if_false]
      rw [uleb128MarshalLoop_fuel i ((i + 1) / 128) ((i + 1) / 128) (by omega) (le_refl _)]

/-! ## Reading back what the primitive writers wrote -/

theorem readFull_append (bs tail : Bytes) :
    readFull bs.length (bs ++ tail) = (.ok bs, tail) := by
  simp [readFull]

theorem leBytes_length (n v : Nat) : (leBytes n v).length = n := by
  induction n generalizing v with
  | zero => rfl
  | succ n ih => simp [leBytes, ih]

theorem leValue_leBytes (n v : Nat) : leValue (leBytes n v) = v % 256 ^ n := by
  induction n generalizing v with
  | zero => simp [leBytes, leValue, Nat.mod_one]
  | succ n ih =>
    simp only [leBytes, leValue, ih, Byte.ofNat]
    rw [pow_succ, Nat.mul_comm (256 ^ n) 256, Nat.mod_mul]

theorem readUint_leBytes (n v : Nat) (tail : Bytes) :
    readUint n (leBytes n v ++ tail) = (.ok (v % 256 ^ n), tail) := by
  unfold readUint
  have h := readFull_append (leBytes n v) tail
  rw [leBytes_length] at h
  rw [h]
  simp only [leValue_leBytes]

theorem ReadUint8_cons (b : Byte) (tail : Bytes) :
    ReadUint8 (b :: tail) = (.ok b.val, tail) := by
  have h := readFull_append [b] tail
  simp only [List.length_singleton, List.singleton_append] at h
  simp [ReadUint8, readUint, h, leValue]

/-! ## Bit-packed bool lists -/

theorem boolList_roundtrip (bools : List Bool) (hlen : bools.length = 8) :
    ∃ b : Byte, WriteBoolList bools = .ok [b] ∧
      (∀ i : Fin 8, Nat.testBit b.val i.val = bools.getD i.val false) ∧
      ∀ tail : Bytes, ReadBoolList ([b] ++ tail) 8 = (.ok bools, tail) := by
  match bools, hlen with
  | [b0, b1, b2, b3, b4, b5, b6, b7], _ =>
    refine ⟨_, rfl, ?_, ?_⟩
    · cases b0 <;> cases b1 <;> cases b2 <;> cases b3 <;> cases b4 <;> cases b5 <;>
        cases b6 <;> cases b7 <;> decide
    · intro tail
      simp only [ReadBoolList, List.singleton_append, ReadUint8_cons]
      cases b0 <;> cases b1 <;> cases b2 <;> cases b3 <;> cases b4 <;> cases b5 <;>
        cases b6 <;> cases b7 <;> rfl

/-- C8. Bit-packed bool list round trip: for every list `bools` of length exactly 8,
`WriteBoolList` writes exactly one byte whose bit `i` (bit 0 the least significant) is
`bools[i]`, and `ReadBoolList` with size 8 on that byte returns `bools`, consuming that
byte only. -/
theorem WriteBoolList_ReadBoolList_roundtrip (bools : List Bool) (tail : Bytes)
    (hlen : bools.length = 8) :
    ∃ b : Byte, WriteBoolList bools = .ok [b] ∧
      (∀ i : Fin 8, Nat.testBit b.val i.val = bools.getD i.val false) ∧
      ReadBoolList ([b] ++ tail) 8 = (.ok bools, tail) := by
  obtain ⟨b, h1, h2, h3⟩ := boolList_roundtrip bools hlen
  exact ⟨b, h1, h2, h3 tail⟩

theorem WriteBoolList_ReadBoolList_roundtrip_witness :
    [true, true, false, true, false, false, false, false].length = 8 ∧
    ∃ b : Byte, WriteBoolList [true, true, false, true, false, false, false, false] = .ok [b] ∧
      (∀ i : Fin 8, Nat.testBit b.val i.val
        = [true, true, false, true, false, false, false, false].getD i.val false) ∧
      ReadBoolList ([b] ++ [9]) 8
        = (.ok [true, true, false, true, false, false, false, false], [9]) :=
  ⟨by decide,
   WriteBoolList_ReadBoolList_roundtrip [true, true, false, true, false, false, false, false]
     [9] (by decide)⟩

/-! ## Packet-ID translation -/

theorem supported_291 (K : Constants) : (NewB291 K).SupportedPacketIds =
    (NewB282 K).SupportedPacketIds ++ [K.BanchoGetAttention, K.BanchoAnnounce] := rfl

theorem supported_294 (K : Constants) : (NewB294 K).SupportedPacketIds =
    (NewB291 K).SupportedPacketIds ++ [K.OsuSendIrcMessagePrivate] := rfl

theorem supported_296 (K : Constants) :
    (NewB296 K).SupportedPacketIds = (NewB294 K).SupportedPacketIds := rfl

theorem supported_298 (K : Constants) : ∃ more,
    (NewB298 K).SupportedPacketIds = (NewB296 K).SupportedPacketIds ++ more := ⟨_, rfl⟩

theorem supported_312 (K : Constants) : ∃ more,
    (NewB312 K).SupportedPacketIds = (NewB298 K).SupportedPacketIds ++ more := ⟨_, rfl⟩

theorem supported_320 (K : Constants) :
    (NewB320 K).SupportedPacketIds = (NewB312 K).SupportedPacketIds := rfl

theorem supported_323 (K : Constants) : (NewB323 K).SupportedPacketIds =
    (NewB312 K).SupportedPacketIds ++ [K.OsuMatchChangeBeatmap] := rfl

/-- Every ID a codec supports is one of those `NewB312` lists, except for
`OsuMatchChangeBeatmap`, which `NewB323` adds. -/
theorem supported_cases (K : Constants) (b : Build) (l : Nat)
    (hl : l ∈ SupportedPackets K b) :
    l ∈ (NewB312 K).SupportedPacketIds ∨ (b = .b323 ∧ l = K.OsuMatchChangeBeatmap) := by
  obtain ⟨m298, h298⟩ := supported_298 K
  obtain ⟨m312, h312⟩ := supported_312 K
  have e291 := supported_291 K
  have e294 := supported_294 K
  have e296 := supported_296 K
  have e320 := supported_320 K
  have e323 := supported_323 K
  cases b <;> simp only [SupportedPackets, newClient, B282.SupportedPackets] at hl
  · left; rw [h312, h298, e296, e294, e291]; simp only [List.mem_append]; tauto
  · left; rw [h312, h298, e296, e294]; simp only [List.mem_append]; tauto
  · left; rw [h312, h298, e296]; simp only [List.mem_append]; tauto
  · left; rw [h312, h298]; simp only [List.mem_append]; tauto
  · left; rw [h312]; simp only [List.mem_append]; tauto
  · left; exact hl
  · left; rw [e320] at hl; exact hl
  · rw [e323] at hl
    rcases List.mem_append.mp hl with h | h
    · left; exact h
    · right; exact ⟨rfl, by simpa using h⟩

theorem B282_convert_in_out (K : Constants) (l : Nat)
    (h : l = K.BanchoHandleIrcJoin ∨ (l ≠ 45 ∧ l < 65535)) :
    B282.ConvertInputPacketId K (B282.ConvertOutputPacketId K l) = l := by
  unfold B282.ConvertInputPacketId B282.ConvertOutputPacketId
  by_cases hj : l = K.BanchoHandleIrcJoin
  · simp [hj]
  · have h' : l ≠ 45 ∧ l < 65535 := h.resolve_left hj
    simp only [hj, if_false]
    split_ifs <;> omega

theorem B323_convert_in_out (K : Constants) (l : Nat)
    (h : l = K.BanchoHandleIrcJoin ∨ l = K.OsuMatchChangeBeatmap ∨ (l ≠ 45 ∧ l < 50)) :
    B323.ConvertInputPacketId K (B323.ConvertOutputPacketId K l) = l := by
  unfold B323.ConvertInputPacketId B323.ConvertOutputPacketId
  by_cases hj : l = K.BanchoHandleIrcJoin
  · simp [hj]
  · by_cases hm : l = K.OsuMatchChangeBeatmap
    · have hmj : ¬ K.OsuMatchChangeBeatmap = K.BanchoHandleIrcJoin := by rw [← hm]; exact hj
      subst hm
      simp [hmj]
    · have h' : l ≠ 45 ∧ l < 50 := (h.resolve_left hj).resolve_left hm
      simp only [hj, hm, if_false]
      split_ifs <;> omega

/-- C2. For each of the codecs B282, B291, B294, B296, B298, B312, B320 and B323 and every
logical packet ID `l` in that codec's `SupportedPackets()`, the codec's
`ConvertInputPacketId` undoes its `ConvertOutputPacketId`:
`ConvertInputPacketId(ConvertOutputPacketId(l)) = l`. -/
theorem convert_input_output_supported (K : Constants) (hK : K.WellFormed) (b : Build)
    (l : Nat) (hl : l ∈ SupportedPackets K b) :
    ConvertInputPacketId K b (ConvertOutputPacketId K b l) = l := by
  rcases supported_cases K b l hl with h | ⟨hb, hm⟩
  · have ho := hK.ordinary l h
    cases b <;> simp only [ConvertInputPacketId, ConvertOutputPacketId]
    all_goals first
      | exact B282_convert_in_out K l (Or.inr ⟨ho.2, by omega⟩)
      | exact B323_convert_in_out K l (Or.inr (Or.inr ⟨ho.2, ho.1⟩))
  · subst hb
    simp only [ConvertInputPacketId, ConvertOutputPacketId]
    exact B323_convert_in_out K l (Or.inr (Or.inl hm))

theorem osuConstants_wellFormed : osuConstants.WellFormed where
  ordinary := by decide
  changeBeatmap := by decide
  ircJoin := by decide
  distinct := by decide

theorem convert_input_output_supported_witness :
    osuConstants.WellFormed ∧
    osuConstants.OsuMatchChangeBeatmap ∈ SupportedPackets osuConstants .b323 ∧
    ConvertOutputPacketId osuConstants .b323 osuConstants.OsuMatchChangeBeatmap = 50 ∧
    ConvertInputPacketId osuConstants .b323
      (ConvertOutputPacketId osuConstants .b323 osuConstants.OsuMatchChangeBeatmap)
        = osuConstants.OsuMatchChangeBeatmap :=
  ⟨osuConstants_wellFormed, by decide, by decide,
   convert_input_output_supported osuConstants osuConstants_wellFormed .b323
     osuConstants.OsuMatchChangeBeatmap (by decide)⟩

theorem B282_convert_out_in (K : Constants) (r : Nat)
    (hj : 50 < K.BanchoHandleIrcJoin)
    (hs : B282.ConvertInputPacketId K r < 50 ∧ B282.ConvertInputPacketId K r ≠ 45) :
    B282.ConvertOutputPacketId K (B282.ConvertInputPacketId K r) = r := by
  unfold B282.ConvertOutputPacketId
  have hne : B282.ConvertInputPacketId K r ≠ K.BanchoHandleIrcJoin := by omega
  rw [if_neg hne]
  unfold B282.ConvertInputPacketId at hs ⊢
  by_cases h11 : r = 11
  · rw [if_pos h11] at hs; omega
  · rw [if_neg h11] at hs ⊢
    simp only [] at hs ⊢
    split_ifs at hs ⊢ <;> omega

theorem B323_convert_out_in (K : Constants) (r : Nat)
    (hj : 50 < K.BanchoHandleIrcJoin) (hm : 50 < K.OsuMatchChangeBeatmap)
    (hd : K.OsuMatchChangeBeatmap ≠ K.BanchoHandleIrcJoin)
    (hr : r ≠ K.OsuMatchChangeBeatmap)
    (hs : (B323.ConvertInputPacketId K r < 50 ∧ B323.ConvertInputPacketId K r ≠ 45) ∨
      B323.ConvertInputPacketId K r = K.OsuMatchChangeBeatmap) :
    B323.ConvertOutputPacketId K (B323.ConvertInputPacketId K r) = r := by
  by_cases h11 : r = 11
  · subst h11
    simp [B323.ConvertInputPacketId, B323.ConvertOutputPacketId]
  · by_cases h50 : r = 50
    · subst h50
      simp [B323.ConvertInputPacketId, B323.ConvertOutputPacketId, hd]
    · have hin : B323.ConvertInputPacketId K r =
          if r > 11 ∧ r ≤ 45 then r - 1 else r := by
        simp [B323.ConvertInputPacketId, h11, h50]
      rw [hin] at hs ⊢
      unfold B323.ConvertOutputPacketId
      split_ifs at hs ⊢ <;> omega

/-- C3, as stated, fails: on build 323 the raw ID that is numerically equal to the logical
constant `OsuMatchChangeBeatmap` is passed through unchanged by `ConvertInputPacketId`,
the result is in the supported set, and `ConvertOutputPacketId` sends it to raw 50. -/
theorem convert_output_input_counterexample :
    osuConstants.OsuMatchChangeBeatmap < 65536 ∧
    ConvertInputPacketId osuConstants .b323 osuConstants.OsuMatchChangeBeatmap
      ∈ SupportedPackets osuConstants .b323 ∧
    ConvertOutputPacketId osuConstants .b323
      (ConvertInputPacketId osuConstants .b323 osuConstants.OsuMatchChangeBeatmap) = 50 ∧
    ConvertOutputPacketId osuConstants .b323
      (ConvertInputPacketId osuConstants .b323 osuConstants.OsuMatchChangeBeatmap)
        ≠ osuConstants.OsuMatchChangeBeatmap := by
  decide

/-- C3, amended. For each codec (B282 through B323) and every 16-bit raw ID `r` such that
the codec's `ConvertInputPacketId(r)` is in its supported set, except on B323 the raw ID
numerically equal to the logical constant `OsuMatchChangeBeatmap`:
`ConvertOutputPacketId(ConvertInputPacketId(r)) = r`. -/
theorem convert_output_input_supported (K : Constants) (hK : K.WellFormed) (b : Build)
    (r : Nat) (_hr : r < 65536)
    (hs : ConvertInputPacketId K b r ∈ SupportedPackets K b)
    (hex : ¬ (b = .b323 ∧ r = K.OsuMatchChangeBeatmap)) :
    ConvertOutputPacketId K b (ConvertInputPacketId K b r) = r := by
  have hcases := supported_cases K b _ hs
  by_cases hb : b = .b323
  · subst hb
    simp only [ConvertInputPacketId, ConvertOutputPacketId] at hcases ⊢
    refine B323_convert_out_in K r hK.ircJoin.1 hK.changeBeatmap.1 hK.distinct
      (fun h => hex ⟨rfl, h⟩) ?_
    rcases hcases with h | ⟨_, h⟩
    · exact Or.inl (hK.ordinary _ h)
    · exact Or.inr h
  · have h312 : ConvertInputPacketId K b r ∈ (NewB312 K).SupportedPacketIds := by
      rcases hcases with h | ⟨h, _⟩
      · exact h
      · exact absurd h hb
    have ho := hK.ordinary _ h312
    cases b <;> first
      | exact absurd rfl hb
      | exact B282_convert_out_in K r hK.ircJoin.1 ho

theorem convert_output_input_supported_witness :
    osuConstants.WellFormed ∧ (50 : Nat) < 65536 ∧
    ConvertInputPacketId osuConstants .b323 50 ∈ SupportedPackets osuConstants .b323 ∧
    ¬ (Build.b323 = .b323 ∧ 50 = osuConstants.OsuMatchChangeBeatmap) ∧
    ConvertOutputPacketId osuConstants .b323 (ConvertInputPacketId osuConstants .b323 50)
      = 50 :=
  ⟨osuConstants_wellFormed, by decide, by decide, by decide,
   convert_output_input_supported osuConstants osuConstants_wellFormed .b323 50 (by decide)
     (by decide) (by decide)⟩

/-! ## The frame envelope -/

/-- The envelope as `WritePacket` writes it on every codec: the raw ID is the one
`B282.ConvertOutputPacketId` gives, which is the codec's own on every build but 323; the
frame is `6 + len(c)` bytes long, and the length field decodes to `len(c)` whenever
`len(c)` fits its 32 bits. -/
theorem WritePacket_envelope (K : Constants) (G : Gzip) (b : Build) (l : Nat) (d : Bytes) :
    WritePacket K G b l d =
        leBytes 2 (B282.ConvertOutputPacketId K l) ++
          leBytes 4 ((CompressData G d).length % 4294967296) ++ CompressData G d ∧
    (WritePacket K G b l d).length = 6 + (CompressData G d).length ∧
    (WritePacket K G b l d).drop 6 = CompressData G d ∧
    ((CompressData G d).length < 4294967296 →
      leValue (((WritePacket K G b l d).drop 2).take 4) = (CompressData G d).length) ∧
    (b ≠ .b323 → B282.ConvertOutputPacketId K l = ConvertOutputPacketId K b l) := by
  have h1 : WritePacket K G b l d =
      leBytes 2 (B282.ConvertOutputPacketId K l) ++
        leBytes 4 ((CompressData G d).length % 4294967296) ++ CompressData G d := rfl
  refine ⟨h1, ?_, ?_, ?_, ?_⟩
  rotate_left 3
  · intro hb
    cases b <;> first | rfl | exact absurd rfl hb
  · rw [h1]; simp only [List.length_append, leBytes_length]
  · rw [h1]
    exact List.drop_left' (by simp only [List.length_append, leBytes_length])
  · intro hlt
    rw [h1, List.append_assoc, List.drop_left' (leBytes_length 2 _),
      List.take_left' (leBytes_length 4 _), leValue_leBytes]
    omega

theorem WritePacket_envelope_witness :
    (CompressData storedGzip [1, 2, 3]).length < 4294967296 ∧
    WritePacket osuConstants storedGzip .b282 osuConstants.BanchoLoginReply [1, 2, 3]
      = [5, 0, 5, 0, 0, 0, 0x1f, 0x8b, 1, 2, 3] ∧
    leValue (((WritePacket osuConstants storedGzip .b282 osuConstants.BanchoLoginReply
      [1, 2, 3]).drop 2).take 4) = (CompressData storedGzip [1, 2, 3]).length :=
  ⟨by decide, by decide,
   (WritePacket_envelope osuConstants storedGzip .b282 osuConstants.BanchoLoginReply
     [1, 2, 3]).2.2.2.1 (by decide)⟩

/-- C5 at its failing input. Build 323 has its own `ConvertOutputPacketId`, which sends
`OsuMatchChangeBeatmap` to the raw ID 50; but `WritePacket` is `B282`'s method and calls
`B282.ConvertOutputPacketId`: for every payload `d` the frame it writes on the build-323
codec is `FF FF`, then u32-little-endian(`len(c)`), then `c = CompressData(d)`, and its
first two bytes are not u16-little-endian(50). -/
theorem WritePacket_b323_envelope_raw_id (G : Gzip) (d : Bytes) :
    ConvertOutputPacketId osuConstants .b323 osuConstants.OsuMatchChangeBeatmap = 50 ∧
    B282.ConvertOutputPacketId osuConstants osuConstants.OsuMatchChangeBeatmap = 0xFFFF ∧
    WritePacket osuConstants G .b323 osuConstants.OsuMatchChangeBeatmap d
      = [0xFF, 0xFF] ++ leBytes 4 ((CompressData G d).length % 4294967296) ++
          CompressData G d ∧
    WritePacket osuConstants G .b323 osuConstants.OsuMatchChangeBeatmap d
      ≠ leBytes 2 (ConvertOutputPacketId osuConstants .b323
            osuConstants.OsuMatchChangeBeatmap) ++
          leBytes 4 ((CompressData G d).length % 4294967296) ++ CompressData G d := by
  have hw : WritePacket osuConstants G .b323 osuConstants.OsuMatchChangeBeatmap d
      = [0xFF, 0xFF] ++ leBytes 4 ((CompressData G d).length % 4294967296) ++
          CompressData G d := by
    have h0 : leBytes 2 (B282.ConvertOutputPacketId osuConstants
        osuConstants.OsuMatchChangeBeatmap) = [0xFF, 0xFF] := by decide
    simp only [WritePacket, B282.WritePacket, WriteUint16, WriteUint32, h0]
  refine ⟨by decide, by decide, hw, ?_⟩
  rw [hw]
  have h50 : leBytes 2 (ConvertOutputPacketId osuConstants .b323
      osuConstants.OsuMatchChangeBeatmap) = [50, 0] := by decide
  rw [h50]
  intro h
  have hhead := congrArg List.head? h
  simp only [List.append_assoc, List.cons_append, List.head?_cons, Option.some.injEq] at hhead
  exact absurd hhead (by decide)

/-! ## Sequencing lemmas -/

theorem collect_ok {α β : Type} (rd : Rd α) (zero : α) (errors : List Err) (s rest : Bytes)
    (body : α → List Err → Bytes → Except Err β × Bytes) (a : α)
    (h : rd s = (.ok a, rest)) : collect rd zero errors s body = body a errors rest := by
  unfold collect
  rw [h]

theorem andThen_ok {α β : Type} (rd : Rd α) (s rest : Bytes)
    (body : α → Bytes → Except Err β × Bytes) (a : α)
    (h : rd s = (.ok a, rest)) : andThen rd s body = body a rest := by
  unfold andThen
  rw [h]

/-! ## Frame round trip -/

theorem storedGzip_lawful : storedGzip.Lawful := by
  intro data
  cases data with
  | nil => rfl
  | cons b bs => simp [CompressData, DecompressData, storedGzip]

theorem buffer_Read_append (c tail : Bytes) :
    Source.buffer.Read c.length (c ++ tail) = (.ok c, tail) := by
  cases c with
  | nil =>
    cases tail with
    | nil => rfl
    | cons t ts => simp [Source.Read]
  | cons b bs => exact Source_Read_append .buffer (b :: bs) tail (List.cons_ne_nil _ _)

theorem ImplementsPacket_of_mem (client : B282) (l : Nat) (h : l ∈ client.SupportedPackets) :
    client.ImplementsPacket l = true := by
  unfold B282.ImplementsPacket
  rw [List.any_eq_true]
  exact ⟨l, h, by simp⟩

theorem ImplementsPacket_of_not_mem (client : B282) (l : Nat)
    (h : l ∉ client.SupportedPackets) : client.ImplementsPacket l = false := by
  unfold B282.ImplementsPacket
  rw [List.any_eq_false]
  intro x hx
  have : x ≠ l := fun hxl => h (hxl ▸ hx)
  simpa using this

theorem toInt32_small (n : Nat) (h : n < 2147483648) : toInt32 n = (n : Int) := by
  unfold toInt32
  have h1 : n % 4294967296 = n := Nat.mod_eq_of_lt (by omega)
  rw [h1, if_pos h]

theorem ReadUint16_leBytes (v : Nat) (tail : Bytes) (h : v < 65536) :
    ReadUint16 (leBytes 2 v ++ tail) = (.ok v, tail) := by
  unfold ReadUint16
  rw [readUint_leBytes]
  have : v % 256 ^ 2 = v := Nat.mod_eq_of_lt (by norm_num; omega)
  rw [this]

theorem ReadUint32_leBytes (v : Nat) (tail : Bytes) (h : v < 4294967296) :
    ReadUint32 (leBytes 4 v ++ tail) = (.ok v, tail) := by
  unfold ReadUint32
  rw [readUint_leBytes]
  have : v % 256 ^ 4 = v := Nat.mod_eq_of_lt (by norm_num; omega)
  rw [this]

/-- What `B282.ConvertOutputPacketId` yields is again a `uint16`. -/
theorem B282_convert_out_lt (K : Constants) (l : Nat) (h : l < 65536) :
    B282.ConvertOutputPacketId K l < 65536 := by
  unfold B282.ConvertOutputPacketId
  simp only []
  split_ifs <;> omega

/-- Every supported ID survives the translation pair that the frame codec applies. -/
theorem frame_id_roundtrip (K : Constants) (hK : K.WellFormed) (b : Build) (l : Nat)
    (hl : l ∈ SupportedPackets K b) :
    l < 65536 ∧ B282.ConvertInputPacketId K (B282.ConvertOutputPacketId K l) = l := by
  rcases supported_cases K b l hl with h | ⟨_, hm⟩
  · have ho := hK.ordinary l h
    exact ⟨by omega, B282_convert_in_out K l (Or.inr ⟨ho.2, by omega⟩)⟩
  · have hc := hK.changeBeatmap
    exact ⟨by omega, B282_convert_in_out K l (Or.inr ⟨by omega, by omega⟩)⟩

/-- A supported packet whose registered reader rejects the payload is not read back: on
build 282, `OsuStartSpectating` with the empty payload is written as a 6-byte frame, and
`ReadPacket` on those bytes returns `io.EOF`, the error of the registered reader, and no
packet. -/
theorem frame_roundtrip_counterexample :
    osuConstants.OsuStartSpectating ∈ SupportedPackets osuConstants .b282 ∧
    WritePacket osuConstants storedGzip .b282 osuConstants.OsuStartSpectating []
      = [17, 0, 0, 0, 0, 0] ∧
    ReadPacket osuConstants storedGzip .b282 .buffer
      (WritePacket osuConstants storedGzip .b282 osuConstants.OsuStartSpectating [])
      = (.error .EOF, []) := by
  decide

/-- One `Read` of `len(c)` bytes on a stream that holds `c` followed by `tail` returns `c`,
unless the stream is a `bytes.Reader` that holds nothing at all. -/
theorem Source_Read_frame (k : Source) (c tail : Bytes)
    (hk : k = .buffer ∨ c ++ tail ≠ []) :
    k.Read c.length (c ++ tail) = (.ok c, tail) := by
  cases c with
  | nil =>
    cases tail with
    | nil =>
      rcases hk with hk | hk
      · rw [hk]; rfl
      · exact absurd rfl hk
    | cons t ts => cases k <;> simp [Source.Read]
  | cons b bs => exact Source_Read_append k (b :: bs) tail (List.cons_ne_nil _ _)

/-- Where the frame codec does read back what it wrote: for every codec, every logical ID
`l` in its supported set and every payload `d` whose compressed form is shorter than `2^31`
bytes (gzip decompress after compress taken as the identity), on a `bytes.Buffer`, or on
any stream on which the compressed payload or what follows it is not empty, `ReadPacket` on
the bytes `WritePacket(stream, l, d)` wrote consumes exactly those bytes and returns the
packet with `Id = l` and nil `Data` when no reader is registered for `l`; when a reader is
registered, it returns what that reader, handed the `*B282` as `ReadPacket` hands it,
makes of `d`. -/
theorem frame_roundtrip (K : Constants) (hK : K.WellFormed) (G : Gzip) (hG : G.Lawful)
    (b : Build) (k : Source) (l : Nat) (hl : l ∈ SupportedPackets K b) (d tail : Bytes)
    (hlen : (CompressData G d).length < 2147483648)
    (hk : k = .buffer ∨ CompressData G d ++ tail ≠ []) :
    ReadPacket K G b k (WritePacket K G b l d ++ tail) =
      match mapGet (newClient K b).Readers l with
      | none => (.ok { Id := l, Data := .nil }, tail)
      | some reader =>
        match dispatchReader K reader .b282 (newClient K b) d with
        | .ok v => (.ok { Id := l, Data := v }, tail)
        | .error e => (.error e, tail) := by
  obtain ⟨hl16, hid⟩ := frame_id_roundtrip K hK b l hl
  have hout := B282_convert_out_lt K l hl16
  have himpl := ImplementsPacket_of_mem (newClient K b) l hl
  have hmod : (CompressData G d).length % 4294967296 = (CompressData G d).length :=
    Nat.mod_eq_of_lt (by omega)
  have hw : WritePacket K G b l d ++ tail =
      leBytes 2 (B282.ConvertOutputPacketId K l) ++
        (leBytes 4 (CompressData G d).length ++ (CompressData G d ++ tail)) := by
    simp only [WritePacket, B282.WritePacket, WriteUint16, WriteUint32, hmod,
      List.append_assoc]
  have hi32 : ReadInt32 (leBytes 4 (CompressData G d).length ++ (CompressData G d ++ tail))
      = (.ok ((CompressData G d).length : Int), CompressData G d ++ tail) := by
    unfold ReadInt32
    rw [ReadUint32_leBytes _ _ (by omega)]
    simp only [toInt32_small _ hlen]
  unfold ReadPacket B282.ReadPacket
  rw [hw]
  simp only [andThen, ReadUint16_leBytes _ _ hout, hid, himpl, hi32, Bool.not_true,
    Bool.false_eq_true, if_false, Int.toNat_ofNat, Source_Read_frame k _ tail hk, hG d]
  have hneg : ¬ ((CompressData G d).length : Int) < 0 := by omega
  simp only [hneg, if_false, ne_eq, not_true_eq_false]
  cases mapGet (newClient K b).Readers l with
  | none => rfl
  | some reader =>
    simp only []
    cases dispatchReader K reader .b282 (newClient K b) d <;> rfl

theorem frame_roundtrip_witness :
    osuConstants.WellFormed ∧ storedGzip.Lawful ∧
    osuConstants.BanchoPing ∈ SupportedPackets osuConstants .b282 ∧
    (CompressData storedGzip []).length < 2147483648 ∧
    ReadPacket osuConstants storedGzip .b282 .buffer (WritePing osuConstants storedGzip .b282)
      = (.ok { Id := osuConstants.BanchoPing, Data := .nil }, []) :=
  ⟨osuConstants_wellFormed, storedGzip_lawful, by decide, by decide,
   (frame_roundtrip osuConstants osuConstants_wellFormed storedGzip storedGzip_lawful .b282
     .buffer osuConstants.BanchoPing (by decide) [] [] (by decide) (Or.inl rfl)).trans
       (by decide)⟩

/-- C4 at its failing inputs. On build 282 `WritePing` writes the frame `08 00 00 00 00 00`
of the supported ID `BanchoPing`, which has no registered reader. A `bytes.Buffer` holding
exactly those bytes reads back as `BanchoPing` with nil `Data`; a `bytes.Reader` holding the
same bytes does not: the `stream.Read` into the zero-length payload buffer finds the reader
exhausted and reports `io.EOF`, which `ReadPacket` returns. On build 294 the registered
reader of `OsuSpectateFrames` applied to a payload with a score frame returns that frame,
but `ReadPacket` on the frame `WritePacket` wrote for this payload returns a bundle whose
`Frame` is nil: the reader is handed the embedded `*B282`. -/
theorem frame_roundtrip_fails (G : Gzip) :
    osuConstants.BanchoPing ∈ SupportedPackets osuConstants .b282 ∧
    mapGet (newClient osuConstants .b282).Readers osuConstants.BanchoPing = none ∧
    WritePing osuConstants G .b282
      = WritePacket osuConstants G .b282 osuConstants.BanchoPing [] ∧
    WritePacket osuConstants G .b282 osuConstants.BanchoPing [] = [8, 0, 0, 0, 0, 0] ∧
    ReadPacket osuConstants G .b282 .buffer
        (WritePacket osuConstants G .b282 osuConstants.BanchoPing [])
      = (.ok { Id := osuConstants.BanchoPing, Data := .nil }, []) ∧
    ReadPacket osuConstants G .b282 .reader
        (WritePacket osuConstants G .b282 osuConstants.BanchoPing [])
      = (.error .EOF, []) ∧
    osuConstants.OsuSpectateFrames ∈ SupportedPackets osuConstants .b294 ∧
    mapGet (newClient osuConstants .b294).Readers osuConstants.OsuSpectateFrames
      = some .ReaderReadFrameBundle ∧
    dispatchReader osuConstants .ReaderReadFrameBundle .b294 (newClient osuConstants .b294)
        framesWithScorePayload
      = .ok (.frameBundle { Frames := [], Action := 3, Frame := some payloadScoreFrame }) ∧
    ReadPacket osuConstants storedGzip .b294 .buffer
        (WritePacket osuConstants storedGzip .b294 osuConstants.OsuSpectateFrames
          framesWithScorePayload)
      = (.ok { Id := osuConstants.OsuSpectateFrames,
               Data := .frameBundle { Frames := [], Action := 3, Frame := none } }, []) := by
  have hping : WritePacket osuConstants G .b282 osuConstants.BanchoPing []
      = [8, 0, 0, 0, 0, 0] := by
    have hc : CompressData G [] = [] := rfl
    have hz : WriteUint32 (([] : Bytes).length % 4294967296) = [0, 0, 0, 0] := by decide
    have hid : WriteUint16 (B282.ConvertOutputPacketId osuConstants osuConstants.BanchoPing)
        = [8, 0] := by decide
    simp only [WritePacket, B282.WritePacket, hc, hz, hid, List.append_nil]
    rfl
  refine ⟨by decide, by decide, rfl, hping, ?_, ?_, by decide, by decide, by decide,
    by decide⟩
  · rw [hping]; rfl
  · rw [hping]; rfl

/-! ## Packets outside the supported set -/

/-- Whatever the codec, a frame whose raw ID `B282.ConvertInputPacketId` sends outside the
supported set is refused after its two ID bytes: nothing else is read. -/
theorem ReadPacket_rejects_unsupported (K : Constants) (G : Gzip) (b : Build) (k : Source)
    (r : Nat) (tail : Bytes) (hr : r < 65536)
    (hs : B282.ConvertInputPacketId K r ∉ SupportedPackets K b) :
    ReadPacket K G b k (leBytes 2 r ++ tail)
      = (.error (.notImplemented (B282.ConvertInputPacketId K r)), tail) := by
  unfold ReadPacket B282.ReadPacket
  rw [andThen_ok _ _ _ _ _ (ReadUint16_leBytes r tail hr)]
  simp only [ImplementsPacket_of_not_mem (newClient K b) _ hs, Bool.not_false, if_true]

/-- C6 at its failing input. On build 323 the raw ID `0xFFFF` is translated by
`B323.ConvertInputPacketId` to `BanchoHandleIrcJoin`, which build 323 does not support; yet
`ReadPacket`, which translates with `B282.ConvertInputPacketId`, takes it for
`OsuMatchChangeBeatmap`, reads the length field and the payload byte, and fails only
afterwards: all seven bytes of the stream are consumed. -/
theorem ReadPacket_b323_reads_unsupported_payload (G : Gzip) (k : Source) :
    ConvertInputPacketId osuConstants .b323 0xFFFF = osuConstants.BanchoHandleIrcJoin ∧
    ConvertInputPacketId osuConstants .b323 0xFFFF ∉ SupportedPackets osuConstants .b323 ∧
    ReadUint16 [0xFF, 0xFF, 1, 0, 0, 0, 0] = (.ok 0xFFFF, [1, 0, 0, 0, 0]) ∧
    ∃ e, ReadPacket osuConstants G .b323 k [0xFF, 0xFF, 1, 0, 0, 0, 0] = (.error e, []) := by
  refine ⟨by decide, by decide, by decide, ?_⟩
  have h1 : ReadUint16 [0xFF, 0xFF, 1, 0, 0, 0, 0] = (.ok 0xFFFF, [1, 0, 0, 0, 0]) := by decide
  have h2 : B282.ConvertInputPacketId osuConstants 0xFFFF = 0xFFFE := by decide
  have h3 : (newClient osuConstants .b323).ImplementsPacket 0xFFFE = true := by decide
  have h4 : ReadInt32 [1, 0, 0, 0, 0] = (.ok 1, [0]) := by decide
  have h5 : k.Read (1 : Int).toNat [0] = (.ok [0], []) := by cases k <;> rfl
  have h6 : mapGet (newClient osuConstants .b323).Readers 0xFFFE = some .ReaderReadMatch := by
    decide
  have h7 : ∀ data, dispatchReader osuConstants .ReaderReadMatch .b282
      (newClient osuConstants .b323) data = .error (.doesNotImplement "ReadMatch") := by
    intro data; rfl
  have h8 : DecompressData G [0] = G.decompress [0] := rfl
  unfold ReadPacket B282.ReadPacket
  simp only [andThen, h1, h2, h3, h4, h5, h6, h7, h8, Bool.not_true, Bool.false_eq_true,
    if_false]
  cases G.decompress [0] with
  | error e => exact ⟨e, by simp⟩
  | ok data => exact ⟨.doesNotImplement "ReadMatch", by simp⟩

/-! ## Reader dispatch -/

/-- C10 at its failing input. A build-294 `OsuSpectateFrames` frame whose payload is: no
replay frames, action 3, then a score frame. `B294.ReadFrameBundle` decodes the score
frame from that payload, but `ReadPacket` on the build-294 codec hands the reader the
embedded `*B282`, so the bundle is decoded by `B282.ReadFrameBundle` and its `Frame` is
nil. -/
theorem ReadPacket_b294_uses_base_ReadFrameBundle :
    (B294.ReadFrameBundle .reader
      [0, 0, 3, 0, 1, 2, 0, 3, 0, 4, 0, 5, 0, 6, 0, 7, 0, 8, 0, 0, 0, 9, 0, 10, 0, 1, 200]).1
      = .ok { Frames := [], Action := 3,
              Frame := some { Time := 0, Id := 1, Total300 := 2, Total100 := 3, Total50 := 4,
                              TotalGeki := 5, TotalKatu := 6, TotalMiss := 7, TotalScore := 8,
                              MaxCombo := 9, CurrentCombo := 10, Perfect := true, Hp := 200,
                              TagByte := 0 } } ∧
    mapGet (newClient osuConstants .b294).Readers osuConstants.OsuSpectateFrames
      = some .ReaderReadFrameBundle ∧
    ReadPacket osuConstants storedGzip .b294 .buffer
      (WritePacket osuConstants storedGzip .b294 osuConstants.OsuSpectateFrames
        [0, 0, 3, 0, 1, 2, 0, 3, 0, 4, 0, 5, 0, 6, 0, 7, 0, 8, 0, 0, 0, 9, 0, 10, 0, 1, 200])
      = (.ok { Id := osuConstants.OsuSpectateFrames,
               Data := .frameBundle { Frames := [], Action := 3, Frame := none } }, []) := by
  decide

/-! ## Match descriptor round trip -/

theorem ReadUint8_WriteUint8 (v : Nat) (tail : Bytes) :
    ReadUint8 (WriteUint8 v ++ tail) = (.ok (v % 256), tail) := by
  unfold ReadUint8 WriteUint8
  rw [readUint_leBytes]
  simp

theorem ReadBoolean_WriteBoolean (v : Bool) (tail : Bytes) :
    ReadBoolean (WriteBoolean v ++ tail) = (.ok v, tail) := by
  cases v <;> simp [ReadBoolean, WriteBoolean, readFull, leValue]

theorem toInt32_toUint32 (v : Int) (h : IsInt32 v) : toInt32 (toUint32 v) = v := by
  unfold IsInt32 at h
  unfold toInt32 toUint32
  have h0 : (0 : Int) ≤ v % 4294967296 := Int.emod_nonneg _ (by norm_num)
  have h1 : v % 4294967296 < 4294967296 := Int.emod_lt_of_pos _ (by norm_num)
  have h2 : (v % 4294967296).toNat % 4294967296 = (v % 4294967296).toNat := by
    apply Nat.mod_eq_of_lt
    omega
  rw [h2]
  split_ifs <;> omega

theorem ReadInt32_WriteInt32 (v : Int) (tail : Bytes) (h : IsInt32 v) :
    ReadInt32 (WriteInt32 v ++ tail) = (.ok v, tail) := by
  unfold ReadInt32 WriteInt32 WriteUint32
  have hlt : toUint32 v < 4294967296 := by
    unfold toUint32
    have h1 : v % 4294967296 < 4294967296 := Int.emod_lt_of_pos _ (by norm_num)
    omega
  rw [ReadUint32_leBytes _ _ hlt]
  simp only [toInt32_toUint32 v h]

theorem readSlot_written (L : List MatchSlot)
    (hL : ∀ slot ∈ L,
      (slot.Status = .Open ∨ slot.Status = .Locked ∨ slot.Status = .NotReady ∨
        slot.Status = .Ready) ∧
      IsInt32 slot.UserId ∧ (slot.HasPlayer = false → slot.UserId = 0))
    (i : Nat) (hi : i < L.length) (tail : Bytes) :
    readSlot (L.map (fun slot => decide (slot.Status = SlotStatus.Open)))
        (L.map (fun slot => slot.HasPlayer))
        (L.map (fun slot => decide (slot.Status = SlotStatus.Ready))) i
        ((if (L.get ⟨i, hi⟩).HasPlayer then WriteInt32 (L.get ⟨i, hi⟩).UserId else []) ++ tail)
      = (.ok (L.get ⟨i, hi⟩), tail) := by
  have hmem : L.get ⟨i, hi⟩ ∈ L := List.get_mem L i hi
  obtain ⟨hst, hint, hzero⟩ := hL _ hmem
  generalize hslot : L.get ⟨i, hi⟩ = slot at hst hint hzero ⊢
  have e1 : (L.map (fun slot => decide (slot.Status = SlotStatus.Open)))[i]?
      = some (decide (slot.Status = SlotStatus.Open)) := by
    rw [List.getElem?_map, List.getElem?_eq_getElem hi]
    simp only [Option.map_some', ← hslot, List.get_eq_getElem]
  have e2 : (L.map (fun slot => slot.HasPlayer))[i]? = some slot.HasPlayer := by
    rw [List.getElem?_map, List.getElem?_eq_getElem hi]
    simp only [Option.map_some', ← hslot, List.get_eq_getElem]
  have e3 : (L.map (fun slot => decide (slot.Status = SlotStatus.Ready)))[i]?
      = some (decide (slot.Status = SlotStatus.Ready)) := by
    rw [List.getElem?_map, List.getElem?_eq_getElem hi]
    simp only [Option.map_some', ← hslot, List.get_eq_getElem]
  unfold readSlot
  rw [e1, e2, e3]
  obtain ⟨status, userId⟩ := slot
  simp only at hst hint hzero
  rcases hst with h | h | h | h <;> subst h
  · have := hzero rfl
    subst this
    simp [MatchSlot.HasPlayer]
  · have := hzero rfl
    subst this
    simp [MatchSlot.HasPlayer]
  · simp [MatchSlot.HasPlayer, andThen, ReadInt32_WriteInt32 _ _ hint]
  · simp [MatchSlot.HasPlayer, andThen, ReadInt32_WriteInt32 _ _ hint]

theorem readSlots_written (L : List MatchSlot)
    (hL : ∀ slot ∈ L,
      (slot.Status = .Open ∨ slot.Status = .Locked ∨ slot.Status = .NotReady ∨
        slot.Status = .Ready) ∧
      IsInt32 slot.UserId ∧ (slot.HasPlayer = false → slot.UserId = 0))
    (n : Nat) : ∀ (i : Nat) (tail : Bytes), i + n ≤ L.length →
    readSlots (L.map (fun slot => decide (slot.Status = SlotStatus.Open)))
        (L.map (fun slot => slot.HasPlayer))
        (L.map (fun slot => decide (slot.Status = SlotStatus.Ready))) i n
        ((((L.drop i).take n).filter (fun slot => slot.HasPlayer)).flatMap
          (fun slot => WriteInt32 slot.UserId) ++ tail)
      = (.ok ((L.drop i).take n), tail) := by
  induction n with
  | zero => intro i tail _; simp [readSlots]
  | succ n ih =>
    intro i tail hle
    have hi : i < L.length := by omega
    have hdrop : L.drop i = L.get ⟨i, hi⟩ :: L.drop (i + 1) := by
      rw [List.get_eq_getElem]; exact List.drop_eq_getElem_cons hi
    have hpay : (((L.drop i).take (n + 1)).filter (fun slot => slot.HasPlayer)).flatMap
          (fun slot => WriteInt32 slot.UserId) ++ tail
        = (if (L.get ⟨i, hi⟩).HasPlayer then WriteInt32 (L.get ⟨i, hi⟩).UserId else []) ++
          ((((L.drop (i + 1)).take n).filter (fun slot => slot.HasPlayer)).flatMap
            (fun slot => WriteInt32 slot.UserId) ++ tail) := by
      rw [hdrop, List.take_succ_cons, List.filter_cons]
      by_cases hp : (L.get ⟨i, hi⟩).HasPlayer = true
      · simp only [hp, if_true, List.flatMap_cons, List.append_assoc]
      · simp only [hp, if_false, List.nil_append]
        rfl
    rw [hpay]
    unfold readSlots
    rw [andThen_ok _ _ _ _ _ (readSlot_written L hL i hi _)]
    rw [andThen_ok _ _ _ _ _ (ih (i + 1) tail (by omega))]
    rw [hdrop, List.take_succ_cons]

theorem WriteBoolListSized_eight (bools : List Bool) (size : Int) (h : bools.length = 8) :
    WriteBoolListSized bools size = WriteBoolList bools := by
  unfold WriteBoolListSized
  rw [h]
  simp

/-- C9. Match round trip on build 312: with slot size 8, for every match `m` with
`0 <= Id <= 255`, exactly 8 slots each of status Open, Locked, NotReady or Ready, and
`UserId = 0` on every slot without a player, `B312.WriteMatch` returns bytes on which
`B312.ReadMatch` returns `m` again: the same Id, InProgress, Type, Name, BeatmapText,
BeatmapId and BeatmapChecksum and the same Status and UserId in every slot (these are all
the fields of the embedded `Match`), consuming exactly those bytes. -/
theorem B312_match_roundtrip (client : B282) (k : Source) (m : Match) (tail : Bytes)
    (hsize : client.SlotSize = 8) (hinst : client.Instance ≠ none)
    (hid : 0 ≤ m.Id ∧ m.Id ≤ 255) (hslots : m.Slots.length = 8) (hw : m.Wire312) :
    ∃ bytes, B312.WriteMatch client m = .ok bytes ∧
      B312.ReadMatch client k (bytes ++ tail) = (.ok m, tail) := by
  have hsz : client.MatchSlotSize = 8 := hsize
  have hinst' : client.instanceSlotSize = .ok 8 := by
    unfold B282.instanceSlotSize
    cases hI : client.Instance with
    | none => exact absurd hI hinst
    | some _ => simp only [hsz]
  have htake : m.Slots.take 8 = m.Slots := List.take_of_length_le (by omega)
  obtain ⟨bo, hbo1, _, hbo3⟩ := boolList_roundtrip
    (m.Slots.map (fun slot => decide (slot.Status = SlotStatus.Open))) (by simp [hslots])
  obtain ⟨bu, hbu1, _, hbu3⟩ := boolList_roundtrip
    (m.Slots.map (fun slot => slot.HasPlayer)) (by simp [hslots])
  obtain ⟨br, hbr1, _, hbr3⟩ := boolList_roundtrip
    (m.Slots.map (fun slot => decide (slot.Status = SlotStatus.Ready))) (by simp [hslots])
  have hrd : ∀ (b : Byte) (bools : List Bool),
      (∀ t : Bytes, ReadBoolList ([b] ++ t) 8 = (.ok bools, t)) →
      ∀ t : Bytes, (fun s => ReadBoolList s 8) (b :: t) = (.ok bools, t) := by
    intro b bools h t
    exact h t
  have hidm : toUint8 m.Id % 256 = m.Id.toNat := by
    unfold toUint8; omega
  have hidb : Int.ofNat m.Id.toNat = m.Id := Int.toNat_of_nonneg hid.1
  have htype : m.MatchType % 256 = m.MatchType := Nat.mod_eq_of_lt hw.matchType
  have hwrite : B312.WriteMatch client m = .ok (WriteUint8 (toUint8 m.Id) ++
        WriteBoolean m.InProgress ++ WriteUint8 m.MatchType ++ WriteString m.Name ++
        WriteString m.BeatmapText ++ WriteInt32 m.BeatmapId ++
        WriteString m.BeatmapChecksum ++ [bo] ++ [bu] ++ [br] ++
        (m.Slots.filter (fun slot => slot.HasPlayer)).flatMap
          (fun slot => WriteInt32 slot.UserId)) := by
    unfold B312.WriteMatch
    simp only [hsz, hinst', htake, show ¬ ((8 : Int) < 0) by decide, if_false,
      show (8 : Int).toNat = 8 by rfl, hslots, lt_irrefl,
      WriteBoolListSized_eight _ _ (show (m.Slots.map
        (fun slot => decide (slot.Status = SlotStatus.Open))).length = 8 by simp [hslots]),
      WriteBoolListSized_eight _ _ (show (m.Slots.map
        (fun slot => slot.HasPlayer)).length = 8 by simp [hslots]),
      WriteBoolListSized_eight _ _ (show (m.Slots.map
        (fun slot => decide (slot.Status = SlotStatus.Ready))).length = 8 by simp [hslots]),
      hbo1, hbu1, hbr1, written]
  refine ⟨_, hwrite, ?_⟩
  · simp only [List.append_assoc, List.singleton_append]
    unfold B312.ReadMatch
    simp only [hsz, hinst']
    rw [collect_ok _ _ _ _ _ _ _ (ReadUint8_WriteUint8 _ _)]
    rw [collect_ok _ _ _ _ _ _ _ (ReadBoolean_WriteBoolean _ _)]
    rw [collect_ok _ _ _ _ _ _ _ (ReadUint8_WriteUint8 _ _)]
    rw [collect_ok _ _ _ _ _ _ _ (ReadString_WriteString k _ _)]
    rw [collect_ok _ _ _ _ _ _ _ (ReadString_WriteString k _ _)]
    rw [collect_ok _ _ _ _ _ _ _ (ReadInt32_WriteInt32 _ _ hw.beatmapId)]
    rw [collect_ok _ _ _ _ _ _ _ (ReadString_WriteString k _ _)]
    rw [collect_ok _ _ _ _ _ _ _ (hrd _ _ hbo3 _)]
    rw [collect_ok _ _ _ _ _ _ _ (hrd _ _ hbu3 _)]
    rw [collect_ok _ _ _ _ _ _ _ (hrd _ _ hbr3 _)]
    simp only [show ¬ ((8 : Int) < 0) by decide, if_false, show (8 : Int).toNat = 8 by rfl]
    have hs := readSlots_written m.Slots hw.slots 8 0 tail (by omega)
    simp only [List.drop_zero, htake] at hs
    simp only [List.append_eq]
    rw [andThen_ok _ _ _ _ _ hs]
    simp only [hidm, hidb, htype]

theorem B312_match_roundtrip_witness :
    (newClient osuConstants .b312).SlotSize = 8 ∧
    (newClient osuConstants .b312).Instance ≠ none ∧
    (0 ≤ scenarioMatch.Id ∧ scenarioMatch.Id ≤ 255) ∧
    scenarioMatch.Slots.length = 8 ∧ scenarioMatch.Wire312 ∧
    B312.WriteMatch (newClient osuConstants .b312) scenarioMatch
      = .ok [7, 1, 0, 0x0b, 1, 109, 0, 0xff, 0xff, 0xff, 0xff, 0x0b, 2, 97, 98,
             0b00110100, 0b00001011, 0b00000010,
             10, 0, 0, 0, 11, 0, 0, 0, 12, 0, 0, 0] ∧
    ∃ bytes, B312.WriteMatch (newClient osuConstants .b312) scenarioMatch = .ok bytes ∧
      B312.ReadMatch (newClient osuConstants .b312) .reader (bytes ++ [])
        = (.ok scenarioMatch, []) :=
  ⟨by decide, by decide, by decide, by decide, ⟨by decide, by decide, by decide⟩, by decide,
   B312_match_roundtrip (newClient osuConstants .b312) .reader scenarioMatch [] (by decide)
     (by decide) (by decide) (by decide) ⟨by decide, by decide, by decide⟩⟩

/-! ## The translation table used by the frame codec of build 323 -/

/-- C11 at its failing input. Build 323's own table sends `OsuMatchChangeBeatmap` to raw 50
and raw 50 to `OsuMatchChangeBeatmap`, but its `WritePacket` and `ReadPacket` are `B282`'s
methods and translate with `B282`'s table: `WritePacket(stream, OsuMatchChangeBeatmap, d)`
starts the frame with the raw ID `0xFFFF`, and `ReadPacket` on a frame whose raw ID is 50
refuses it as packet 50, not implemented, after reading the two ID bytes. -/
theorem B323_frame_codec_uses_base_table (G : Gzip) (k : Source) (d rest : Bytes) :
    ConvertOutputPacketId osuConstants .b323 osuConstants.OsuMatchChangeBeatmap = 50 ∧
    ConvertInputPacketId osuConstants .b323 50 = osuConstants.OsuMatchChangeBeatmap ∧
    (WritePacket osuConstants G .b323 osuConstants.OsuMatchChangeBeatmap d).take 2
      = [0xFF, 0xFF] ∧
    ReadPacket osuConstants G .b323 k ([50, 0] ++ rest)
      = (.error (.notImplemented 50), rest) := by
  refine ⟨by decide, by decide, ?_, ?_⟩
  · have h : WritePacket osuConstants G .b323 osuConstants.OsuMatchChangeBeatmap d
        = [0xFF, 0xFF] ++ (leBytes 4 ((CompressData G d).length % 4294967296) ++
            CompressData G d) := by
      have h0 : leBytes 2 (B282.ConvertOutputPacketId osuConstants
          osuConstants.OsuMatchChangeBeatmap) = [0xFF, 0xFF] := by decide
      simp only [WritePacket, B282.WritePacket, WriteUint16, WriteUint32, h0,
        List.append_assoc]
    rw [h]
    rfl
  · have h50 : ([50, 0] : Bytes) = leBytes 2 50 := by decide
    have hin : B282.ConvertInputPacketId osuConstants 50 = 50 := by decide
    have h := ReadPacket_rejects_unsupported osuConstants G .b323 k 50 rest (by decide)
      (by decide)
    rw [hin, ← h50] at h
    exact h

/-! ## Match packets -/

/-- C12 at its failing input. On the build-312 codec, `WriteMatchUpdate`, `WriteMatchNew`
and `WriteMatchJoinSuccess` are `B298`'s methods and call `B298.WriteMatch`: for the match
of scenario S5 the payload of each packet is the build-298 layout, in which the type byte
follows the id byte at once, and not `B312.WriteMatch(match)`, which has the `in_progress`
byte between them. -/
theorem B312_match_packets_use_B298_layout :
    B312.WriteMatch (newClient osuConstants .b312) scenarioMatch
      = .ok [7, 1, 0, 0x0b, 1, 109, 0, 0xff, 0xff, 0xff, 0xff, 0x0b, 2, 97, 98,
             0b00110100, 0b00001011, 0b00000010,
             10, 0, 0, 0, 11, 0, 0, 0, 12, 0, 0, 0] ∧
    WriteMatchUpdate osuConstants storedGzip .b312 scenarioMatch
      = .ok (WritePacket osuConstants storedGzip .b312 osuConstants.BanchoMatchUpdate
          [7, 0, 0x0b, 1, 109, 0, 0xff, 0xff, 0xff, 0xff, 0x0b, 2, 97, 98,
           0b00110100, 0b00001011, 0b00000010,
           10, 0, 0, 0, 11, 0, 0, 0, 12, 0, 0, 0]) ∧
    WriteMatchNew osuConstants storedGzip .b312 scenarioMatch
      = .ok (WritePacket osuConstants storedGzip .b312 osuConstants.BanchoMatchNew
          [7, 0, 0x0b, 1, 109, 0, 0xff, 0xff, 0xff, 0xff, 0x0b, 2, 97, 98,
           0b00110100, 0b00001011, 0b00000010,
           10, 0, 0, 0, 11, 0, 0, 0, 12, 0, 0, 0]) ∧
    WriteMatchJoinSuccess osuConstants storedGzip .b312 scenarioMatch
      = .ok (WritePacket osuConstants storedGzip .b312 osuConstants.BanchoMatchJoinSuccess
          [7, 0, 0x0b, 1, 109, 0, 0xff, 0xff, 0xff, 0xff, 0x0b, 2, 97, 98,
           0b00110100, 0b00001011, 0b00000010,
           10, 0, 0, 0, 11, 0, 0, 0, 12, 0, 0, 0]) := by
  decide

/-- C13. Match-id guard: for the build-298 codec (and every codec that inherits its
methods) and every match with `Id > 255`, `WriteMatchUpdate` and `WriteMatchNew` write zero
bytes to the stream and return without an error or a panic. -/
theorem match_id_guard (K : Constants) (G : Gzip) (b : Build) (m : Match)
    (hid : m.Id > 255) :
    WriteMatchUpdate K G b m = .ok [] ∧ WriteMatchNew K G b m = .ok [] := by
  unfold WriteMatchUpdate WriteMatchNew B298.WriteMatchUpdate B298.WriteMatchNew
  have h : m.Id > 0xFF := hid
  simp only [h, if_true, ite_self, and_self]

theorem match_id_guard_witness :
    ({ scenarioMatch with Id := 256 } : Match).Id > 255 ∧
    WriteMatchUpdate osuConstants storedGzip .b298 { scenarioMatch with Id := 256 } = .ok [] ∧
    WriteMatchNew osuConstants storedGzip .b298 { scenarioMatch with Id := 256 } = .ok [] :=
  ⟨by decide,
   match_id_guard osuConstants storedGzip .b298 { scenarioMatch with Id := 256 } (by decide)⟩

/-! ## Chat messages -/

/-- C14, as stated, fails: on build 282 the payload written for
`Message{sender "a", content "hi", target "#osu"}` is the string "a" followed by the string
"hi", and `ReadMessage` reads one string from it: the decoded `Content` is "a", not "hi",
and the encoding of "hi" is left unread. -/
theorem B282_message_roundtrip_counterexample :
    B282.messagePayload
        { Sender := [97], Content := [104, 105], Target := osuChannel, SenderId := 0 }
      = [0x0b, 1, 97, 0x0b, 2, 104, 105] ∧
    B282.ReadMessage .reader (B282.messagePayload
        { Sender := [97], Content := [104, 105], Target := osuChannel, SenderId := 0 })
      = (.ok { Sender := [], Content := [97], Target := osuChannel, SenderId := 0 },
         [0x0b, 2, 104, 105]) ∧
    B282.ReadMessage .reader (B282.messagePayload
        { Sender := [97], Content := [104, 105], Target := osuChannel, SenderId := 0 })
      ≠ (.ok { Sender := [], Content := [104, 105], Target := osuChannel, SenderId := 0 },
         []) := by
  decide

/-- C14, amended. Using the build-282 codec, for every sender and content, `WriteMessage`
for `Message{sender, content, target "#osu"}` writes one `BanchoSendMessage` packet whose
payload is string sender, string content; decoding that payload with the same codec's
`ReadMessage` yields `Message{Sender: "", Content: sender, Target: "#osu"}`: the decoder
reads one string, which on this payload is the sender, and leaves the encoded content
unread. -/
theorem B282_message_decodes_sender (K : Constants) (G : Gzip) (client : B282) (k : Source)
    (sender content tail : Bytes) (senderId : Int) :
    B282.WriteMessage K G client
        { Sender := sender, Content := content, Target := osuChannel, SenderId := senderId }
      = B282.WritePacket K G client K.BanchoSendMessage
          (WriteString sender ++ WriteString content) ∧
    B282.ReadMessage k (B282.messagePayload
        { Sender := sender, Content := content, Target := osuChannel, SenderId := senderId }
        ++ tail)
      = (.ok { Sender := [], Content := sender, Target := osuChannel, SenderId := 0 },
         WriteString content ++ tail) := by
  constructor
  · simp [B282.WriteMessage, B282.messagePayload]
  · unfold B282.ReadMessage B282.messagePayload
    simp only [List.append_assoc]
    rw [andThen_ok _ _ _ _ _ (ReadString_WriteString k sender _)]

theorem B282_message_decodes_sender_witness :
    B282.ReadMessage .reader (B282.messagePayload
        { Sender := [97], Content := [104, 105], Target := osuChannel, SenderId := 0 } ++ [])
      = (.ok { Sender := [], Content := [97], Target := osuChannel, SenderId := 0 },
         WriteString [104, 105] ++ []) :=
  (B282_message_decodes_sender osuConstants storedGzip (newClient osuConstants .b282) .reader
    [97] [104, 105] [] 0).2

/-- C15, as stated, fails: on build 294 the payload written for
`Message{sender "a", content "hi", target "u2"}` is "a", "hi", true, and
`ReadPrivateMessage` takes the first string for the target: the decoded `Target` is "a",
not "u2". -/
theorem B294_message_roundtrip_counterexample :
    ([117, 50] : Bytes) ≠ osuChannel ∧
    B294.messagePayload
        { Sender := [97], Content := [104, 105], Target := [117, 50], SenderId := 0 }
      = [0x0b, 1, 97, 0x0b, 2, 104, 105, 1] ∧
    B294.ReadPrivateMessage .reader (B294.messagePayload
        { Sender := [97], Content := [104, 105], Target := [117, 50], SenderId := 0 })
      = (.ok { Sender := [], Content := [104, 105], Target := [97], SenderId := 0 }, []) ∧
    B294.ReadPrivateMessage .reader (B294.messagePayload
        { Sender := [97], Content := [104, 105], Target := [117, 50], SenderId := 0 })
      ≠ (.ok { Sender := [], Content := [104, 105], Target := [117, 50], SenderId := 0 },
         []) := by
  decide

/-- C15, amended. Using the build-294 codec, for every message whose target is not "#osu",
`WriteMessage` writes one `BanchoSendMessage` packet whose payload is string sender, string
content, then the bool true, and decoding that payload with `ReadPrivateMessage` yields
`Message{Sender: "", Content: content, Target: sender}`: the decoder takes the first string
of the payload, which is the sender, for the target. -/
theorem B294_message_decodes_sender_as_target (K : Constants) (G : Gzip) (client : B282)
    (k : Source) (message : Message) (tail : Bytes) (htarget : message.Target ≠ osuChannel) :
    B294.WriteMessage K G client message
      = B282.WritePacket K G client K.BanchoSendMessage
          (WriteString message.Sender ++ WriteString message.Content ++ WriteBoolean true) ∧
    B294.ReadPrivateMessage k (B294.messagePayload message ++ tail)
      = (.ok { Sender := [], Content := message.Content, Target := message.Sender,
               SenderId := 0 }, tail) := by
  have hp : B294.messagePayload message
      = WriteString message.Sender ++ WriteString message.Content ++ WriteBoolean true := by
    simp [B294.messagePayload, htarget]
  constructor
  · simp only [B294.WriteMessage, hp]
  · rw [hp]
    unfold B294.ReadPrivateMessage
    simp only [List.append_assoc]
    rw [andThen_ok _ _ _ _ _ (ReadString_WriteString k _ _)]
    rw [andThen_ok _ _ _ _ _ (ReadString_WriteString k _ _)]
    rw [andThen_ok _ _ _ _ _ (ReadBoolean_WriteBoolean _ _)]
    simp

theorem B294_message_decodes_sender_as_target_witness :
    ([117, 50] : Bytes) ≠ osuChannel ∧
    B294.ReadPrivateMessage .reader (B294.messagePayload
        { Sender := [97], Content := [104, 105], Target := [117, 50], SenderId := 0 } ++ [])
      = (.ok { Sender := [], Content := [104, 105], Target := [97], SenderId := 0 }, []) :=
  ⟨by decide,
   (B294_message_decodes_sender_as_target osuConstants storedGzip
     (newClient osuConstants .b294) .reader
     { Sender := [97], Content := [104, 105], Target := [117, 50], SenderId := 0 } []
     (by decide)).2⟩

/-! ## Layout of the build-312 match descriptor -/

theorem getD_map_bool {α : Type} (L : List α) (f : α → Bool) (i : Nat) (hi : i < L.length) :
    (L.map f).getD i false = f (L.get ⟨i, hi⟩) := by
  simp [List.getD, List.getElem?_map, List.getElem?_eq_getElem hi]

/-- C16. Layout of the build-312 match descriptor: with slot size 8 and a match of 8 slots,
`B312.WriteMatch` emits in order u8 id, bool in_progress, u8 type, string name, string
beatmap_text, i32 beatmap_id, string beatmap_checksum, one byte slotsOpen, one byte
slotsUsed, one byte slotsReady, then one i32 user_id for each slot that has a player, in
slot order; bit `i` of the slotsUsed byte is set iff slot `i` `HasPlayer()` (and bit `i` of
slotsOpen, slotsReady iff slot `i` is Open, Ready). -/
theorem B312_WriteMatch_layout (client : B282) (m : Match)
    (hsize : client.SlotSize = 8) (hinst : client.Instance ≠ none)
    (hslots : m.Slots.length = 8) :
    ∃ slotsOpen slotsUsed slotsReady : Byte,
      B312.WriteMatch client m = .ok (WriteUint8 (toUint8 m.Id) ++
        WriteBoolean m.InProgress ++ WriteUint8 m.MatchType ++ WriteString m.Name ++
        WriteString m.BeatmapText ++ WriteInt32 m.BeatmapId ++
        WriteString m.BeatmapChecksum ++ [slotsOpen] ++ [slotsUsed] ++ [slotsReady] ++
        (m.Slots.filter (fun slot => slot.HasPlayer)).flatMap
          (fun slot => WriteInt32 slot.UserId)) ∧
      ∀ (i : Nat) (hi : i < m.Slots.length),
        Nat.testBit slotsUsed.val i = (m.Slots.get ⟨i, hi⟩).HasPlayer ∧
        Nat.testBit slotsOpen.val i
          = decide ((m.Slots.get ⟨i, hi⟩).Status = SlotStatus.Open) ∧
        Nat.testBit slotsReady.val i
          = decide ((m.Slots.get ⟨i, hi⟩).Status = SlotStatus.Ready) := by
  have hsz : client.MatchSlotSize = 8 := hsize
  have hinst' : client.instanceSlotSize = .ok 8 := by
    unfold B282.instanceSlotSize
    cases hI : client.Instance with
    | none => exact absurd hI hinst
    | some _ => simp only [hsz]
  have htake : m.Slots.take 8 = m.Slots := List.take_of_length_le (by omega)
  obtain ⟨bo, hbo1, hbo2, _⟩ := boolList_roundtrip
    (m.Slots.map (fun slot => decide (slot.Status = SlotStatus.Open))) (by simp [hslots])
  obtain ⟨bu, hbu1, hbu2, _⟩ := boolList_roundtrip
    (m.Slots.map (fun slot => slot.HasPlayer)) (by simp [hslots])
  obtain ⟨br, hbr1, hbr2, _⟩ := boolList_roundtrip
    (m.Slots.map (fun slot => decide (slot.Status = SlotStatus.Ready))) (by simp [hslots])
  refine ⟨bo, bu, br, ?_, ?_⟩
  · unfold B312.WriteMatch
    simp only [hsz, hinst', htake, show ¬ ((8 : Int) < 0) by decide, if_false,
      show (8 : Int).toNat = 8 by rfl, hslots, lt_irrefl,
      WriteBoolListSized_eight _ _ (show (m.Slots.map
        (fun slot => decide (slot.Status = SlotStatus.Open))).length = 8 by simp [hslots]),
      WriteBoolListSized_eight _ _ (show (m.Slots.map
        (fun slot => slot.HasPlayer)).length = 8 by simp [hslots]),
      WriteBoolListSized_eight _ _ (show (m.Slots.map
        (fun slot => decide (slot.Status = SlotStatus.Ready))).length = 8 by simp [hslots]),
      hbo1, hbu1, hbr1, written]
  · intro i hi
    have hi8 : i < 8 := by omega
    have h1 := hbu2 ⟨i, hi8⟩
    have h2 := hbo2 ⟨i, hi8⟩
    have h3 := hbr2 ⟨i, hi8⟩
    simp only [getD_map_bool _ _ i hi] at h1 h2 h3
    exact ⟨h1, h2, h3⟩

theorem B312_WriteMatch_layout_witness :
    (newClient osuConstants .b312).SlotSize = 8 ∧
    (newClient osuConstants .b312).Instance ≠ none ∧
    scenarioMatch.Slots.length = 8 ∧
    scenarioMatch.Slots.map (fun slot => slot.HasPlayer)
      = [true, true, false, true, false, false, false, false] ∧
    B312.WriteMatch (newClient osuConstants .b312) scenarioMatch
      = .ok ([7] ++ [1] ++ [0] ++ [0x0b, 1, 109] ++ [0] ++ [0xff, 0xff, 0xff, 0xff] ++
          [0x0b, 2, 97, 98] ++ [0b00110100] ++ [0b00001011] ++ [0b00000010] ++
          [10, 0, 0, 0, 11, 0, 0, 0, 12, 0, 0, 0]) ∧
    ∃ slotsOpen slotsUsed slotsReady : Byte,
      B312.WriteMatch (newClient osuConstants .b312) scenarioMatch
        = .ok (WriteUint8 (toUint8 scenarioMatch.Id) ++
          WriteBoolean scenarioMatch.InProgress ++ WriteUint8 scenarioMatch.MatchType ++
          WriteString scenarioMatch.Name ++ WriteString scenarioMatch.BeatmapText ++
          WriteInt32 scenarioMatch.BeatmapId ++ WriteString scenarioMatch.BeatmapChecksum ++
          [slotsOpen] ++ [slotsUsed] ++ [slotsReady] ++
          (scenarioMatch.Slots.filter (fun slot => slot.HasPlayer)).flatMap
            (fun slot => WriteInt32 slot.UserId)) ∧
      ∀ (i : Nat) (hi : i < scenarioMatch.Slots.length),
        Nat.testBit slotsUsed.val i = (scenarioMatch.Slots.get ⟨i, hi⟩).HasPlayer ∧
        Nat.testBit slotsOpen.val i
          = decide ((scenarioMatch.Slots.get ⟨i, hi⟩).Status = SlotStatus.Open) ∧
        Nat.testBit slotsReady.val i
          = decide ((scenarioMatch.Slots.get ⟨i, hi⟩).Status = SlotStatus.Ready) :=
  ⟨by decide, by decide, by decide, by decide, by decide,
   B312_WriteMatch_layout (newClient osuConstants .b312) scenarioMatch (by decide)
     (by decide) (by decide)⟩

/-! ## Spectate frames -/

theorem ReadUint16_WriteUint16 (v : Nat) (tail : Bytes) (h : v < 65536) :
    ReadUint16 (WriteUint16 v ++ tail) = (.ok v, tail) :=
  ReadUint16_leBytes v tail h

theorem ReadUint32_WriteUint32 (v : Nat) (tail : Bytes) (h : v < 4294967296) :
    ReadUint32 (WriteUint32 v ++ tail) = (.ok v, tail) :=
  ReadUint32_leBytes v tail h

theorem ReadFloat32_WriteFloat32 (bits : Nat) (tail : Bytes) (h : bits < 4294967296) :
    ReadFloat32 (WriteFloat32 bits ++ tail) = (.ok bits, tail) :=
  ReadUint32_leBytes bits tail h

theorem ReadUint8_WriteUint8_lt (v : Nat) (tail : Bytes) (h : v < 256) :
    ReadUint8 (WriteUint8 v ++ tail) = (.ok v, tail) := by
  rw [ReadUint8_WriteUint8, Nat.mod_eq_of_lt h]

/-- The button state `ReadReplayFrame` builds from the two booleans `WriteSpectateFrames`
wrote is the wire button state. -/
theorem wireButtonState_read (state : Nat) :
    (if (decide (ButtonStateRight1 &&& state > 0) ||
          decide (ButtonStateRight2 &&& state > 0)) = true
      then (if (decide (ButtonStateLeft1 &&& state > 0) ||
                decide (ButtonStateLeft2 &&& state > 0)) = true
              then 0 ||| ButtonStateLeft1 else 0) ||| ButtonStateRight1
      else (if (decide (ButtonStateLeft1 &&& state > 0) ||
                decide (ButtonStateLeft2 &&& state > 0)) = true
              then 0 ||| ButtonStateLeft1 else 0)) = wireButtonState state := by
  unfold wireButtonState
  by_cases hl : ButtonStateLeft1 &&& state > 0 ∨ ButtonStateLeft2 &&& state > 0 <;>
    by_cases hr : ButtonStateRight1 &&& state > 0 ∨ ButtonStateRight2 &&& state > 0 <;>
    simp only [Bool.or_eq_true, decide_eq_true_eq, hl, hr, if_true, if_false] <;> rfl

theorem ReadReplayFrame_written (frame : ReplayFrame) (tail : Bytes) (h : frame.Typed) :
    B282.ReadReplayFrame (replayFrameBytes frame ++ tail) = (.ok frame.onWire, tail) := by
  obtain ⟨hx, hy, ht⟩ := h
  unfold B282.ReadReplayFrame replayFrameBytes
  simp only [List.append_assoc]
  rw [collect_ok _ _ _ _ _ _ _ (ReadBoolean_WriteBoolean _ _)]
  rw [collect_ok _ _ _ _ _ _ _ (ReadBoolean_WriteBoolean _ _)]
  rw [collect_ok _ _ _ _ _ _ _ (ReadFloat32_WriteFloat32 _ _ hx)]
  rw [collect_ok _ _ _ _ _ _ _ (ReadFloat32_WriteFloat32 _ _ hy)]
  rw [collect_ok _ _ _ _ _ _ _ (ReadInt32_WriteInt32 _ _ ht)]
  simp only [finish, ReplayFrame.onWire, wireButtonState_read]

theorem readFrames_written (frames : List ReplayFrame) :
    ∀ tail : Bytes, (∀ frame ∈ frames, frame.Typed) →
    readFrames frames.length (frames.flatMap replayFrameBytes ++ tail)
      = (.ok (frames.map ReplayFrame.onWire), tail) := by
  induction frames with
  | nil => intro tail _; rfl
  | cons frame rest ih =>
    intro tail h
    simp only [List.flatMap_cons, List.length_cons, List.append_assoc, readFrames,
      List.map_cons]
    rw [andThen_ok _ _ _ _ _ (ReadReplayFrame_written frame _ (h frame (List.mem_cons_self _ _)))]
    rw [andThen_ok _ _ _ _ _ (ih tail (fun f hf => h f (List.mem_cons_of_mem _ hf)))]

theorem wireButtonState_of_lt (state : Nat) (h : state < 4) : wireButtonState state = state := by
  interval_cases state <;> rfl

theorem map_onWire_of_lt (frames : List ReplayFrame)
    (h : ∀ frame ∈ frames, frame.ButtonState < 4) : frames.map ReplayFrame.onWire = frames := by
  induction frames with
  | nil => rfl
  | cons frame rest ih =>
    simp only [List.map_cons]
    rw [ih (fun f hf => h f (List.mem_cons_of_mem _ hf))]
    have hw := wireButtonState_of_lt frame.ButtonState (h frame (List.mem_cons_self _ _))
    simp only [ReplayFrame.onWire, hw]

/-- C17. Spectate-frames round trip on build 282: for every bundle with at most 65535
frames, `B282.WriteSpectateFrames` writes one `BanchoSpectateFrames` packet, and
`B282.ReadFrameBundle` applied to the payload of that packet returns the same number of frames in the same order and the same
`Action`, each frame keeping `MouseX`, `MouseY` and `Time` bit for bit, with `ButtonState`
equal to `Left1` (if the original had `Left1` or `Left2`) or-ed with `Right1` (if the
original had `Right1` or `Right2`); so frames whose button states use only `Left1` and
`Right1` come back exactly. -/
theorem B282_spectate_frames_roundtrip (K : Constants) (G : Gzip) (client : B282)
    (bundle : ReplayFrameBundle) (tail : Bytes)
    (hlen : bundle.Frames.length ≤ 65535) (haction : bundle.Action < 256)
    (hframes : ∀ frame ∈ bundle.Frames, frame.Typed) :
    B282.WriteSpectateFrames K G client bundle
      = B282.WritePacket K G client K.BanchoSpectateFrames
          (B282.spectateFramesPayload bundle) ∧
    B282.ReadFrameBundle (B282.spectateFramesPayload bundle ++ tail)
      = (.ok { Frames := bundle.Frames.map ReplayFrame.onWire, Action := bundle.Action,
               Frame := none }, tail) ∧
    (bundle.Frames.map ReplayFrame.onWire).length = bundle.Frames.length ∧
    (∀ frame ∈ bundle.Frames,
      frame.onWire.MouseX = frame.MouseX ∧ frame.onWire.MouseY = frame.MouseY ∧
      frame.onWire.Time = frame.Time ∧
      frame.onWire.ButtonState = wireButtonState frame.ButtonState) ∧
    ((∀ frame ∈ bundle.Frames, frame.ButtonState < 4) →
      bundle.Frames.map ReplayFrame.onWire = bundle.Frames) := by
  have hmod : bundle.Frames.length % 65536 = bundle.Frames.length :=
    Nat.mod_eq_of_lt (by omega)
  refine ⟨rfl, ?_, by simp, fun frame _ => ⟨rfl, rfl, rfl, rfl⟩, map_onWire_of_lt _⟩
  unfold B282.ReadFrameBundle B282.spectateFramesPayload
  simp only [List.append_assoc, hmod]
  rw [andThen_ok _ _ _ _ _ (ReadUint16_WriteUint16 _ _ (by omega))]
  rw [andThen_ok _ _ _ _ _ (readFrames_written bundle.Frames _ hframes)]
  rw [andThen_ok _ _ _ _ _ (ReadUint8_WriteUint8_lt _ _ haction)]

theorem B282_spectate_frames_roundtrip_witness :
    scenarioBundle.Frames.length ≤ 65535 ∧ scenarioBundle.Action < 256 ∧
    (∀ frame ∈ scenarioBundle.Frames, frame.Typed) ∧
    B282.WriteSpectateFrames osuConstants storedGzip (newClient osuConstants .b282)
        scenarioBundle
      = B282.WritePacket osuConstants storedGzip (newClient osuConstants .b282)
          osuConstants.BanchoSpectateFrames (B282.spectateFramesPayload scenarioBundle) ∧
    B282.ReadFrameBundle (B282.spectateFramesPayload scenarioBundle ++ [])
      = (.ok { Frames := [
                 { ButtonState := 3, MouseX := 0x42C80000, MouseY := 0x43480000, Time := -5 },
                 { ButtonState := 1, MouseX := 0, MouseY := 0x3F800000, Time := 1000 }],
               Action := 3, Frame := none }, []) :=
  ⟨by decide, by decide, by simp [scenarioBundle, ReplayFrame.Typed, IsInt32],
   (B282_spectate_frames_roundtrip osuConstants storedGzip (newClient osuConstants .b282)
     scenarioBundle [] (by decide) (by decide)
     (by simp [scenarioBundle, ReplayFrame.Typed, IsInt32])).1,
   (B282_spectate_frames_roundtrip osuConstants storedGzip (newClient osuConstants .b282)
     scenarioBundle [] (by decide) (by decide)
     (by simp [scenarioBundle, ReplayFrame.Typed, IsInt32])).2.1.trans (by decide)⟩

/-! ## Score frames -/

theorem B294_ReadScoreFrame_written (checksum : ScoreFrame → Bytes) (k : Source)
    (frame : ScoreFrame) (tail : Bytes) (h : frame.Typed) :
    B294.ReadScoreFrame k (B294.WriteScoreFrame checksum frame ++ tail)
      = (.ok { frame with Time := 0, TagByte := 0 }, tail) := by
  unfold B294.ReadScoreFrame B294.WriteScoreFrame
  simp only [List.append_assoc]
  rw [andThen_ok _ _ _ _ _ (ReadString_WriteString k _ _)]
  rw [andThen_ok _ _ _ _ _ (ReadUint8_WriteUint8_lt _ _ h.id)]
  rw [andThen_ok _ _ _ _ _ (ReadUint16_WriteUint16 _ _ h.total300)]
  rw [andThen_ok _ _ _ _ _ (ReadUint16_WriteUint16 _ _ h.total100)]
  rw [andThen_ok _ _ _ _ _ (ReadUint16_WriteUint16 _ _ h.total50)]
  rw [andThen_ok _ _ _ _ _ (ReadUint16_WriteUint16 _ _ h.totalGeki)]
  rw [andThen_ok _ _ _ _ _ (ReadUint16_WriteUint16 _ _ h.totalKatu)]
  rw [andThen_ok _ _ _ _ _ (ReadUint16_WriteUint16 _ _ h.totalMiss)]
  rw [andThen_ok _ _ _ _ _ (ReadUint32_WriteUint32 _ _ h.totalScore)]
  rw [andThen_ok _ _ _ _ _ (ReadUint16_WriteUint16 _ _ h.maxCombo)]
  rw [andThen_ok _ _ _ _ _ (ReadUint16_WriteUint16 _ _ h.currentCombo)]
  rw [andThen_ok _ _ _ _ _ (ReadBoolean_WriteBoolean _ _)]
  rw [andThen_ok _ _ _ _ _ (ReadUint8_WriteUint8_lt _ _ h.hp)]

theorem B296_ReadScoreFrame_written (checksum : ScoreFrame → Bytes) (k : Source)
    (frame : ScoreFrame) (tail : Bytes) (h : frame.Typed) :
    B296.ReadScoreFrame k (B296.WriteScoreFrame checksum frame ++ tail)
      = (.ok { frame with TagByte := 0 }, tail) := by
  unfold B296.ReadScoreFrame B296.WriteScoreFrame
  simp only [List.append_assoc]
  rw [collect_ok _ _ _ _ _ _ _ (ReadString_WriteString k _ _)]
  rw [collect_ok _ _ _ _ _ _ _ (ReadInt32_WriteInt32 _ _ h.time)]
  rw [collect_ok _ _ _ _ _ _ _ (ReadUint8_WriteUint8_lt _ _ h.id)]
  rw [collect_ok _ _ _ _ _ _ _ (ReadUint16_WriteUint16 _ _ h.total300)]
  rw [collect_ok _ _ _ _ _ _ _ (ReadUint16_WriteUint16 _ _ h.total100)]
  rw [collect_ok _ _ _ _ _ _ _ (ReadUint16_WriteUint16 _ _ h.total50)]
  rw [collect_ok _ _ _ _ _ _ _ (ReadUint16_WriteUint16 _ _ h.totalGeki)]
  rw [collect_ok _ _ _ _ _ _ _ (ReadUint16_WriteUint16 _ _ h.totalKatu)]
  rw [collect_ok _ _ _ _ _ _ _ (ReadUint16_WriteUint16 _ _ h.totalMiss)]
  rw [collect_ok _ _ _ _ _ _ _ (ReadUint32_WriteUint32 _ _ h.totalScore)]
  rw [collect_ok _ _ _ _ _ _ _ (ReadUint16_WriteUint16 _ _ h.maxCombo)]
  rw [collect_ok _ _ _ _ _ _ _ (ReadUint16_WriteUint16 _ _ h.currentCombo)]
  rw [collect_ok _ _ _ _ _ _ _ (ReadBoolean_WriteBoolean _ _)]
  rw [collect_ok _ _ _ _ _ _ _ (ReadUint8_WriteUint8_lt _ _ h.hp)]
  rfl

/-- C19. Score frame on build 296: `B296.WriteScoreFrame` emits the checksum string, then
i32 time, then u8 id, six u16 hit counts, u32 total_score, u16 max_combo, u16
current_combo, bool perfect, u8 hp, which is 4 bytes more than build 294's encoding of the
same frame; and for every score frame `f`, `B296.ReadScoreFrame` applied to those bytes
returns `f` with `Time` preserved and `TagByte = 0`. -/
theorem B296_score_frame_roundtrip (checksum : ScoreFrame → Bytes) (k : Source)
    (f : ScoreFrame) (tail : Bytes) (htyped : f.Typed) :
    B296.WriteScoreFrame checksum f =
      WriteString (checksum f) ++ WriteInt32 f.Time ++ WriteUint8 f.Id ++
        WriteUint16 f.Total300 ++ WriteUint16 f.Total100 ++ WriteUint16 f.Total50 ++
        WriteUint16 f.TotalGeki ++ WriteUint16 f.TotalKatu ++ WriteUint16 f.TotalMiss ++
        WriteUint32 f.TotalScore ++ WriteUint16 f.MaxCombo ++ WriteUint16 f.CurrentCombo ++
        WriteBoolean f.Perfect ++ WriteUint8 f.Hp ∧
    (B296.WriteScoreFrame checksum f).length
      = (B294.WriteScoreFrame checksum f).length + 4 ∧
    B296.ReadScoreFrame k (B296.WriteScoreFrame checksum f ++ tail)
      = (.ok { f with TagByte := 0 }, tail) := by
  refine ⟨rfl, ?_, B296_ReadScoreFrame_written checksum k f tail htyped⟩
  simp only [B296.WriteScoreFrame, B294.WriteScoreFrame, WriteInt32, WriteUint32,
    WriteUint16, WriteUint8, WriteBoolean, List.length_append, leBytes_length,
    List.length_singleton]

theorem scenarioScoreFrame_typed : scenarioScoreFrame.Typed :=
  ⟨by decide, by decide, by decide, by decide, by decide, by decide, by decide, by decide,
   by decide, by decide, by decide, by decide⟩

theorem zeroScoreFrame_typed : zeroScoreFrame.Typed :=
  ⟨by decide, by decide, by decide, by decide, by decide, by decide, by decide, by decide,
   by decide, by decide, by decide, by decide⟩

theorem B296_score_frame_roundtrip_witness :
    scenarioScoreFrame.Typed ∧
    B296.WriteScoreFrame (fun _ => [120]) scenarioScoreFrame
      = [0x0b, 1, 120, 77, 0, 0, 0, 1, 2, 0, 3, 0, 4, 0, 5, 0, 6, 0, 7, 0, 8, 0, 0, 0,
         9, 0, 10, 0, 1, 200] ∧
    B296.ReadScoreFrame .reader (B296.WriteScoreFrame (fun _ => [120]) scenarioScoreFrame ++ [])
      = (.ok { scenarioScoreFrame with TagByte := 0 }, []) :=
  ⟨scenarioScoreFrame_typed, by decide,
   (B296_score_frame_roundtrip (fun _ => [120]) .reader scenarioScoreFrame []
     scenarioScoreFrame_typed).2.2⟩

/-! ## The optional score frame of build 294 -/

theorem B294_ReadScoreFrame_nil (k : Source) :
    B294.ReadScoreFrame k [] = (.error .EOF, []) := rfl

/-- The payload of a bundle that starts with two all-zero replay frames and carries the
count 0 begins like the payload of a bundle with no replay frame, action 0 and an all-zero
score frame. -/
theorem oversized_payload_shape (more : Bytes) :
    WriteUint16 (65536 % 65536) ++
        (replayFrameBytes zeroReplayFrame ++ (replayFrameBytes zeroReplayFrame ++ more)) ++
        WriteUint8 0 ++ []
      = WriteUint16 0 ++ (WriteUint8 0 ++
          (B294.WriteScoreFrame (fun _ => []) zeroScoreFrame ++
            ([0, 0, 0] ++ ((more ++ WriteUint8 0) ++ [])))) := rfl

/-- C18, as stated, fails: a bundle of 65536 replay frames (all fields zero) and no score
frame is written by `B294.WriteSpectateFrames` as one `BanchoSpectateFrames` packet whose
payload has the count field `uint16(65536) = 0`; `B294.ReadFrameBundle` then
reads no replay frame, takes the first byte of the frame data for the action and decodes
the following bytes as a score frame: it returns a non-nil `Frame` although the bundle had
none. -/
theorem B294_optional_score_frame_counterexample :
    oversizedBundle.Frame = none ∧ oversizedBundle.Frames.length = 65536 ∧
    B294.WriteSpectateFrames osuConstants storedGzip (newClient osuConstants .b294)
        (fun _ => []) oversizedBundle
      = B282.WritePacket osuConstants storedGzip (newClient osuConstants .b294)
          osuConstants.BanchoSpectateFrames
          (B294.spectateFramesPayload (fun _ => []) oversizedBundle) ∧
    (B294.ReadFrameBundle .reader
        (B294.spectateFramesPayload (fun _ => []) oversizedBundle)).1
      = .ok { Frames := [], Action := 0, Frame := some zeroScoreFrame } := by
  have hcount : oversizedBundle.Frames.length = 65536 := List.length_replicate _ _
  refine ⟨rfl, hcount, rfl, ?_⟩
  have hframes : oversizedBundle.Frames
      = zeroReplayFrame :: zeroReplayFrame :: List.replicate 65534 zeroReplayFrame := by
    show List.replicate (65534 + 1 + 1) zeroReplayFrame = _
    rw [List.replicate_succ, List.replicate_succ]
  have hnone : oversizedBundle.Frame = none := rfl
  obtain ⟨rest, hpayload⟩ : ∃ rest, B294.spectateFramesPayload (fun _ => []) oversizedBundle
      = WriteUint16 0 ++ (WriteUint8 0 ++
          (B294.WriteScoreFrame (fun _ => []) zeroScoreFrame ++ rest)) := by
    unfold B294.spectateFramesPayload
    rw [hcount, hnone, hframes, List.flatMap_cons, List.flatMap_cons]
    exact ⟨_, oversized_payload_shape _⟩
  rw [hpayload]
  unfold B294.ReadFrameBundle
  rw [andThen_ok _ _ _ _ _ (ReadUint16_WriteUint16 0 _ (by decide))]
  rw [andThen_ok _ _ _ _ _ (show readFrames 0 _ = (.ok [], _) from rfl)]
  rw [andThen_ok _ _ _ _ _ (ReadUint8_WriteUint8_lt 0 _ (by decide))]
  simp only [optionalScoreFrame,
    B294_ReadScoreFrame_written (fun _ => []) .reader zeroScoreFrame rest zeroScoreFrame_typed]
  rfl

/-- C18, amended. Optional score frame on build 294: for every bundle with at most 65535
replay frames, `B294.WriteSpectateFrames` writes one `BanchoSpectateFrames` packet, and
`B294.ReadFrameBundle` applied to the payload of that packet succeeds; it returns `Frame = nil` when the bundle had no score
frame (no trailing bytes), and when the bundle had a score frame `f` it returns a score
frame equal to `f` in `Id`, the six hit counts, `TotalScore`, `MaxCombo`, `CurrentCombo`,
`Perfect` and `Hp`, with `Time = 0` (and `TagByte = 0`). -/
theorem B294_optional_score_frame (K : Constants) (G : Gzip) (client : B282)
    (checksum : ScoreFrame → Bytes) (k : Source)
    (bundle : ReplayFrameBundle) (hlen : bundle.Frames.length ≤ 65535)
    (htyped : bundle.Typed) :
    B294.WriteSpectateFrames K G client checksum bundle
      = B282.WritePacket K G client K.BanchoSpectateFrames
          (B294.spectateFramesPayload checksum bundle) ∧
    B294.ReadFrameBundle k (B294.spectateFramesPayload checksum bundle)
      = (.ok { Frames := bundle.Frames.map ReplayFrame.onWire, Action := bundle.Action,
               Frame := bundle.Frame.map (fun f => { f with Time := 0, TagByte := 0 }) },
         []) := by
  have hmod : bundle.Frames.length % 65536 = bundle.Frames.length :=
    Nat.mod_eq_of_lt (by omega)
  refine ⟨rfl, ?_⟩
  unfold B294.ReadFrameBundle B294.spectateFramesPayload
  simp only [List.append_assoc, hmod]
  rw [andThen_ok _ _ _ _ _ (ReadUint16_WriteUint16 _ _ (by omega))]
  rw [andThen_ok _ _ _ _ _ (readFrames_written bundle.Frames _ htyped.frames)]
  rw [andThen_ok _ _ _ _ _ (ReadUint8_WriteUint8_lt _ _ htyped.action)]
  cases hf : bundle.Frame with
  | none =>
    simp only [optionalScoreFrame, B294_ReadScoreFrame_nil, Option.map_none']
  | some f =>
    have h := B294_ReadScoreFrame_written checksum k f [] (htyped.frame f hf)
    rw [List.append_nil] at h
    simp only [optionalScoreFrame, h, Option.map_some']

theorem scenarioBundle_typed : scenarioBundle.Typed where
  action := by decide
  frames := by simp [scenarioBundle, ReplayFrame.Typed, IsInt32]
  frame := fun f h => by
    have h' : scenarioScoreFrame = f := Option.some.inj h
    rw [← h']
    exact scenarioScoreFrame_typed

theorem B294_optional_score_frame_witness :
    scenarioBundle.Frames.length ≤ 65535 ∧ scenarioBundle.Typed ∧
    B294.WriteSpectateFrames osuConstants storedGzip (newClient osuConstants .b294)
        (fun _ => [120]) scenarioBundle
      = B282.WritePacket osuConstants storedGzip (newClient osuConstants .b294)
          osuConstants.BanchoSpectateFrames
          (B294.spectateFramesPayload (fun _ => [120]) scenarioBundle) ∧
    B294.ReadFrameBundle .reader (B294.spectateFramesPayload (fun _ => [120]) scenarioBundle)
      = (.ok { Frames := [
                 { ButtonState := 3, MouseX := 0x42C80000, MouseY := 0x43480000, Time := -5 },
                 { ButtonState := 1, MouseX := 0, MouseY := 0x3F800000, Time := 1000 }],
               Action := 3,
               Frame := some { scenarioScoreFrame with Time := 0 } }, []) ∧
    B294.ReadFrameBundle .reader
        (B294.spectateFramesPayload (fun _ => [120]) { scenarioBundle with Frame := none })
      = (.ok { Frames := [
                 { ButtonState := 3, MouseX := 0x42C80000, MouseY := 0x43480000, Time := -5 },
                 { ButtonState := 1, MouseX := 0, MouseY := 0x3F800000, Time := 1000 }],
               Action := 3, Frame := none }, []) :=
  ⟨by decide, scenarioBundle_typed,
   (B294_optional_score_frame osuConstants storedGzip (newClient osuConstants .b294)
     (fun _ => [120]) .reader scenarioBundle (by decide) scenarioBundle_typed).1,
   (B294_optional_score_frame osuConstants storedGzip (newClient osuConstants .b294)
     (fun _ => [120]) .reader scenarioBundle (by decide) scenarioBundle_typed).2.trans
       (by decide),
   by decide⟩

/-! ## The status block -/

/-- C20. Status block round trip on build 282: for every `UserStatus` `s` with
`UpdateStats = false` and `Mods < 65536` (and a `uint8` action), and with `Text` and
`BeatmapChecksum` empty and `Mods = 0` whenever `Action` is the Unknown sentinel, the bytes
`WriteStatus` writes are u8 action, then (only if the action is not Unknown) string text,
string beatmap_checksum, u16 mods, and `ReadStatus` applied to them returns `s`: the same
`Action`, `Text`, `BeatmapChecksum` and `Mods` (and `UpdateStats = false`). -/
theorem B282_status_roundtrip (K : Constants) (k : Source) (s : UserStatus) (tail : Bytes)
    (hupd : s.UpdateStats = false) (hmods : s.Mods < 65536) (haction : s.Action < 256)
    (hunknown : s.Action = K.StatusUnknown →
      s.Text = [] ∧ s.BeatmapChecksum = [] ∧ s.Mods = 0) :
    B282.WriteStatus K s =
      WriteUint8 s.Action ++
        (if s.Action ≠ K.StatusUnknown then
          WriteString s.Text ++ WriteString s.BeatmapChecksum ++ WriteUint16 s.Mods
        else []) ∧
    B282.ReadStatus K k (B282.WriteStatus K s ++ tail) = (.ok s, tail) := by
  have hm : s.Mods % 65536 = s.Mods := Nat.mod_eq_of_lt hmods
  have hw : B282.WriteStatus K s =
      WriteUint8 s.Action ++
        (if s.Action ≠ K.StatusUnknown then
          WriteString s.Text ++ WriteString s.BeatmapChecksum ++ WriteUint16 s.Mods
        else []) := by
    simp only [B282.WriteStatus, hupd, Bool.false_eq_true, if_false, hm]
  refine ⟨hw, ?_⟩
  rw [hw]
  unfold B282.ReadStatus
  obtain ⟨action, text, checksum, mods, upd⟩ := s
  simp only at hupd hmods haction hunknown ⊢
  subst hupd
  by_cases hu : action = K.StatusUnknown
  · obtain ⟨ht, hc, hmz⟩ := hunknown hu
    subst ht hc hmz
    simp only [hu, ne_eq, not_true_eq_false, if_false, List.append_nil, List.append_assoc]
    rw [collect_ok _ _ _ _ _ _ _ (ReadUint8_WriteUint8_lt _ _ (hu ▸ haction))]
    simp only [ne_eq, not_true_eq_false, if_false, finish]
  · simp only [ne_eq, hu, not_false_eq_true, if_true, List.append_assoc]
    rw [collect_ok _ _ _ _ _ _ _ (ReadUint8_WriteUint8_lt _ _ haction)]
    simp only [ne_eq, hu, not_false_eq_true, if_true]
    rw [collect_ok _ _ _ _ _ _ _ (ReadString_WriteString k _ _)]
    rw [collect_ok _ _ _ _ _ _ _ (ReadString_WriteString k _ _)]
    rw [collect_ok _ _ _ _ _ _ _ (ReadUint16_WriteUint16 _ _ hmods)]
    simp only [finish]

theorem B282_status_roundtrip_witness :
    scenarioStatus.UpdateStats = false ∧ scenarioStatus.Mods < 65536 ∧
    scenarioStatus.Action < 256 ∧
    B282.WriteStatus osuConstants scenarioStatus = [2, 0x0b, 1, 97, 0x0b, 2, 98, 99, 64, 0] ∧
    B282.WriteStatus osuConstants unknownStatus = [7] ∧
    B282.ReadStatus osuConstants .reader (B282.WriteStatus osuConstants unknownStatus)
      = (.ok unknownStatus, []) ∧
    B282.ReadStatus osuConstants .reader (B282.WriteStatus osuConstants scenarioStatus ++ [])
      = (.ok scenarioStatus, []) :=
  ⟨rfl, by decide, by decide, by decide, by decide, by decide,
   (B282_status_roundtrip osuConstants .reader scenarioStatus [] rfl (by decide) (by decide)
     (by decide)).2⟩

/-! ## The user stats packet of build 282 -/

/-- Whatever the constants, `B282.WritePacket` translates `BanchoHandleIrcJoin` to the raw
ID 11: the frame starts with the bytes `0B 00`. -/
theorem WritePacket_ircJoin_raw (K : Constants) (G : Gzip) (client : B282) (data : Bytes) :
    B282.ConvertOutputPacketId K K.BanchoHandleIrcJoin = 11 ∧
    (B282.WritePacket K G client K.BanchoHandleIrcJoin data).take 2 = [11, 0] := by
  have h : B282.ConvertOutputPacketId K K.BanchoHandleIrcJoin = 11 := by
    simp only [B282.ConvertOutputPacketId, if_true]
  refine ⟨h, ?_⟩
  show ((WriteUint16 (B282.ConvertOutputPacketId K K.BanchoHandleIrcJoin) ++ _) ++ _).take 2 = _
  rw [h]
  rfl

/-- C21. `B282.WriteUserStats` writes one packet. For a user on IRC it is the packet of
logical ID `BanchoHandleIrcJoin`, which goes out under the raw ID 11, and its payload is
the encoded name alone. For any other user it is the packet of logical ID
`BanchoHandleOsuUpdate` whose payload is, in order: i32 id, string name, u64 ranked
score, f64 accuracy, i32 playcount, u64 total score, i32 rank, string avatar filename,
the status block, the byte `timezone + 24`, string location. -/
theorem B282_WriteUserStats_layout (K : Constants) (G : Gzip) (M : UserMethods)
    (client : B282) (info : UserInfo) :
    (info.Presence.IsIrc = true →
      B282.WriteUserStats K G M client info
        = B282.WritePacket K G client K.BanchoHandleIrcJoin (WriteString info.Name) ∧
      B282.ConvertOutputPacketId K K.BanchoHandleIrcJoin = 11 ∧
      (B282.WriteUserStats K G M client info).take 2 = [11, 0]) ∧
    (info.Presence.IsIrc = false →
      B282.WriteUserStats K G M client info
        = B282.WritePacket K G client K.BanchoHandleOsuUpdate
            (WriteInt32 info.Id ++
              WriteString info.Name ++
              WriteUint64 info.Stats.Rscore ++
              WriteFloat64 info.Stats.Accuracy ++
              WriteInt32 info.Stats.Playcount ++
              WriteUint64 info.Stats.Tscore ++
              WriteInt32 info.Stats.Rank ++
              WriteString (M.AvatarFilename info) ++
              B282.WriteStatus K info.Status ++
              WriteUint8 (toUint8 (info.Presence.Timezone + 24)) ++
              WriteString (M.Location info.Presence))) := by
  constructor
  · intro h
    have hw : B282.WriteUserStats K G M client info
        = B282.WritePacket K G client K.BanchoHandleIrcJoin (WriteString info.Name) := by
      simp only [B282.WriteUserStats, h, if_true]
    refine ⟨hw, (WritePacket_ircJoin_raw K G client []).1, ?_⟩
    rw [hw]
    exact (WritePacket_ircJoin_raw K G client _).2
  · intro h
    simp only [B282.WriteUserStats, h, Bool.false_eq_true, if_false, B282.WriteStats]

theorem B282_WriteUserStats_layout_witness :
    (scenarioIrcUser.Presence.IsIrc = true ∧
      B282.WriteUserStats osuConstants storedGzip scenarioMethods
          (newClient osuConstants .b282) scenarioIrcUser
        = [11, 0, 5, 0, 0, 0, 0x1f, 0x8b, 0x0b, 1, 97]) ∧
    (scenarioUser.Presence.IsIrc = false ∧
      B282.WriteUserStats osuConstants storedGzip scenarioMethods
          (newClient osuConstants .b282) scenarioUser
        = B282.WritePacket osuConstants storedGzip (newClient osuConstants .b282)
            osuConstants.BanchoHandleOsuUpdate
            ([5, 0, 0, 0] ++ [0x0b, 1, 97] ++ [0xe8, 3, 0, 0, 0, 0, 0, 0] ++
              [0, 0, 0, 0, 0, 0, 0, 0] ++ [3, 0, 0, 0] ++ [0xd0, 7, 0, 0, 0, 0, 0, 0] ++
              [1, 0, 0, 0] ++ [0x0b, 1, 97] ++ [2, 0x0b, 1, 97, 0x0b, 2, 98, 99, 64, 0] ++
              [25] ++ [0])) :=
  ⟨⟨rfl, ((B282_WriteUserStats_layout osuConstants storedGzip scenarioMethods
      (newClient osuConstants .b282) scenarioIrcUser).1 rfl).1.trans (by decide)⟩,
   ⟨rfl, ((B282_WriteUserStats_layout osuConstants storedGzip scenarioMethods
      (newClient osuConstants .b282) scenarioUser).2 rfl).trans (by decide)⟩⟩

/-! ## The presence packets of build 323 -/

/-- C22. For a user that is not on IRC, `B323.WriteUserPresence` writes two
`BanchoHandleOsuUpdate` packets: the first carries the flag byte 1 followed by the full
stats fields, the second the flag byte 0 and no stats field. For a user on IRC it writes
one `BanchoHandleIrcJoin` packet whose payload is the encoded name alone. -/
theorem B323_WriteUserPresence_packets (K : Constants) (G : Gzip) (M : UserMethods)
    (client : B282) (info : UserInfo) :
    (info.Presence.IsIrc = false →
      (B323.WriteUserPresence K G M client info).1
        = B282.WritePacket K G client K.BanchoHandleOsuUpdate
            (WriteUint32 (toUint32 info.Id) ++
              WriteBoolean true ++
              (WriteString info.Name ++
                WriteUint64 info.Stats.Rscore ++
                WriteFloat32 (M.float32 info.Stats.Accuracy) ++
                WriteUint32 (toUint32 info.Stats.Playcount) ++
                WriteUint64 info.Stats.Tscore ++
                WriteInt32 info.Stats.Rank ++
                WriteString (M.AvatarFilename
                  { info with Status := { info.Status with UpdateStats := true } }) ++
                WriteUint8 (toUint8 (info.Presence.Timezone + 24)) ++
                WriteString (M.Location info.Presence)) ++
              B282.WriteStatus K { info.Status with UpdateStats := true })
          ++ B282.WritePacket K G client K.BanchoHandleOsuUpdate
            (WriteUint32 (toUint32 info.Id) ++
              WriteBoolean false ++
              B282.WriteStatus K { info.Status with UpdateStats := false })) ∧
    (info.Presence.IsIrc = true →
      (B323.WriteUserPresence K G M client info).1
        = B282.WritePacket K G client K.BanchoHandleIrcJoin (WriteString info.Name)) := by
  constructor
  · intro h
    simp only [B323.WriteUserPresence, B323.WriteUserStats, B323.userStatsPayload, h,
      Bool.false_eq_true, if_false, if_true, List.append_nil]
  · intro h
    simp only [B323.WriteUserPresence, h, if_true]

theorem B323_WriteUserPresence_packets_witness :
    (scenarioUser.Presence.IsIrc = false ∧
      (B323.WriteUserPresence osuConstants storedGzip scenarioMethods
          (newClient osuConstants .b323) scenarioUser).1
        = [12, 0, 53, 0, 0, 0, 0x1f, 0x8b,
            5, 0, 0, 0, 1, 0x0b, 1, 97, 0xe8, 3, 0, 0, 0, 0, 0, 0, 0, 0, 0, 0, 3, 0, 0, 0,
            0xd0, 7, 0, 0, 0, 0, 0, 0, 1, 0, 0, 0, 0x0b, 1, 97, 25, 0,
            10, 0x0b, 1, 97, 0x0b, 2, 98, 99, 64, 0]
          ++ [12, 0, 17, 0, 0, 0, 0x1f, 0x8b,
            5, 0, 0, 0, 0, 2, 0x0b, 1, 97, 0x0b, 2, 98, 99, 64, 0]) ∧
    (scenarioIrcUser.Presence.IsIrc = true ∧
      (B323.WriteUserPresence osuConstants storedGzip scenarioMethods
          (newClient osuConstants .b323) scenarioIrcUser).1
        = [11, 0, 5, 0, 0, 0, 0x1f, 0x8b, 0x0b, 1, 97]) :=
  ⟨⟨rfl, ((B323_WriteUserPresence_packets osuConstants storedGzip scenarioMethods
      (newClient osuConstants .b323) scenarioUser).1 rfl).trans (by decide)⟩,
   ⟨rfl, ((B323_WriteUserPresence_packets osuConstants storedGzip scenarioMethods
      (newClient osuConstants .b323) scenarioIrcUser).2 rfl).trans (by decide)⟩⟩

/-! ## Messages outside the main channel on build 282 -/

/-- C23. On build 282, `WriteMessage` with a target other than "#osu" writes nothing (the
writer has no failing path, so there is no error to report); with the target "#osu" it
writes one `BanchoSendMessage` packet whose payload is the encoded sender followed by the
encoded content. -/
theorem B282_WriteMessage_target (K : Constants) (G : Gzip) (client : B282)
    (message : Message) :
    (message.Target ≠ osuChannel → B282.WriteMessage K G client message = []) ∧
    (message.Target = osuChannel →
      B282.WriteMessage K G client message
        = B282.WritePacket K G client K.BanchoSendMessage
            (WriteString message.Sender ++ WriteString message.Content)) := by
  constructor
  · intro h
    simp only [B282.WriteMessage, ne_eq, h, not_false_eq_true, if_true]
  · intro h
    simp only [B282.WriteMessage, ne_eq, h, not_true_eq_false, if_false,
      B282.messagePayload]

theorem B282_WriteMessage_target_witness :
    (([35, 97] : Bytes) ≠ osuChannel ∧
      B282.WriteMessage osuConstants storedGzip (newClient osuConstants .b282)
        { Sender := [97], Content := [98], Target := [35, 97], SenderId := 1 } = []) ∧
    (osuChannel = osuChannel ∧
      B282.WriteMessage osuConstants storedGzip (newClient osuConstants .b282)
        { Sender := [97], Content := [98], Target := osuChannel, SenderId := 1 }
        = [7, 0, 8, 0, 0, 0, 0x1f, 0x8b, 0x0b, 1, 97, 0x0b, 1, 98]) :=
  ⟨⟨by decide, (B282_WriteMessage_target osuConstants storedGzip
      (newClient osuConstants .b282)
      { Sender := [97], Content := [98], Target := [35, 97], SenderId := 1 }).1 (by decide)⟩,
   ⟨rfl, ((B282_WriteMessage_target osuConstants storedGzip (newClient osuConstants .b282)
      { Sender := [97], Content := [98], Target := osuChannel, SenderId := 1 }).2
        rfl).trans (by decide)⟩⟩

/-! ## Length fields that the stream cannot honour -/

/-- C24 at its failing input. The six bytes `04 00 FF FF FF FF` are the header of a
supported packet (`OsuPong`) with the length field -1. `ReadPacket` has no test of the
sign of the length: it goes on to `make([]byte, length)`, which panics. Whatever the
codec and the kind of stream, the call ends in that panic, not in a returned error. -/
theorem ReadPacket_negative_length_panics (G : Gzip) (b : Build) (k : Source) :
    B282.ConvertInputPacketId osuConstants 4 = osuConstants.OsuPong ∧
    osuConstants.OsuPong ∈ SupportedPackets osuConstants b ∧
    ReadInt32 [0xFF, 0xFF, 0xFF, 0xFF] = (.ok (-1), []) ∧
    ReadPacket osuConstants G b k [4, 0, 0xFF, 0xFF, 0xFF, 0xFF] = (.error .panic, []) := by
  refine ⟨by decide, by cases b <;> decide, by decide, ?_⟩
  cases b <;> rfl

/-- A supported packet whose positive length field exceeds what the stream holds: the one
`stream.Read` either reports `io.EOF` (nothing left) or copies fewer bytes than asked,
which `ReadPacket` turns into its "expected n bytes" error. -/
theorem ReadPacket_short_supported (K : Constants) (G : Gzip) (b : Build) (k : Source)
    (raw L : Nat) (rest : Bytes) (hraw : raw < 65536)
    (hs : B282.ConvertInputPacketId K raw ∈ SupportedPackets K b)
    (hL : 0 < L) (hL31 : L < 2147483648) (hshort : rest.length < L) :
    ReadPacket K G b k (leBytes 2 raw ++ leBytes 4 L ++ rest)
      = (.error (if rest = [] then .EOF else .expectedBytes L rest.length), []) := by
  have himpl := ImplementsPacket_of_mem (newClient K b) _ hs
  have hi32 : ReadInt32 (leBytes 4 L ++ rest) = (.ok (L : Int), rest) := by
    unfold ReadInt32
    rw [ReadUint32_leBytes _ _ (by omega)]
    simp only [toInt32_small _ hL31]
  have hneg : ¬ ((L : Int) < 0) := by omega
  unfold ReadPacket B282.ReadPacket
  rw [List.append_assoc, andThen_ok _ _ _ _ _ (ReadUint16_leBytes raw _ hraw)]
  simp only [himpl, Bool.not_true, Bool.false_eq_true, if_false]
  rw [andThen_ok _ _ _ _ _ hi32]
  simp only [hneg, if_false, Int.toNat_ofNat]
  cases rest with
  | nil =>
    have hread : k.Read L [] = (.error .EOF, []) := by
      cases k
      · rfl
      · simp only [Source.Read, Nat.pos_iff_ne_zero.mp hL, if_false]
    simp only [andThen, hread, if_true]
  | cons x xs =>
    have hlen : (x :: xs).length < L := hshort
    have hread : k.Read L (x :: xs) = (.ok (x :: xs), []) := by
      cases k <;>
        simp only [Source.Read, List.take_of_length_le (Nat.le_of_lt hlen),
          List.drop_of_length_le (Nat.le_of_lt hlen)]
    have hne : (x :: xs).length ≠ L := Nat.ne_of_lt hlen
    simp only [andThen, hread, ne_eq, hne, not_false_eq_true, if_true, if_false,
      reduceCtorEq]

/-- C25. Whatever the codec and the kind of stream, a frame header with a length `L > 0`
followed by fewer than `L` bytes makes `ReadPacket` return an error and no packet. When
the packet ID is supported the error is `io.EOF` if nothing follows the header and
"expected L bytes, got n" otherwise; in no case does the call panic. -/
theorem ReadPacket_short_payload (K : Constants) (G : Gzip) (b : Build) (k : Source)
    (raw L : Nat) (rest : Bytes) (hraw : raw < 65536)
    (hL : 0 < L) (hL31 : L < 2147483648) (hshort : rest.length < L) :
    (B282.ConvertInputPacketId K raw ∈ SupportedPackets K b →
      ReadPacket K G b k (leBytes 2 raw ++ leBytes 4 L ++ rest)
        = (.error (if rest = [] then .EOF else .expectedBytes L rest.length), [])) ∧
    ∃ e left, e ≠ Err.panic ∧
      ReadPacket K G b k (leBytes 2 raw ++ leBytes 4 L ++ rest) = (.error e, left) := by
  refine ⟨fun hs => ReadPacket_short_supported K G b k raw L rest hraw hs hL hL31 hshort, ?_⟩
  by_cases hs : B282.ConvertInputPacketId K raw ∈ SupportedPackets K b
  · refine ⟨_, [], ?_, ReadPacket_short_supported K G b k raw L rest hraw hs hL hL31 hshort⟩
    split <;> simp only [ne_eq, reduceCtorEq, not_false_eq_true]
  · refine ⟨.notImplemented (B282.ConvertInputPacketId K raw), leBytes 4 L ++ rest, ?_, ?_⟩
    · simp only [ne_eq, reduceCtorEq, not_false_eq_true]
    · rw [List.append_assoc]
      exact ReadPacket_rejects_unsupported K G b k raw _ hraw hs

theorem ReadPacket_short_payload_witness :
    (4 : Nat) < 65536 ∧ (0 : Nat) < 3 ∧ (3 : Nat) < 2147483648 ∧
    ([1, 2] : Bytes).length < 3 ∧
    ReadPacket osuConstants storedGzip .b282 .reader [4, 0, 3, 0, 0, 0, 1, 2]
      = (.error (.expectedBytes 3 2), []) ∧
    ReadPacket osuConstants storedGzip .b282 .reader [4, 0, 3, 0, 0, 0] = (.error .EOF, []) :=
  ⟨by decide, by decide, by decide, by decide,
   ((ReadPacket_short_payload osuConstants storedGzip .b282 .reader 4 3 [1, 2] (by decide)
      (by decide) (by decide) (by decide)).1 (by decide)).trans (by decide),
   by decide⟩

/-! ## The tag byte of a string -/

/-- C26. `ReadString` returns an error for every input whose first byte is neither `0x00`
nor `0x0B`; for the first byte `0x00` it returns the empty string and no error, and
consumes that byte only. -/
theorem ReadString_tag (k : Source) (rest : Bytes) :
    (∀ b : Byte, b ≠ 0x00 → b ≠ 0x0b →
      ReadString k (b :: rest) = (.error .invalidStringType, rest)) ∧
    ReadString k ((0x00 : Byte) :: rest) = (.ok [], rest) := by
  have hfull : ∀ b : Byte, readFull 1 (b :: rest) = (.ok [b], rest) := by
    intro b
    simp [readFull]
  have hval : ∀ b : Byte, leValue [b] = b.val := by
    intro b
    simp [leValue]
  constructor
  · intro b h0 hb
    have h0v : b.val ≠ 0 := fun h => h0 (Fin.ext h)
    have hbv : b.val ≠ 11 := fun h => hb (Fin.ext h)
    simp only [ReadString, hfull, hval, h0v, hbv, ne_eq, not_false_eq_true, if_true, if_false]
  · simp only [ReadString, hfull, hval, Fin.val_zero, if_true]

theorem ReadString_tag_witness :
    ((1 : Byte) ≠ 0x00 ∧ (1 : Byte) ≠ 0x0b ∧
      ReadString .reader [1, 97, 98] = (.error .invalidStringType, [97, 98])) ∧
    ReadString .reader [0, 97, 98] = (.ok [], [97, 98]) :=
  ⟨⟨by decide, by decide,
    (ReadString_tag .reader [97, 98]).1 1 (by decide) (by decide)⟩,
   (ReadString_tag .reader [97, 98]).2⟩

/-! ## Strings cut short -/

/-- C27 at its failing input. The bytes `0B 05 61 62` announce a string of five bytes and
hold two. The final `r.Read(buf)` of `ReadString` copies the two bytes and reports no
error; its count is discarded, so the call returns the five-byte value "ab" followed by
three zero bytes, with no error. Only when nothing at all follows the length does the
call fail. -/
theorem ReadString_truncated_returns_value (k : Source) :
    uleb128UnmarshalReader [5, 97, 98] = some (5, [97, 98]) ∧
    ReadString k [0x0b, 5, 97, 98] = (.ok [97, 98, 0, 0, 0], []) ∧
    ReadString k [0x0b, 5] = (.error .EOF, []) := by
  refine ⟨by decide, ?_, ?_⟩ <;> cases k <;> decide

/-! ## Bool lists of any length -/

theorem boolList_eight_or_more (bools : List Bool) (h : 8 ≤ bools.length) :
    ∃ b : Byte, WriteBoolList bools = .ok [b] ∧ WriteBoolList (bools.take 8) = .ok [b] ∧
      ∀ i : Fin 8, Nat.testBit b.val i.val = bools.getD i.val false := by
  match bools, h with
  | b0 :: b1 :: b2 :: b3 :: b4 :: b5 :: b6 :: b7 :: more, _ =>
    obtain ⟨b, h1, h2, _⟩ := boolList_roundtrip [b0, b1, b2, b3, b4, b5, b6, b7] rfl
    have hlong : ¬ (b0 :: b1 :: b2 :: b3 :: b4 :: b5 :: b6 :: b7 :: more).length < 8 := by
      simp only [List.length_cons]
      omega
    have hsame : WriteBoolList (b0 :: b1 :: b2 :: b3 :: b4 :: b5 :: b6 :: b7 :: more)
        = WriteBoolList [b0, b1, b2, b3, b4, b5, b6, b7] := by
      unfold WriteBoolList
      have hshort : ¬ [b0, b1, b2, b3, b4, b5, b6, b7].length < 8 := Nat.lt_irrefl 8
      rw [if_neg hlong, if_neg hshort]
      rfl
    refine ⟨b, hsame.trans h1, h1, ?_⟩
    intro i
    rw [h2 i]
    fin_cases i <;> rfl

/-- C28. Given fewer than 8 booleans, `WriteBoolList` returns its error and writes no byte.
Given 8 or more it writes one byte, the byte it writes for the first 8 alone, whose bit
`i` is `bools[i]`, and returns the result of that write. -/
theorem WriteBoolList_result (bools : List Bool) :
    (bools.length < 8 →
      WriteBoolList bools = .error .boolListTooShort ∧ written (WriteBoolList bools) = []) ∧
    (8 ≤ bools.length →
      ∃ b : Byte, WriteBoolList bools = .ok [b] ∧ WriteBoolList (bools.take 8) = .ok [b] ∧
        ∀ i : Fin 8, Nat.testBit b.val i.val = bools.getD i.val false) := by
  constructor
  · intro h
    have hw : WriteBoolList bools = .error .boolListTooShort := by
      simp only [WriteBoolList, h, if_true]
    exact ⟨hw, by rw [hw]; rfl⟩
  · exact boolList_eight_or_more bools

theorem WriteBoolList_result_witness :
    ([true, false, true].length < 8 ∧
      WriteBoolList [true, false, true] = .error .boolListTooShort ∧
      written (WriteBoolList [true, false, true]) = []) ∧
    (8 ≤ [true, true, false, true, false, false, false, false, true].length ∧
      ∃ b : Byte,
        WriteBoolList [true, true, false, true, false, false, false, false, true] = .ok [b] ∧
        WriteBoolList ([true, true, false, true, false, false, false, false, true].take 8)
          = .ok [b] ∧
        ∀ i : Fin 8, Nat.testBit b.val i.val
          = [true, true, false, true, false, false, false, false, true].getD i.val false) :=
  ⟨⟨by decide, (WriteBoolList_result [true, false, true]).1 (by decide)⟩,
   ⟨by decide,
    (WriteBoolList_result [true, true, false, true, false, false, false, false, true]).2
      (by decide)⟩⟩

/-! ## Matches of fewer than eight slots on build 298 -/

/-- C29 at its failing input. On the build-298 codec with the slot count overridden to 4,
each of the three bool lists that `B298.WriteMatch` builds has 4 entries, `WriteBoolList`
refuses each of them and writes nothing, and `WriteMatch` ignores the refusal: the match
descriptor goes out with no list byte at all, the user IDs following the beatmap checksum
at once. `B298.ReadMatch` with the same slot count then takes the bytes `0A 00 00` of the
first user ID for the three lists and returns four empty slots, leaving nine bytes
unread. -/
theorem B298_WriteMatch_short_lists_write_no_byte (k : Source) :
    ((newClient osuConstants .b298).OverrideMatchSlotSize 4).MatchSlotSize = 4 ∧
    fourSlotMatch.Slots =
      [{ Status := .NotReady, UserId := 10 }, { Status := .Ready, UserId := 11 },
       { Status := .Open, UserId := 0 }, { Status := .NotReady, UserId := 12 }] ∧
    WriteBoolList [false, false, true, false] = .error .boolListTooShort ∧
    WriteBoolList [true, true, false, true] = .error .boolListTooShort ∧
    WriteBoolList [false, true, false, false] = .error .boolListTooShort ∧
    B298.WriteMatch ((newClient osuConstants .b298).OverrideMatchSlotSize 4) fourSlotMatch
      = .ok ([7, 0] ++ [0x0b, 1, 109] ++ [0] ++ [0xFF, 0xFF, 0xFF, 0xFF] ++ [0x0b, 2, 97, 98] ++
          [10, 0, 0, 0, 11, 0, 0, 0, 12, 0, 0, 0]) ∧
    B298.ReadMatch ((newClient osuConstants .b298).OverrideMatchSlotSize 4) k
        ([7, 0] ++ [0x0b, 1, 109] ++ [0] ++ [0xFF, 0xFF, 0xFF, 0xFF] ++ [0x0b, 2, 97, 98] ++
          [10, 0, 0, 0, 11, 0, 0, 0, 12, 0, 0, 0])
      = (.ok { Id := 7, InProgress := false, MatchType := 0, Name := [109],
               BeatmapText := [], BeatmapId := -1, BeatmapChecksum := [97, 98],
               Slots := [{ Status := .Locked, UserId := 0 }, { Status := .Open, UserId := 0 },
                         { Status := .Locked, UserId := 0 }, { Status := .Open, UserId := 0 }] },
         [0, 11, 0, 0, 0, 12, 0, 0, 0]) := by
  refine ⟨rfl, rfl, by decide, by decide, by decide, by decide, ?_⟩
  cases k <;> decide

/-! ## The status block of an Unknown action -/

/-- C30, as stated, fails: a status whose `Action` is the Unknown sentinel and whose
`UpdateStats` is set is written with the action byte of `StatusStatsUpdate`, which is not
the sentinel, so the two strings and the mods follow it. -/
theorem WriteStatus_unknown_counterexample :
    unknownUpdatingStatus.Action = osuConstants.StatusUnknown ∧
    B282.WriteStatus osuConstants unknownUpdatingStatus = [10, 0, 0, 0, 0] ∧
    B282.WriteStatus osuConstants unknownUpdatingStatus
      ≠ WriteUint8 unknownUpdatingStatus.Action := by
  decide

/-- C30, amended. For every `UserStatus` whose `Action` is the Unknown sentinel and whose
`UpdateStats` is false, the status block written by `WriteStatus` consists of the action
byte only: no text, beatmap checksum or mods bytes follow it. -/
theorem WriteStatus_unknown_action_only (K : Constants) (status : UserStatus)
    (haction : status.Action = K.StatusUnknown) (hupd : status.UpdateStats = false) :
    B282.WriteStatus K status = WriteUint8 status.Action ∧
    (B282.WriteStatus K status).length = 1 := by
  have hw : B282.WriteStatus K status = WriteUint8 status.Action := by
    simp only [B282.WriteStatus, hupd, haction, Bool.false_eq_true, if_false, ne_eq,
      not_true_eq_false, List.append_nil]
  exact ⟨hw, by rw [hw]; rfl⟩

theorem WriteStatus_unknown_action_only_witness :
    unknownStatus.Action = osuConstants.StatusUnknown ∧ unknownStatus.UpdateStats = false ∧
    B282.WriteStatus osuConstants unknownStatus = [7] :=
  ⟨rfl, rfl,
   (WriteStatus_unknown_action_only osuConstants unknownStatus rfl rfl).1.trans (by decide)⟩

/-! ## The ID translation table of build 282 -/

/-- C31. `B282.ConvertInputPacketId` maps the raw ID 11 to the logical
`BanchoHandleIrcJoin`, every raw ID `r` with `11 < r <= 45` to `r - 1`, every raw ID
`r > 50` to `r - 1`, and every other raw ID (`r < 11` or `46 <= r <= 50`) to itself. -/
theorem B282_ConvertInputPacketId_table (K : Constants) (r : Nat) :
    B282.ConvertInputPacketId K 11 = K.BanchoHandleIrcJoin ∧
    (11 < r → r ≤ 45 → B282.ConvertInputPacketId K r = r - 1) ∧
    (50 < r → B282.ConvertInputPacketId K r = r - 1) ∧
    (r < 11 ∨ (46 ≤ r ∧ r ≤ 50) → B282.ConvertInputPacketId K r = r) := by
  refine ⟨?_, ?_, ?_, ?_⟩
  · simp only [B282.ConvertInputPacketId, if_true]
  · intro h1 h2
    have hne : r ≠ 11 := by omega
    have hin : r > 11 ∧ r ≤ 45 := ⟨h1, h2⟩
    have hlow : ¬ r - 1 > 50 := by omega
    simp only [B282.ConvertInputPacketId, hne, hin, hlow, if_true, if_false, and_self]
  · intro h
    have hne : r ≠ 11 := by omega
    have hin : ¬ (r > 11 ∧ r ≤ 45) := by omega
    have hhigh : r > 50 := h
    simp only [B282.ConvertInputPacketId, hne, hin, hhigh, if_true, if_false]
  · intro h
    have hne : r ≠ 11 := by omega
    have hin : ¬ (r > 11 ∧ r ≤ 45) := by omega
    have hhigh : ¬ r > 50 := by omega
    simp only [B282.ConvertInputPacketId, hne, hin, hhigh, if_false]

theorem B282_ConvertInputPacketId_table_witness :
    B282.ConvertInputPacketId osuConstants 11 = 0xFFFF ∧
    ((11 : Nat) < 45 ∧ (45 : Nat) ≤ 45 ∧ B282.ConvertInputPacketId osuConstants 45 = 44) ∧
    ((50 : Nat) < 51 ∧ B282.ConvertInputPacketId osuConstants 51 = 50) ∧
    (((46 : Nat) < 11 ∨ ((46 : Nat) ≤ 46 ∧ (46 : Nat) ≤ 50)) ∧
      B282.ConvertInputPacketId osuConstants 46 = 46) :=
  ⟨(B282_ConvertInputPacketId_table osuConstants 11).1,
   ⟨by decide, by decide,
    (B282_ConvertInputPacketId_table osuConstants 45).2.1 (by decide) (by decide)⟩,
   ⟨by decide, (B282_ConvertInputPacketId_table osuConstants 51).2.2.1 (by decide)⟩,
   ⟨by decide, (B282_ConvertInputPacketId_table osuConstants 46).2.2.2 (by decide)⟩⟩

/-! ## Compression of the empty payload -/

/-- Whatever the gzip library does, the empty payload is passed through: `WritePing` is the
two ID bytes followed by a zero length field and nothing else. -/
theorem WritePing_bytes (K : Constants) (G : Gzip) (b : Build) :
    WritePing K G b = leBytes 2 (B282.ConvertOutputPacketId K K.BanchoPing) ++ [0, 0, 0, 0] := by
  have hc : CompressData G [] = [] := rfl
  have hz : WriteUint32 (([] : Bytes).length % 4294967296) = [0, 0, 0, 0] := by decide
  simp only [WritePing, B282.WritePacket, hc, hz, WriteUint16, List.append_nil]

/-- C32, as stated, fails: on the build-282 codec `WritePing` writes six bytes,
`08 00 00 00 00 00` in the Bancho numbering, not seven; the length field is 0, not 20, and
no payload byte follows it, since `CompressData` returns the empty payload as it is. -/
theorem WritePing_counterexample :
    WritePing osuConstants storedGzip .b282 = [8, 0, 0, 0, 0, 0] ∧
    (WritePing osuConstants storedGzip .b282).length ≠ 7 ∧
    leValue (((WritePing osuConstants storedGzip .b282).drop 2).take 4) ≠ 20 := by
  decide

/-- C32, amended. Using the build-282 codec (or any later one), and whatever the gzip
library is, `WritePing` writes an output of exactly 6 bytes, whose compressed-length field
is 0 and whose payload is empty: the empty payload is not compressed. -/
theorem WritePing_six_bytes (K : Constants) (G : Gzip) (b : Build) :
    (WritePing K G b).length = 6 ∧
    leValue (((WritePing K G b).drop 2).take 4) = 0 ∧
    (WritePing K G b).drop 6 = [] ∧
    CompressData G [] = [] := by
  rw [WritePing_bytes]
  refine ⟨?_, ?_, ?_, rfl⟩
  · simp only [List.length_append, leBytes_length, List.length_cons, List.length_nil]
  · rw [List.drop_left' (leBytes_length 2 _)]
    rfl
  · exact List.drop_eq_nil_of_le
      (by simp only [List.length_append, leBytes_length, List.length_cons, List.length_nil,
        le_refl])

theorem WritePing_six_bytes_witness :
    (WritePing osuConstants storedGzip .b282).length = 6 ∧
    leValue (((WritePing osuConstants storedGzip .b282).drop 2).take 4) = 0 ∧
    (WritePing osuConstants storedGzip .b282).drop 6 = [] ∧
    CompressData storedGzip [] = [] :=
  WritePing_six_bytes osuConstants storedGzip .b282

/-- C33. Empty compression passthrough, whatever the gzip library is: `CompressData` applied
to the empty byte string returns the empty byte string (no gzip header), and
`DecompressData` applied to the empty byte string returns the empty byte string with no
error. -/
theorem empty_compression_passthrough (G : Gzip) :
    CompressData G [] = [] ∧ DecompressData G [] = .ok [] :=
  ⟨rfl, rfl⟩

/-! ## The registry invariant -/

theorem mapSet_keys_nodup {κ α : Type} [DecidableEq κ] (m : List (κ × α)) (k : κ) (v : α)
    (h : (m.map Prod.fst).Nodup) : ((mapSet m k v).map Prod.fst).Nodup := by
  unfold mapSet
  rw [List.map_cons, List.nodup_cons]
  constructor
  · intro hmem
    obtain ⟨p, hp, hpk⟩ := List.mem_map.mp hmem
    have hne := (List.mem_filter.mp hp).2
    simp only [Bool.not_eq_true', beq_eq_false_iff_ne, ne_eq] at hne
    exact hne hpk
  · exact h.sublist ((List.filter_sublist m).map Prod.fst)

theorem registryOf_keys_nodup {α : Type} (calls : List (Int × α)) :
    ((registryOf calls).clients.map Prod.fst).Nodup := by
  induction calls using List.reverseRecOn with
  | nil => exact List.nodup_nil
  | append_singleton calls c ih =>
    rw [registryOf_snoc]
    exact mapSet_keys_nodup _ _ _ ih

/-- C34. After any sequence of `RegisterClient` calls, `sortedVersions` is strictly
increasing and its elements are exactly the keys of the `clients` map; `clients[v]` is the
codec passed to the most recent `RegisterClient(v, _)` call; and one more call
`RegisterClient(v, c)` sets `clients[v]` to `c` and leaves the codec of every other build
unchanged. -/
theorem registry_invariant {α : Type} (calls : List (Int × α)) :
    (registryOf calls).sortedVersions.Sorted (fun a b => a < b) ∧
    (∀ v, v ∈ (registryOf calls).sortedVersions ↔
      v ∈ (registryOf calls).clients.map Prod.fst) ∧
    (∀ v, v ∈ (registryOf calls).sortedVersions ↔
      (mapGet (registryOf calls).clients v).isSome = true) ∧
    (∀ v, mapGet (registryOf calls).clients v = registeredAt calls v) ∧
    (∀ v c, mapGet (RegisterClient (registryOf calls) v c).clients v = some c ∧
      ∀ w, w ≠ v → mapGet (RegisterClient (registryOf calls) v c).clients w
        = mapGet (registryOf calls).clients w) := by
  have hperm := List.perm_insertionSort (fun a b : Int => a ≤ b)
    ((registryOf calls).clients.map Prod.fst)
  have hkeys : ∀ v, v ∈ (registryOf calls).sortedVersions ↔
      v ∈ (registryOf calls).clients.map Prod.fst := by
    intro v
    rw [registryOf_sorted_eq]
    exact hperm.mem_iff
  refine ⟨?_, hkeys, ?_, registryOf_clients calls, ?_⟩
  · have hnodup : (registryOf calls).sortedVersions.Nodup := by
      rw [registryOf_sorted_eq]
      exact hperm.nodup_iff.mpr (registryOf_keys_nodup calls)
    exact (registryOf_sorted calls).lt_of_le hnodup
  · intro v
    rw [hkeys, registryOf_keys, registryOf_clients]
    constructor
    · intro h
      obtain ⟨c, hc⟩ := registeredAt_isSome calls v h
      rw [hc]
      rfl
    · intro h
      cases hr : registeredAt calls v with
      | none => rw [hr] at h; exact absurd h Bool.false_ne_true
      | some c =>
        have hmem : v ∈ (registryOf calls).clients.map Prod.fst := by
          have hl : (registryOf calls).clients.lookup v = some c := by
            have := registryOf_clients calls v
            rw [hr] at this
            exact this
          obtain ⟨p, hp, hpv⟩ : ∃ p ∈ (registryOf calls).clients, p.1 = v := by
            by_contra hcon
            have hnone : (registryOf calls).clients.lookup v = none := by
              rw [List.lookup_eq_none_iff]
              intro p hp
              have hne : v ≠ p.1 := fun hvp => hcon ⟨p, hp, hvp.symm⟩
              simpa using hne
            rw [hnone] at hl
            exact absurd hl (by simp)
          exact List.mem_map.mpr ⟨p, hp, hpv⟩
        exact (registryOf_keys calls v).mp hmem
  · intro v c
    simp only [RegisterClient]
    refine ⟨?_, ?_⟩
    · rw [mapGet_mapSet, if_pos rfl]
    · intro w hw
      rw [mapGet_mapSet, if_neg hw]

/-! ## The quit packet of build 282 -/

/-- A frame is never empty: it starts with the six bytes of its header. -/
theorem WritePacket_ne_nil (K : Constants) (G : Gzip) (client : B282) (l : Nat)
    (d : Bytes) : B282.WritePacket K G client l d ≠ [] := by
  intro h
  have hlen : (B282.WritePacket K G client l d).length = 0 := by rw [h]; rfl
  simp only [B282.WritePacket, WriteUint16, WriteUint32, List.length_append,
    leBytes_length] at hlen
  omega

/-- C35. `B282.WriteUserQuit` writes one `BanchoHandleIrcQuit` packet carrying only the
name when the user is on IRC and the quit state is not `IrcRemaining`; otherwise it
writes nothing when the quit state is `OsuRemaining`; otherwise it writes one
`BanchoHandleOsuQuit` packet carrying the full stats block. The two quit states being
distinct, it writes zero bytes exactly when the user is not on IRC and the quit state is
`OsuRemaining`. -/
theorem B282_WriteUserQuit_branches (K : Constants) (Q : QuitStates) (G : Gzip)
    (M : UserMethods) (client : B282) (quit : UserQuit) :
    (quit.Info.Presence.IsIrc = true → quit.QuitState ≠ Q.IrcRemaining →
      B282.WriteUserQuit K Q G M client quit
        = B282.WritePacket K G client K.BanchoHandleIrcQuit (WriteString quit.Info.Name)) ∧
    (¬ (quit.Info.Presence.IsIrc = true ∧ quit.QuitState ≠ Q.IrcRemaining) →
      quit.QuitState = Q.OsuRemaining → B282.WriteUserQuit K Q G M client quit = []) ∧
    (¬ (quit.Info.Presence.IsIrc = true ∧ quit.QuitState ≠ Q.IrcRemaining) →
      quit.QuitState ≠ Q.OsuRemaining →
      B282.WriteUserQuit K Q G M client quit
        = B282.WritePacket K G client K.BanchoHandleOsuQuit (B282.WriteStats K M quit.Info)) ∧
    (Q.OsuRemaining ≠ Q.IrcRemaining →
      (B282.WriteUserQuit K Q G M client quit = [] ↔
        quit.Info.Presence.IsIrc = false ∧ quit.QuitState = Q.OsuRemaining)) := by
  have h1 : quit.Info.Presence.IsIrc = true → quit.QuitState ≠ Q.IrcRemaining →
      B282.WriteUserQuit K Q G M client quit
        = B282.WritePacket K G client K.BanchoHandleIrcQuit (WriteString quit.Info.Name) := by
    intro hirc hstate
    unfold B282.WriteUserQuit
    rw [if_pos ⟨hirc, hstate⟩]
  have h2 : ¬ (quit.Info.Presence.IsIrc = true ∧ quit.QuitState ≠ Q.IrcRemaining) →
      quit.QuitState = Q.OsuRemaining → B282.WriteUserQuit K Q G M client quit = [] := by
    intro hn hosu
    unfold B282.WriteUserQuit
    rw [if_neg hn, if_pos hosu]
  have h3 : ¬ (quit.Info.Presence.IsIrc = true ∧ quit.QuitState ≠ Q.IrcRemaining) →
      quit.QuitState ≠ Q.OsuRemaining →
      B282.WriteUserQuit K Q G M client quit
        = B282.WritePacket K G client K.BanchoHandleOsuQuit
            (B282.WriteStats K M quit.Info) := by
    intro hn hosu
    unfold B282.WriteUserQuit
    rw [if_neg hn, if_neg hosu]
  refine ⟨h1, h2, h3, ?_⟩
  intro hdistinct
  constructor
  · intro hnil
    by_cases hfirst : quit.Info.Presence.IsIrc = true ∧ quit.QuitState ≠ Q.IrcRemaining
    · rw [h1 hfirst.1 hfirst.2] at hnil
      exact absurd hnil (WritePacket_ne_nil K G client _ _)
    · by_cases hosu : quit.QuitState = Q.OsuRemaining
      · refine ⟨?_, hosu⟩
        cases hirc : quit.Info.Presence.IsIrc with
        | false => rfl
        | true =>
          exfalso
          apply hfirst
          refine ⟨hirc, ?_⟩
          rw [hosu]
          exact hdistinct
      · rw [h3 hfirst hosu] at hnil
        exact absurd hnil (WritePacket_ne_nil K G client _ _)
  · rintro ⟨hirc, hosu⟩
    apply h2 _ hosu
    rintro ⟨hirc', _⟩
    rw [hirc] at hirc'
    exact absurd hirc' (by decide)

theorem B282_WriteUserQuit_branches_witness :
    (scenarioIrcUser.Presence.IsIrc = true ∧ (0 : Nat) ≠ osuQuitStates.IrcRemaining ∧
      B282.WriteUserQuit osuConstants osuQuitStates storedGzip scenarioMethods
          (newClient osuConstants .b282) { Info := scenarioIrcUser, QuitState := 0 }
        = [10, 0, 5, 0, 0, 0, 0x1f, 0x8b, 0x0b, 1, 97]) ∧
    (¬ (scenarioUser.Presence.IsIrc = true ∧ (1 : Nat) ≠ osuQuitStates.IrcRemaining) ∧
      (1 : Nat) = osuQuitStates.OsuRemaining ∧
      B282.WriteUserQuit osuConstants osuQuitStates storedGzip scenarioMethods
          (newClient osuConstants .b282) { Info := scenarioUser, QuitState := 1 } = []) ∧
    (¬ (scenarioUser.Presence.IsIrc = true ∧ (0 : Nat) ≠ osuQuitStates.IrcRemaining) ∧
      (0 : Nat) ≠ osuQuitStates.OsuRemaining ∧
      B282.WriteUserQuit osuConstants osuQuitStates storedGzip scenarioMethods
          (newClient osuConstants .b282) { Info := scenarioUser, QuitState := 0 }
        = B282.WritePacket osuConstants storedGzip (newClient osuConstants .b282)
            osuConstants.BanchoHandleOsuQuit
            (B282.WriteStats osuConstants scenarioMethods scenarioUser)) ∧
    (osuQuitStates.OsuRemaining ≠ osuQuitStates.IrcRemaining ∧
      (B282.WriteUserQuit osuConstants osuQuitStates storedGzip scenarioMethods
          (newClient osuConstants .b282) { Info := scenarioIrcUser, QuitState := 1 } = [] ↔
        scenarioIrcUser.Presence.IsIrc = false ∧ (1 : Nat) = osuQuitStates.OsuRemaining)) :=
  ⟨⟨rfl, by decide,
    ((B282_WriteUserQuit_branches osuConstants osuQuitStates storedGzip scenarioMethods
      (newClient osuConstants .b282) { Info := scenarioIrcUser, QuitState := 0 }).1 rfl
        (by decide)).trans (by decide)⟩,
   ⟨by decide, rfl,
    (B282_WriteUserQuit_branches osuConstants osuQuitStates storedGzip scenarioMethods
      (newClient osuConstants .b282) { Info := scenarioUser, QuitState := 1 }).2.1
        (by decide) rfl⟩,
   ⟨by decide, by decide,
    (B282_WriteUserQuit_branches osuConstants osuQuitStates storedGzip scenarioMethods
      (newClient osuConstants .b282) { Info := scenarioUser, QuitState := 0 }).2.2.1
        (by decide) (by decide)⟩,
   ⟨by decide,
    (B282_WriteUserQuit_branches osuConstants osuQuitStates storedGzip scenarioMethods
      (newClient osuConstants .b282) { Info := scenarioIrcUser, QuitState := 1 }).2.2.2
        (by decide)⟩⟩

/-! ## Frames a codec writes and does not accept -/

/-- C36 at its failing input. `BanchoHandleIrcJoin` is in the supported list of no codec,
although the writers of build 282 pass it to `WritePacket` (every other ID they pass is in
the list). The frame that `WriteUserStats` writes for a user on IRC starts with the raw
ID 11; the same codec's `ReadPacket` translates it back to `BanchoHandleIrcJoin` and
refuses it as not implemented. -/
theorem ReadPacket_rejects_own_ircJoin_frame (G : Gzip) (M : UserMethods) (b : Build)
    (k : Source) :
    osuConstants.BanchoHandleIrcJoin ∈ B282.writtenPacketIds osuConstants ∧
    osuConstants.BanchoHandleIrcJoin ∉ SupportedPackets osuConstants b ∧
    (∀ l ∈ B282.writtenPacketIds osuConstants, l ≠ osuConstants.BanchoHandleIrcJoin →
      l ∈ SupportedPackets osuConstants b) ∧
    scenarioIrcUser.Presence.IsIrc = true ∧
    ∃ tail, WriteUserStats osuConstants G M b scenarioIrcUser = [11, 0] ++ tail ∧
      ReadPacket osuConstants G b k (WriteUserStats osuConstants G M b scenarioIrcUser)
        = (.error (.notImplemented osuConstants.BanchoHandleIrcJoin), tail) := by
  have hnot : B282.ConvertInputPacketId osuConstants 11 ∉ SupportedPackets osuConstants b := by
    cases b <;> decide
  have hw : WriteUserStats osuConstants G M b scenarioIrcUser
      = leBytes 2 11 ++
          (WriteUint32 ((CompressData G (WriteString scenarioIrcUser.Name)).length % 4294967296)
            ++ CompressData G (WriteString scenarioIrcUser.Name)) := by
    cases b <;> rfl
  refine ⟨by decide, hnot, by cases b <;> decide, rfl, _, hw, ?_⟩
  rw [hw]
  exact ReadPacket_rejects_unsupported osuConstants G b k 11 _ (by decide) hnot

/-! ## Match ids outside one byte -/

/-- C37 at its failing inputs. `WriteMatchJoinSuccess` has no guard: for the match id 256
it writes a packet whose id byte is 0. The guard of `WriteMatchUpdate` and
`WriteMatchNew` tests `Id > 0xFF` only: for the match id -1 they write a packet whose id
byte is 255. -/
theorem match_id_byte_truncated (G : Gzip) :
    wideIdMatch.Id = 256 ∧ negativeIdMatch.Id = -1 ∧
    B298.WriteMatch (newClient osuConstants .b298) wideIdMatch
      = .ok (0 :: scenarioMatchTail) ∧
    WriteMatchJoinSuccess osuConstants G .b298 wideIdMatch
      = .ok (WritePacket osuConstants G .b298 osuConstants.BanchoMatchJoinSuccess
          (0 :: scenarioMatchTail)) ∧
    B298.WriteMatch (newClient osuConstants .b298) negativeIdMatch
      = .ok (255 :: scenarioMatchTail) ∧
    WriteMatchUpdate osuConstants G .b298 negativeIdMatch
      = .ok (WritePacket osuConstants G .b298 osuConstants.BanchoMatchUpdate
          (255 :: scenarioMatchTail)) ∧
    WriteMatchNew osuConstants G .b298 negativeIdMatch
      = .ok (WritePacket osuConstants G .b298 osuConstants.BanchoMatchNew
          (255 :: scenarioMatchTail)) := by
  have hwide : B298.WriteMatch (newClient osuConstants .b298) wideIdMatch
      = .ok (0 :: scenarioMatchTail) := by decide
  have hneg : B298.WriteMatch (newClient osuConstants .b298) negativeIdMatch
      = .ok (255 :: scenarioMatchTail) := by decide
  have hguard : ¬ negativeIdMatch.Id > 0xFF := by decide
  have hrank : ¬ Build.b298.rank < Build.b298.rank := lt_irrefl _
  refine ⟨rfl, rfl, hwide, ?_, hneg, ?_, ?_⟩
  · simp only [WriteMatchJoinSuccess, B298.WriteMatchJoinSuccess, hrank, if_false, hwide,
      WritePacket]
  · simp only [WriteMatchUpdate, B298.WriteMatchUpdate, hrank, hguard, if_false, hneg,
      WritePacket]
  · simp only [WriteMatchNew, B298.WriteMatchNew, hrank, hguard, if_false, hneg,
      WritePacket]

/-! ## Presence packets through the promoted methods -/

/-- C38 at its failing input. On build 323, `WriteUserPresenceSingle` is the method promoted
from `*B282`: it calls `B282.WriteUserPresence`, hence `B282.WriteUserStats`, and writes one
packet in the build-282 layout (62 bytes here), not the two packets (82 bytes) that
`B323.WriteUserPresence` writes for the same user. `WriteUserPresenceBundle` on the
one-element list writes those same 62 bytes. -/
theorem B323_presence_single_uses_B282_layout :
    scenarioUser.Presence.IsIrc = false ∧
    WriteUserPresenceSingle osuConstants storedGzip scenarioMethods .b323 scenarioUser
      = B282.WriteUserStats osuConstants storedGzip scenarioMethods
          (newClient osuConstants .b323) scenarioUser ∧
    (WriteUserPresenceSingle osuConstants storedGzip scenarioMethods .b323
      scenarioUser).length = 62 ∧
    (WriteUserPresence osuConstants storedGzip scenarioMethods .b323 scenarioUser).length
      = 82 ∧
    WriteUserPresenceSingle osuConstants storedGzip scenarioMethods .b323 scenarioUser
      ≠ WriteUserPresence osuConstants storedGzip scenarioMethods .b323 scenarioUser ∧
    WriteUserPresenceBundle osuConstants storedGzip scenarioMethods .b323 [scenarioUser]
      = WriteUserPresenceSingle osuConstants storedGzip scenarioMethods .b323 scenarioUser ∧
    WriteUserPresenceBundle osuConstants storedGzip scenarioMethods .b323 [scenarioUser]
      ≠ WriteUserPresence osuConstants storedGzip scenarioMethods .b323 scenarioUser := by
  refine ⟨rfl, rfl, by decide, by decide, by decide, by decide, by decide⟩

/-! ## The caller's status after a presence packet -/

/-- C39 at its failing input. For a user that is not on IRC and whose status has
`UpdateStats` set, `B323.WriteUserPresence` leaves the status that `info.Status` points to
with `UpdateStats` cleared: the two assignments go through the pointer and the second one
stores `false`, not the value found on entry. -/
theorem B323_WriteUserPresence_clears_UpdateStats (K : Constants) (G : Gzip)
    (M : UserMethods) (client : B282) :
    updatingUser.Presence.IsIrc = false ∧
    updatingUser.Status.UpdateStats = true ∧
    (B323.WriteUserPresence K G M client updatingUser).2
      = { updatingUser.Status with UpdateStats := false } ∧
    (B323.WriteUserPresence K G M client updatingUser).2.UpdateStats = false ∧
    (B323.WriteUserPresence K G M client updatingUser).2 ≠ updatingUser.Status := by
  have h : (B323.WriteUserPresence K G M client updatingUser).2
      = { updatingUser.Status with UpdateStats := false } := rfl
  refine ⟨rfl, rfl, h, ?_, ?_⟩
  · rw [h]
  · rw [h]
    decide

/-! ## Slot counts above eight on build 298 -/

/-- C40 at its failing input. On the build-298 codec with the slot count overridden to 9,
`B298.ReadMatch` decodes each bool list with the one-argument `ReadBoolList`, which
returns 8 entries, and then indexes the lists up to the slot count: on a well-formed
descriptor with no player the ninth round reads `slotsOpen[8]` and panics. With the slot
count 8 the same input decodes without a panic. -/
theorem B298_ReadMatch_nine_slots_panics (k : Source) :
    ((newClient osuConstants .b298).OverrideMatchSlotSize 9).MatchSlotSize = 9 ∧
    (ReadBoolListFixed [0]).1.map List.length = .ok 8 ∧
    B298.ReadMatch ((newClient osuConstants .b298).OverrideMatchSlotSize 9) k emptyMatchBytes
      = (.error .panic, []) ∧
    (B298.ReadMatch ((newClient osuConstants .b298).OverrideMatchSlotSize 8) k
      emptyMatchBytes).1 ≠ .error .panic := by
  refine ⟨rfl, by decide, ?_, ?_⟩ <;> cases k <;> decide

end Chio
